import Mathlib

/-!
# Orasystem backend: RUT formatting/validation, the duplicate-safe forum-image protocol and
the job-application handlers

Shallow embedding of `src/index.js`.

* A JavaScript string is modelled as the list of its characters (`Texto`).  The two RUT
  functions only ever keep the ASCII characters `0-9`, `K`, `k` and drop everything else, so
  the difference between UTF-16 code units and Unicode scalar values is not observable there.
  Where the code measures a text (`ImagenBase64.length`, SQL `LEN`), the measure is the number
  of UTF-16 code units (`longitudUtf16`).
* A JavaScript number that can be `NaN` is modelled as `Option Nat` (`none` is `NaN`).  The
  sums computed by `validarRUT` are non-negative integers far below `2^53`, so they are exact.
-/

namespace Orasystem

/-- Text: a JavaScript string as its list of characters. -/
abbrev Texto := List Char

/-! ## RUT formatter / validator (`src/index.js`, lines 167-232) -/

/-- Character class `[0-9Kk]` of the regular expression `/[^0-9Kk]/g`. -/
def esCaracterRUT (c : Char) : Bool :=
  c.isDigit || c == 'K' || c == 'k'

/-- The call `rut.replace(/[^0-9Kk]/g, '')`: every character outside `[0-9Kk]` is removed. -/
def limpiar (rut : Texto) : Texto :=
  rut.filter esCaracterRUT

/-- The call `rutLimpio.replace(/k/g, 'K')`. -/
def kMayuscula (s : Texto) : Texto :=
  s.map (fun c => if c == 'k' then 'K' else c)

/-- The call `s.slice(0, -1)`: all but the last character. -/
def sliceCuerpo (s : Texto) : Texto :=
  s.dropLast

/-- The call `s.slice(-1)`: the last character as a string (empty for the empty string). -/
def sliceDv (s : Texto) : Texto :=
  s.drop (s.length - 1)

/-- The `for (let i = cuerpo.length - 1, j = 0; i >= 0; i--, j++)` loop of `formatearRUT`.
The first argument is the part of `cuerpo` not yet visited, last character first; `j` is the
loop counter and the third argument is `cuerpoFormateado`. -/
def formatearBucle : List Char → Nat → Texto → Texto
  | [], _, cuerpoFormateado => cuerpoFormateado
  | c :: resto, j, cuerpoFormateado =>
    let conPunto := if j > 0 && j % 3 == 0 then '.' :: cuerpoFormateado else cuerpoFormateado
    formatearBucle resto (j + 1) (c :: conPunto)

/-- The function `formatearRUT(rut)` for a text argument. -/
def formatearRUT (rut : Texto) : Texto :=
  if rut.isEmpty then rut
  else
    let rutLimpio := kMayuscula (limpiar rut)
    if rutLimpio.length < 7 then rut
    else
      let cuerpo := sliceCuerpo rutLimpio
      let dv := sliceDv rutLimpio
      let cuerpoFormateado := formatearBucle cuerpo.reverse 0 []
      cuerpoFormateado ++ '-' :: dv

/-- The call `parseInt(cuerpo[i])` on a one-character string: the digit value, or `NaN`. -/
def parseInt (c : Char) : Option Nat :=
  if c.isDigit then some (c.toNat - '0'.toNat) else none

/-- The statement `suma += x * multiplicador` on numbers that may be `NaN`. -/
def sumaMas (suma : Option Nat) (x : Option Nat) (multiplicador : Nat) : Option Nat :=
  match suma, x with
  | some s, some d => some (s + d * multiplicador)
  | _, _ => none

/-- The `for (let i = cuerpo.length - 1; i >= 0; i--)` loop of `validarRUT`.  The first argument
is the part of `cuerpo` not yet visited, last character first. -/
def sumaBucle : List Char → Option Nat → Nat → Option Nat
  | [], suma, _ => suma
  | c :: resto, suma, multiplicador =>
    sumaBucle resto (sumaMas suma (parseInt c) multiplicador)
      (if multiplicador = 7 then 2 else multiplicador + 1)

/-- The expression `11 - (suma % 11)`. -/
def dvCalculado (suma : Option Nat) : Option Nat :=
  suma.map (fun s => 11 - s % 11)

/-- The `if / else if / else` that turns `dvCalculado` into the string `dvEsperado`;
`NaN.toString()` is `"NaN"`. -/
def dvEsperado (dvCalc : Option Nat) : Texto :=
  match dvCalc with
  | none => ['N', 'a', 'N']
  | some v =>
    if v = 11 then ['0']
    else if v = 10 then ['K']
    else (Nat.repr v).toList

/-- The call `s.toUpperCase()`.  It is only applied to a string over `[0-9Kk]`, where the
JavaScript function and the ASCII one agree. -/
def toUpperCase (s : Texto) : Texto :=
  s.map Char.toUpper

/-- The function `validarRUT(rut)` for a text argument. -/
def validarRUT (rut : Texto) : Bool :=
  if rut.isEmpty then false
  else
    let rutLimpio := limpiar rut
    if rutLimpio.length < 7 then false
    else
      let cuerpo := sliceCuerpo rutLimpio
      let dv := toUpperCase (sliceDv rutLimpio)
      let suma := sumaBucle cuerpo.reverse (some 0) 2
      decide (dv = dvEsperado (dvCalculado suma))

/-! ## Forum images: the table and the create / update handlers
(`src/index.js`, lines 1968-2162 and 2225-2381)

The table is modelled sequentially: one request runs at a time against the committed rows,
and the rows change only when a transaction commits.  A title is stored as it was sent (the
same `NVarChar(100)` parameter is used by the duplicate check and by the write, so any
shortening by the driver applies to both).

The comparisons `Titulo = @titulo` and `PARTITION BY Titulo` are evaluated by SQL Server, not
by code of this repository: two texts are equal there when their sort keys under the collation
of the column agree, trailing blanks being ignored.  The collation is a parameter of the model
(`clave`, the sort key), so that every theorem holds for a binary, a case-insensitive or any
other collation. -/

/-- The number of UTF-16 code units of a character: 1 in the basic plane, 2 above it. -/
def unidadesUtf16 (c : Char) : Nat :=
  if c.toNat < 65536 then 1 else 2

/-- The JavaScript property `s.length`: the number of UTF-16 code units of the text. -/
def longitudUtf16 (s : Texto) : Nat :=
  (s.map unidadesUtf16).sum

/-- The text without its trailing blanks (`U+0020`). -/
def sinBlancosFinales (s : Texto) : Texto :=
  (s.reverse.dropWhile (fun c => c == ' ')).reverse

/-- The SQL comparison `a = b` on the column `Titulo` under the collation with sort key
`clave`: trailing blanks are ignored and the sort keys are compared. -/
def mismoTitulo (clave : Texto → Texto) (a b : Texto) : Bool :=
  decide (clave (sinBlancosFinales a) = clave (sinBlancosFinales b))

/-- A row of `[dbo].[ForoImagenes]` (columns of the `CREATE TABLE` at lines 1797-1806). -/
structure Fila where
  Id : Int
  Titulo : Texto
  Descripcion : Option Texto
  ImagenBase64 : Option Texto
  TipoImagen : Option Texto
  NombreArchivo : Option Texto
  Orden : Option Int
  FechaCreacion : Nat
deriving DecidableEq

/-- The committed table: its rows, and the next value of the `IDENTITY(1,1)` column `Id`. -/
structure Tabla where
  filas : List Fila
  identidad : Int
deriving DecidableEq

/-- The storage calls a handler can issue, in the order they appear in the source. -/
inductive Operacion where
  | conectar
  | iniciar
  | bloquear
  | buscarDuplicado
  | buscarPorId
  | limpiarHuerfanos
  | insertar
  | actualizar
  | confirmar
  | revertir
deriving DecidableEq

/-- How the outer `catch` of the create handler classifies the error it received. -/
inductive ClaseError where
  | timeout
  | memoria
  | truncamiento
  | otra
deriving DecidableEq

/-- What the handler cannot control: which storage calls reject, the value of
`transaction._aborted` when the inner `catch` runs, the class of the error, `GETDATE()`, and
the collation of the column `Titulo`, given by its sort key. -/
structure Entorno where
  falla : Operacion → Bool
  abortada : Bool
  claseError : ClaseError
  ahora : Nat
  clave : Texto → Texto

/-- The JSON body of a create or update request (`req.body`); `none` is a missing field. -/
structure CuerpoImagen where
  Titulo : Option Texto
  Descripcion : Option Texto
  ImagenBase64 : Option Texto
  TipoImagen : Option Texto
  NombreArchivo : Option Texto
  Orden : Option Int

/-- The status and the modelled fields of the JSON answer. -/
structure Respuesta where
  status : Nat
  success : Bool
  message : String
  dataId : Option Int
deriving DecidableEq

/-- What a request leaves behind: the answer, the committed table, the storage calls issued. -/
structure Resultado where
  respuesta : Respuesta
  tabla : Tabla
  traza : List Operacion
deriving DecidableEq

/-- How the inner `try` block ends: an answer sent from inside it, or a thrown error. -/
inductive Bloque where
  | responde (r : Respuesta) (t : Tabla) (traza : List Operacion)
  | lanza (t : Tabla) (traza : List Operacion)

/-- JavaScript truthiness of a text field: present and not empty. -/
def esVerdadero (v : Option Texto) : Bool :=
  match v with
  | some s => !s.isEmpty
  | none => false

/-- The expression `v || null` on a text field. -/
def oNulo (v : Option Texto) : Option Texto :=
  if esVerdadero v then v else none

/-- The expression `Orden || null`: a missing order and the order 0 both become `null`. -/
def ordenONulo (v : Option Int) : Option Int :=
  match v with
  | some n => if n = 0 then none else some n
  | none => none

/-- The constant `maxSize = 5 * 1024 * 1024`. -/
def maxSize : Nat := 5 * 1024 * 1024

/-- The SQL function `LEN` on an `NVARCHAR` value: the number of UTF-16 code units, trailing
blanks not counted. -/
def sqlLen (s : Texto) : Nat :=
  longitudUtf16 (sinBlancosFinales s)

/-- The call `s.split(sep)` for a one-character separator. -/
def dividir (sep : Char) : Texto → List Texto
  | [] => [[]]
  | c :: resto =>
    match dividir sep resto with
    | [] => [[]]
    | p :: ps => if c = sep then [] :: p :: ps else (c :: p) :: ps

/-- The message chosen by the outer `catch` of the create handler (lines 2139-2151). -/
def mensajeErrorCrear (c : ClaseError) : String :=
  match c with
  | .timeout => "Timeout al procesar la imagen - demasiado grande"
  | .memoria => "Error de memoria al procesar la imagen"
  | .truncamiento => "Datos demasiado grandes para almacenar"
  | .otra => "Error al crear imagen del foro"

/-- The inner `catch (transactionError)` followed by the outer `catch (error)`: a rollback is
attempted unless the transaction is already aborted, then the handler answers 500. -/
def cerrarBloque (env : Entorno) (mensaje : String) (previo : List Operacion) :
    Bloque → Resultado
  | .responde r t traza => ⟨r, t, previo ++ traza⟩
  | .lanza t traza =>
    ⟨⟨500, false, mensaje, none⟩, t,
      previo ++ traza ++ (if env.abortada then [] else [.revertir])⟩

/-- The WHERE clause of the orphan cleanup:
`Titulo = @titulo AND (ImagenBase64 IS NULL OR LEN(ImagenBase64) < 100)`. -/
def esHuerfana (clave : Texto → Texto) (titulo : Texto) (f : Fila) : Bool :=
  mismoTitulo clave f.Titulo titulo &&
    (match f.ImagenBase64 with
     | none => true
     | some img => decide (sqlLen img < 100))

/-- The inner `try` block of `POST /api/foroimagenes` (lines 2025-2103). -/
def transaccionCrear (env : Entorno) (t : Tabla) (titulo imagen : Texto)
    (req : CuerpoImagen) : Bloque :=
  if env.falla .iniciar then .lanza t [.iniciar]
  else if env.falla .bloquear then .lanza t [.iniciar, .bloquear]
  else if env.falla .buscarDuplicado then .lanza t [.iniciar, .bloquear, .buscarDuplicado]
  else
    let existingByTitle :=
      (t.filas.filter (fun f => mismoTitulo env.clave f.Titulo titulo)).map (·.Id)
    match existingByTitle with
    | duplicateId :: _ =>
      if env.falla .revertir then
        .lanza t [.iniciar, .bloquear, .buscarDuplicado, .revertir]
      else
        .responde ⟨409, false, "Ya existe una imagen con este título exacto", some duplicateId⟩
          t [.iniciar, .bloquear, .buscarDuplicado, .revertir]
    | [] =>
      if env.falla .limpiarHuerfanos then
        .lanza t [.iniciar, .bloquear, .buscarDuplicado, .limpiarHuerfanos]
      else
        let sinHuerfanas := t.filas.filter (fun f => !esHuerfana env.clave titulo f)
        if env.falla .insertar then
          .lanza t [.iniciar, .bloquear, .buscarDuplicado, .limpiarHuerfanos, .insertar]
        else
          let id := t.identidad
          let nueva : Fila :=
            { Id := id
              Titulo := titulo
              Descripcion := oNulo req.Descripcion
              ImagenBase64 := some imagen
              TipoImagen := oNulo req.TipoImagen
              NombreArchivo := oNulo req.NombreArchivo
              Orden := ordenONulo req.Orden
              FechaCreacion := env.ahora }
          if env.falla .confirmar then
            .lanza ⟨t.filas, t.identidad + 1⟩
              [.iniciar, .bloquear, .buscarDuplicado, .limpiarHuerfanos, .insertar, .confirmar]
          else
            .responde ⟨201, true, "Imagen del foro creada correctamente", some id⟩
              ⟨sinHuerfanas ++ [nueva], t.identidad + 1⟩
              [.iniciar, .bloquear, .buscarDuplicado, .limpiarHuerfanos, .insertar, .confirmar]

/-- The handler `app.post('/api/foroimagenes')`. -/
def postForoImagenes (env : Entorno) (t : Tabla) (req : CuerpoImagen) : Resultado :=
  if !esVerdadero req.Titulo || !esVerdadero req.ImagenBase64 then
    ⟨⟨400, false, "El título y la imagen son obligatorios", none⟩, t, []⟩
  else
    match req.Titulo, req.ImagenBase64 with
    | some titulo, some imagen =>
      if longitudUtf16 imagen > maxSize then
        ⟨⟨400, false, "La imagen es demasiado grande. Máximo 5MB permitido.", none⟩, t, []⟩
      else if !("data:image/".toList.isPrefixOf imagen) then
        ⟨⟨400, false, "Formato de imagen inválido. Debe ser una imagen en Base64.", none⟩, t, []⟩
      else if env.falla .conectar then
        ⟨⟨500, false, mensajeErrorCrear env.claseError, none⟩, t, [.conectar]⟩
      else
        cerrarBloque env (mensajeErrorCrear env.claseError) [.conectar]
          (transaccionCrear env t titulo imagen req)
    | _, _ => ⟨⟨400, false, "El título y la imagen son obligatorios", none⟩, t, []⟩

/-- The expression `ImagenBase64.split(';')[0].split(':')[1]`; `none` is `undefined`. -/
def tipoDeDataUrl (imagen : Texto) : Option Texto :=
  match dividir ';' imagen with
  | [] => none
  | primero :: _ => (dividir ':' primero)[1]?

/-- The SET clause of the UPDATE built at lines 2308-2318, applied to the row `f`, with the
values already read from the current row (`currentData`). -/
def filaActualizada (titulo : Texto) (req : CuerpoImagen) (currentData f : Fila) : Fila :=
  let currentTipoImagen : Texto := match oNulo currentData.TipoImagen with
    | some v => v
    | none => "image/jpeg".toList
  let currentNombreArchivo : Texto := match oNulo currentData.NombreArchivo with
    | some v => v
    | none => "imagen.jpg".toList
  let tipoImagenToUse : Option Texto :=
    if esVerdadero req.TipoImagen then req.TipoImagen
    else match oNulo req.ImagenBase64 with
      | some imagen => tipoDeDataUrl imagen
      | none => some currentTipoImagen
  let nombreArchivoToUse : Option Texto :=
    if esVerdadero req.NombreArchivo then req.NombreArchivo else some currentNombreArchivo
  { f with
    Titulo := titulo
    Descripcion := oNulo req.Descripcion
    ImagenBase64 := if esVerdadero req.ImagenBase64 then req.ImagenBase64 else f.ImagenBase64
    TipoImagen := tipoImagenToUse
    NombreArchivo := nombreArchivoToUse
    Orden := ordenONulo req.Orden }

/-- The inner `try` block of `PUT /api/foroimagenes/:id` (lines 2245-2353).  `imagenId` is
the integer the driver binds to `@id`; when `req.params.id` is not a number the driver rejects
the first statement that binds it, which is a failure of that statement. -/
def transaccionActualizar (env : Entorno) (t : Tabla) (imagenId : Int) (titulo : Texto)
    (req : CuerpoImagen) : Bloque :=
  if env.falla .iniciar then .lanza t [.iniciar]
  else if env.falla .bloquear then .lanza t [.iniciar, .bloquear]
  else if env.falla .buscarDuplicado then .lanza t [.iniciar, .bloquear, .buscarDuplicado]
  else
    let existingImage :=
      (t.filas.filter
        (fun f => mismoTitulo env.clave f.Titulo titulo && decide (f.Id ≠ imagenId))).map
        (·.Id)
    match existingImage with
    | duplicateId :: _ =>
      if env.falla .revertir then
        .lanza t [.iniciar, .bloquear, .buscarDuplicado, .revertir]
      else
        .responde ⟨409, false, "Ya existe otra imagen con este título", some duplicateId⟩
          t [.iniciar, .bloquear, .buscarDuplicado, .revertir]
    | [] =>
      if env.falla .buscarPorId then
        .lanza t [.iniciar, .bloquear, .buscarDuplicado, .buscarPorId]
      else
        match t.filas.filter (fun f => decide (f.Id = imagenId)) with
        | [] =>
          if env.falla .revertir then
            .lanza t [.iniciar, .bloquear, .buscarDuplicado, .buscarPorId, .revertir]
          else
            .responde ⟨404, false, "Imagen no encontrada", none⟩
              t [.iniciar, .bloquear, .buscarDuplicado, .buscarPorId, .revertir]
        | currentData :: _ =>
          if env.falla .actualizar then
            .lanza t [.iniciar, .bloquear, .buscarDuplicado, .buscarPorId, .actualizar]
          else
            let actualizadas := t.filas.map
              (fun f => if f.Id = imagenId then filaActualizada titulo req currentData f else f)
            let affectedRows := (t.filas.filter (fun f => decide (f.Id = imagenId))).length
            if affectedRows = 0 then
              if env.falla .revertir then
                .lanza t
                  [.iniciar, .bloquear, .buscarDuplicado, .buscarPorId, .actualizar, .revertir]
              else
                .responde
                  ⟨404, false, "No se pudo actualizar la imagen, posiblemente fue eliminada",
                    none⟩
                  t [.iniciar, .bloquear, .buscarDuplicado, .buscarPorId, .actualizar, .revertir]
            else if env.falla .confirmar then
              .lanza t
                [.iniciar, .bloquear, .buscarDuplicado, .buscarPorId, .actualizar, .confirmar]
            else
              .responde ⟨200, true, "Imagen del foro actualizada correctamente", none⟩
                ⟨actualizadas, t.identidad⟩
                [.iniciar, .bloquear, .buscarDuplicado, .buscarPorId, .actualizar, .confirmar]

/-- The handler `app.put('/api/foroimagenes/:id')`. -/
def putForoImagenes (env : Entorno) (t : Tabla) (imagenId : Int) (req : CuerpoImagen) :
    Resultado :=
  if !esVerdadero req.Titulo then
    ⟨⟨400, false, "El título es obligatorio", none⟩, t, []⟩
  else
    match req.Titulo with
    | some titulo =>
      if env.falla .conectar then
        ⟨⟨500, false, "Error al actualizar imagen del foro", none⟩, t, [.conectar]⟩
      else
        cerrarBloque env "Error al actualizar imagen del foro" [.conectar]
          (transaccionActualizar env t imagenId titulo req)
    | none => ⟨⟨400, false, "El título es obligatorio", none⟩, t, []⟩

/-- Primary key and identity: the `Id`s are pairwise different and below the next identity
value (`[Id] INT IDENTITY(1,1) PRIMARY KEY`). -/
def Tabla.BienFormada (t : Tabla) : Prop :=
  t.filas.Pairwise (fun f g => f.Id ≠ g.Id) ∧ ∀ f ∈ t.filas, f.Id < t.identidad

/-- Title uniqueness: no two rows of the table share a title. -/
def Tabla.TitulosUnicos (t : Tabla) : Prop :=
  t.filas.Pairwise (fun f g => f.Titulo ≠ g.Titulo)

/-- The committed table left by the end of a `try` block. -/
def Bloque.tabla : Bloque → Tabla
  | .responde _ t _ => t
  | .lanza t _ => t

instance (t : Tabla) : Decidable t.BienFormada := by
  unfold Tabla.BienFormada
  infer_instance

instance (t : Tabla) : Decidable t.TitulosUnicos := by
  unfold Tabla.TitulosUnicos
  infer_instance

/-- A create request passes the validation of lines 1985-2013: title and image present and
not empty, image of at most `maxSize` UTF-16 code units that starts with `data:image/`. -/
def pasaValidacionCrear (req : CuerpoImagen) : Bool :=
  esVerdadero req.Titulo && esVerdadero req.ImagenBase64 &&
    (match req.ImagenBase64 with
     | some imagen =>
       decide (longitudUtf16 imagen ≤ maxSize) && "data:image/".toList.isPrefixOf imagen
     | none => false)

/-- A create request is rejected by the validation, in the words of the specification: the
title or the image is missing or empty, or the image is longer than `5242880` characters
(counted as JavaScript counts them, in UTF-16 code units), or the image does not start with
`data:image/`. -/
def esInvalidaCrear (req : CuerpoImagen) : Prop :=
  esVerdadero req.Titulo = false ∨ esVerdadero req.ImagenBase64 = false ∨
    ∃ imagen, req.ImagenBase64 = some imagen ∧
      (5242880 < longitudUtf16 imagen ∨ "data:image/".toList.isPrefixOf imagen = false)

/-- The storage steps inside the transaction that the atomicity claim lists: begin, lock
query, duplicate check, cleanup or existence check, insert or update, commit. -/
def pasosTransaccion : List Operacion :=
  [.iniciar, .bloquear, .buscarDuplicado, .limpiarHuerfanos, .buscarPorId, .insertar,
    .actualizar, .confirmar]

/-- The calls that send a SQL statement (`request.query`), reads and writes alike. -/
def esSentencia (op : Operacion) : Bool :=
  match op with
  | .bloquear | .buscarDuplicado | .buscarPorId | .limpiarHuerfanos | .insertar
  | .actualizar => true
  | _ => false

/-- The statements that write: the DELETE, the INSERT and the UPDATE. -/
def esEscritura (op : Operacion) : Bool :=
  match op with
  | .limpiarHuerfanos | .insertar | .actualizar => true
  | _ => false

/-- In the trace, no `b` is issued before some `a` has been issued. -/
def precedido (a b : Operacion) : List Operacion → Bool
  | [] => true
  | op :: resto => if op = b then false else if op = a then true else precedido a b resto

/-- The first SQL statement of a trace, if one was sent. -/
def primeraSentencia (traza : List Operacion) : Option Operacion :=
  traza.find? esSentencia

/-! ## Job applications: `POST /api/postulacion` and `PUT /api/postulacion/:id`
(`src/index.js`, lines 83-107, 1026-1341 and 1558-1774)

The HTML of the mail and the thirteen optional columns that the update copies verbatim
(`AreaDeseada`, `PretensionRenta`, ...) are left out; they do not influence control flow. -/

/-- A row of `[dbo].[Postulaciones]` (the columns written by the two handlers). -/
structure Postulacion where
  Id : Int
  Nombre : Texto
  RUT : Texto
  Email : Texto
  Telefono : Option Texto
  Cargo : Texto
  Interes : Option Texto
  Mensaje : Option Texto
  ArchivoBase64 : Option Texto
  NombreArchivoOriginal : Option Texto
  TipoArchivo : Option Texto
deriving DecidableEq

/-- The table of applications and the next value of its identity column. -/
structure Almacen where
  postulaciones : List Postulacion
  identidad : Int
deriving DecidableEq

/-- The uploaded file `req.file`; `contenidoBase64` is what
`fs.readFileSync(req.file.path).toString('base64')` returns. -/
structure Archivo where
  originalname : Texto
  mimetype : Texto
  contenidoBase64 : Texto
deriving DecidableEq

/-- A mail handed to `transporter.sendMail`: recipient, subject and attachment file name. -/
structure Correo where
  para : String
  asunto : String
  adjunto : Option Texto
deriving DecidableEq

/-- The side effects of a job-application handler, in the order of the source. -/
inductive Efecto where
  | leerArchivo
  | borrarArchivo
  | conectarBD
  | consultaColumnas
  | insertarPostulacion
  | actualizarPostulacion
  | enviarCorreo
deriving DecidableEq

/-- What the job-application handlers cannot control: whether `handleUpload` rejects (and with
which message), which effects throw, and the message of a mail error.  A bind that the driver
rejects is a failure of the statement that carries it. -/
structure EntornoPostulacion where
  cargaRechazada : Option String
  falla : Efecto → Bool
  mensajeCorreo : String

/-- The body of `POST /api/postulacion` after `handleUpload`, with `req.file`. -/
structure CuerpoPostulacion where
  nombre : Option Texto
  rut : Option Texto
  email : Option Texto
  telefono : Option Texto
  cargo : Option Texto
  interes : Option Texto
  mensaje : Option Texto
  archivo : Option Archivo

/-- The body of `PUT /api/postulacion/:id`. -/
structure CuerpoActualizarPostulacion where
  Nombre : Option Texto
  RUT : Option Texto
  Email : Option Texto
  Telefono : Option Texto
  Cargo : Option Texto
  Interes : Option Texto
  Mensaje : Option Texto
  TipoArchivo : Option Texto

/-- What a job-application request leaves behind. -/
structure ResultadoPostulacion where
  respuesta : Respuesta
  almacen : Almacen
  correos : List Correo
  efectos : List Efecto
deriving DecidableEq

/-- The file block of lines 1080-1098: the three values kept for the insert and the mail
(`archivoBase64`, `nombreArchivoOriginal`, `tipoArchivo`), and the effects performed.  An
error while reading leaves the three values `null`; an error while deleting keeps them. -/
def procesarArchivo (env : EntornoPostulacion) (archivo : Option Archivo) :
    Option Archivo × List Efecto :=
  match archivo with
  | none => (none, [])
  | some f =>
    if env.falla .leerArchivo then (none, [.leerArchivo])
    else (some f, [.leerArchivo, .borrarArchivo])

/-- The inner `try` / `catch (dbError)` of lines 1104-1151: the insert is attempted and any
error is logged and swallowed (`Continuando con el envío de correo...`). -/
def guardarPostulacion (env : EntornoPostulacion) (a : Almacen) (nueva : Postulacion) :
    Almacen × List Efecto :=
  if env.falla .conectarBD then (a, [.conectarBD])
  else if env.falla .consultaColumnas then (a, [.conectarBD, .consultaColumnas])
  else if env.falla .insertarPostulacion then
    (a, [.conectarBD, .consultaColumnas, .conectarBD, .insertarPostulacion])
  else
    (⟨a.postulaciones ++ [nueva], a.identidad + 1⟩,
      [.conectarBD, .consultaColumnas, .conectarBD, .insertarPostulacion])

/-- The handler `app.post('/api/postulacion')`. -/
def postPostulacion (env : EntornoPostulacion) (a : Almacen) (req : CuerpoPostulacion) :
    ResultadoPostulacion :=
  match env.cargaRechazada with
  | some mensaje =>
    ⟨⟨400, false, "Error al procesar la postulación: " ++ mensaje, none⟩, a, [], []⟩
  | none =>
    if !esVerdadero req.nombre || !esVerdadero req.rut || !esVerdadero req.email ||
        !esVerdadero req.cargo || !esVerdadero req.interes then
      ⟨⟨400, false, "Todos los campos obligatorios son requeridos", none⟩, a, [], []⟩
    else
      match req.nombre, req.rut, req.email, req.cargo, req.interes with
      | some nombre, some rut, some email, some cargo, some interes =>
        let rutFormateado := formatearRUT rut
        let rutEsValido := validarRUT rutFormateado
        if !rutEsValido then
          ⟨⟨400, false, "El RUT ingresado no es válido", none⟩, a, [], []⟩
        else
          let archivo := procesarArchivo env req.archivo
          let nueva : Postulacion :=
            { Id := a.identidad
              Nombre := nombre
              RUT := rutFormateado
              Email := email
              Telefono := oNulo req.telefono
              Cargo := cargo
              Interes := some interes
              Mensaje := oNulo req.mensaje
              ArchivoBase64 := archivo.1.map (·.contenidoBase64)
              NombreArchivoOriginal := archivo.1.map (·.originalname)
              TipoArchivo := archivo.1.map (·.mimetype) }
          let guardado := guardarPostulacion env a nueva
          let adjunto : Option Texto :=
            match archivo.1 with
            | some f =>
              if !f.contenidoBase64.isEmpty && !f.originalname.isEmpty then
                some f.originalname
              else none
            | none => none
          if env.falla .enviarCorreo then
            ⟨⟨400, false, "Error al procesar la postulación: " ++ env.mensajeCorreo, none⟩,
              guardado.1, [], archivo.2 ++ guardado.2 ++ [.enviarCorreo]⟩
          else
            ⟨⟨200, true, "Postulación enviada correctamente", none⟩, guardado.1,
              [⟨"rrhh@orasystem.cl", "Nueva Postulación Laboral - Trabaja con Nosotros",
                adjunto⟩],
              archivo.2 ++ guardado.2 ++ [.enviarCorreo]⟩
      | _, _, _, _, _ =>
        ⟨⟨400, false, "Todos los campos obligatorios son requeridos", none⟩, a, [], []⟩

/-- The test `/^\d+$/.test(postulacionId)`: one or more decimal digits and nothing else. -/
def esNumerico (s : Texto) : Bool :=
  !s.isEmpty && s.all Char.isDigit

/-- The integer written by a string of decimal digits. -/
def valorDecimal (s : Texto) : Int :=
  s.foldl (fun n c => 10 * n + ((c.toNat - '0'.toNat : Nat) : Int)) 0

/-- The handler `app.put('/api/postulacion/:id')`. -/
def putPostulacion (env : EntornoPostulacion) (a : Almacen) (postulacionId : Texto)
    (req : CuerpoActualizarPostulacion) : ResultadoPostulacion :=
  if !esNumerico postulacionId then
    ⟨⟨400, false, "El ID de la postulación debe ser un número", none⟩, a, [], []⟩
  else if !esVerdadero req.Nombre || !esVerdadero req.RUT || !esVerdadero req.Email ||
      !esVerdadero req.Cargo then
    ⟨⟨400, false, "Los campos Nombre, RUT, Email y Cargo son obligatorios", none⟩, a, [], []⟩
  else
    match req.Nombre, req.RUT, req.Email, req.Cargo with
    | some nombre, some rut, some email, some cargo =>
      let rutFormateado := formatearRUT rut
      let rutEsValido := validarRUT rutFormateado
      if !rutEsValido then
        ⟨⟨400, false, "El RUT ingresado no es válido", none⟩, a, [], []⟩
      else if env.falla .conectarBD then
        ⟨⟨500, false, "Error al actualizar la postulación", none⟩, a, [], [.conectarBD]⟩
      else if env.falla .consultaColumnas then
        ⟨⟨500, false, "Error al actualizar la postulación", none⟩, a, [],
          [.conectarBD, .consultaColumnas]⟩
      else if env.falla .actualizarPostulacion then
        ⟨⟨500, false, "Error al actualizar la postulación", none⟩, a, [],
          [.conectarBD, .consultaColumnas, .actualizarPostulacion]⟩
      else
        let id := valorDecimal postulacionId
        let affectedRows := (a.postulaciones.filter (fun p => decide (p.Id = id))).length
        let actualizadas := a.postulaciones.map (fun p =>
          if p.Id = id then
            { p with
              Nombre := nombre
              RUT := rutFormateado
              Email := email
              Telefono := req.Telefono
              Cargo := cargo
              Interes := req.Interes
              Mensaje := req.Mensaje
              TipoArchivo := req.TipoArchivo }
          else p)
        if affectedRows = 0 then
          ⟨⟨404, false, "Postulación no encontrada", none⟩, ⟨actualizadas, a.identidad⟩, [],
            [.conectarBD, .consultaColumnas, .actualizarPostulacion]⟩
        else
          ⟨⟨200, true, "Postulación actualizada correctamente", none⟩,
            ⟨actualizadas, a.identidad⟩, [],
            [.conectarBD, .consultaColumnas, .actualizarPostulacion]⟩
    | _, _, _, _ =>
      ⟨⟨400, false, "Los campos Nombre, RUT, Email y Cargo son obligatorios", none⟩, a, [], []⟩

/-- All five required fields of a job application are present and not empty. -/
def camposCompletos (req : CuerpoPostulacion) : Bool :=
  esVerdadero req.nombre && esVerdadero req.rut && esVerdadero req.email &&
    esVerdadero req.cargo && esVerdadero req.interes

/-- All four required fields of an application update are present and not empty. -/
def camposCompletosActualizar (req : CuerpoActualizarPostulacion) : Bool :=
  esVerdadero req.Nombre && esVerdadero req.RUT && esVerdadero req.Email &&
    esVerdadero req.Cargo

/-- The trace of the end of a `try` block. -/
def Bloque.traza : Bloque → List Operacion
  | .responde _ _ traza => traza
  | .lanza _ traza => traza

/-- A `try` block ended as the failure oracle dictates: if it threw, the last call issued is
the one that failed, every earlier call succeeded and the rows are the ones before the
request; if it answered, every call issued succeeded. -/
def Bloque.Coherente (env : Entorno) (t : Tabla) : Bloque → Prop
  | .lanza t1 traza =>
    t1.filas = t.filas ∧
    ∃ ultima, traza.getLast? = some ultima ∧ env.falla ultima = true ∧
      ∀ o ∈ traza.dropLast, env.falla o = false
  | .responde _ _ traza => ∀ o ∈ traza, env.falla o = false

/-- What the atomicity claim promises for a result `r` when the storage step `op` failed:
status 500 with `success = false`, the rows of the table before the request, and a trace in
which every call before `op` succeeded and `op` is followed only by the rollback, which is
issued unless the transaction is already aborted; in particular no commit follows. -/
def fallaAtomica (env : Entorno) (t : Tabla) (op : Operacion) (r : Resultado) : Prop :=
  r.respuesta.status = 500 ∧ r.respuesta.success = false ∧ r.tabla.filas = t.filas ∧
  ∃ previas posteriores, r.traza = previas ++ op :: posteriores ∧
    (∀ o ∈ previas, env.falla o = false) ∧
    posteriores = (if env.abortada then [] else [.revertir]) ∧
    Operacion.confirmar ∉ posteriores

/-- The ordering of the claim on a trace: the first SQL statement, if any, is the lock query
and it comes after the begin; the lock query comes before each read (duplicate check,
existence check); the duplicate check comes before each write (DELETE, INSERT, UPDATE). -/
def ordenRespetado (traza : List Operacion) : Bool :=
  (primeraSentencia traza == none || primeraSentencia traza == some .bloquear) &&
  precedido .iniciar .bloquear traza &&
  precedido .bloquear .buscarDuplicado traza &&
  precedido .bloquear .buscarPorId traza &&
  precedido .buscarDuplicado .limpiarHuerfanos traza &&
  precedido .buscarDuplicado .insertar traza &&
  precedido .buscarDuplicado .actualizar traza

/-- No write statement occurs in the trace. -/
def sinEscrituras (traza : List Operacion) : Bool :=
  traza.all (fun op => !esEscritura op)

/-- A job application passes validation: the upload is accepted, the five required fields are
present and the formatted RUT is valid. -/
def pasaValidacionPostulacion (env : EntornoPostulacion) (req : CuerpoPostulacion) : Prop :=
  env.cargaRechazada = none ∧ camposCompletos req = true ∧
    ∃ rut, req.rut = some rut ∧ validarRUT (formatearRUT rut) = true

/-! ## Forum images: the administrative cleanup
(`src/index.js`, lines 2165-2222)

The two DELETE statements run on the pool, outside any transaction: each one is committed as
soon as it succeeds. -/

/-- The storage calls of the cleanup handler, in the order of the source. -/
inductive PasoLimpieza where
  | conectar
  | borrarDuplicados
  | borrarHuerfanos
deriving DecidableEq

/-- The row that `ROW_NUMBER() OVER (PARTITION BY Titulo ORDER BY FechaCreacion DESC)` numbers
1 in the partition of `titulo`: a row whose title the database compares equal to `titulo`,
with the greatest `FechaCreacion`.  Among rows with the same date the engine is free to
choose; the first one in storage order is taken. -/
def masReciente (clave : Texto → Texto) (titulo : Texto) : List Fila → Option Fila
  | [] => none
  | f :: resto =>
    if mismoTitulo clave f.Titulo titulo then
      match masReciente clave titulo resto with
      | some g => if f.FechaCreacion < g.FechaCreacion then some g else some f
      | none => some f
    else masReciente clave titulo resto

/-- The subquery `SELECT Id FROM DuplicatesByTitle WHERE RowNum > 1`. -/
def idsDuplicados (clave : Texto → Texto) (filas : List Fila) : List Int :=
  (filas.filter (fun f => decide (masReciente clave f.Titulo filas ≠ some f))).map (·.Id)

/-- The first DELETE (lines 2173-2187): the rows whose `Id` is in the subquery are removed. -/
def borrarDuplicadosPorTitulo (clave : Texto → Texto) (filas : List Fila) : List Fila :=
  filas.filter (fun f => decide (f.Id ∉ idsDuplicados clave filas))

/-- The WHERE clause of the second DELETE:
`ImagenBase64 IS NULL OR LEN(ImagenBase64) < 100`. -/
def sinImagen (f : Fila) : Bool :=
  match f.ImagenBase64 with
  | none => true
  | some img => decide (sqlLen img < 100)

/-- The second DELETE (lines 2193-2198). -/
def borrarHuerfanas (filas : List Fila) : List Fila :=
  filas.filter (fun f => !sinImagen f)

/-- What a cleanup request leaves behind: the answer with its two counters, the table and the
storage calls issued. -/
structure ResultadoLimpieza where
  status : Nat
  success : Bool
  deletedByTitle : Option Nat
  deletedOrphans : Option Nat
  tabla : Tabla
  traza : List PasoLimpieza
deriving DecidableEq

/-- The handler `app.post('/api/foroimagenes/limpiar-duplicados')`; `clave` is the sort key
of the collation of `Titulo` and `falla` says which storage call rejects.  Each counter is the
`@@ROWCOUNT` of its DELETE. -/
def limpiarDuplicados (clave : Texto → Texto) (falla : PasoLimpieza → Bool) (t : Tabla) :
    ResultadoLimpieza :=
  if falla .conectar then ⟨500, false, none, none, t, [.conectar]⟩
  else if falla .borrarDuplicados then
    ⟨500, false, none, none, t, [.conectar, .borrarDuplicados]⟩
  else
    let sinDuplicados := borrarDuplicadosPorTitulo clave t.filas
    let deletedByTitle := t.filas.length - sinDuplicados.length
    if falla .borrarHuerfanos then
      ⟨500, false, none, none, ⟨sinDuplicados, t.identidad⟩,
        [.conectar, .borrarDuplicados, .borrarHuerfanos]⟩
    else
      let conImagen := borrarHuerfanas sinDuplicados
      let deletedOrphans := sinDuplicados.length - conImagen.length
      ⟨200, true, some deletedByTitle, some deletedOrphans, ⟨conImagen, t.identidad⟩,
        [.conectar, .borrarDuplicados, .borrarHuerfanos]⟩

/-- Two texts of the same length differ in exactly one position. -/
def difierenEnUnaPosicion (b b' : Texto) : Prop :=
  ∃ (pre : Texto) (x y : Char) (post : Texto),
    b = pre ++ x :: post ∧ b' = pre ++ y :: post ∧ x ≠ y

/-- The text `b'` is `b` with two neighbouring, different characters swapped. -/
def esTransposicionAdyacente (b b' : Texto) : Prop :=
  ∃ (pre : Texto) (x y : Char) (post : Texto),
    b = pre ++ x :: y :: post ∧ b' = pre ++ y :: x :: post ∧ x ≠ y

/-! ### Concrete tables, environments and requests used as witnesses -/

/-- A row with the given id and title and a 120-character image. -/
def filaEjemplo (id : Int) (titulo : String) : Fila :=
  { Id := id
    Titulo := titulo.toList
    Descripcion := none
    ImagenBase64 := some ("data:image/png;base64,".toList ++ List.replicate 98 'A')
    TipoImagen := some "image/png".toList
    NombreArchivo := none
    Orden := none
    FechaCreacion := 0 }

/-- A table with the two rows `1 ↦ "logo"` and `2 ↦ "banner"`. -/
def tablaEjemplo : Tabla :=
  ⟨[filaEjemplo 1 "logo", filaEjemplo 2 "banner"], 3⟩

/-- The sort key of a collation that ignores the case of the letters `A`-`Z`. -/
def claveSinMayusculas (s : Texto) : Texto :=
  s.map Char.toLower

/-- An environment in which every storage call succeeds. -/
def entornoSinFallas : Entorno :=
  ⟨fun _ => false, false, .otra, 7, claveSinMayusculas⟩

/-- An environment in which `sql.connect` rejects and every other call would succeed. -/
def entornoSinConexion : Entorno :=
  ⟨fun op => decide (op = .conectar), false, .otra, 7, claveSinMayusculas⟩

/-- A well-formed request with the given title and a small PNG data URL. -/
def solicitudEjemplo (titulo : String) : CuerpoImagen :=
  { Titulo := some titulo.toList
    Descripcion := none
    ImagenBase64 := some "data:image/png;base64,iVBORw0KGgo=".toList
    TipoImagen := none
    NombreArchivo := none
    Orden := none }

/-- A data URL of `22 + 5242880` ASCII characters, longer than `maxSize`. -/
def imagenGrande : Texto :=
  "data:image/png;base64,".toList ++ List.replicate 5242880 'A'

/-- An update request that keeps the title `"logo"` and carries the oversized image. -/
def solicitudGrande : CuerpoImagen :=
  { Titulo := some "logo".toList
    Descripcion := none
    ImagenBase64 := some imagenGrande
    TipoImagen := none
    NombreArchivo := none
    Orden := none }

/-- An empty table of applications. -/
def almacenVacio : Almacen := ⟨[], 1⟩

/-- A table of applications with the single row 7, whose stored RUT is `"11.111.111-1"`. -/
def almacenEjemplo : Almacen :=
  ⟨[{ Id := 7
      Nombre := "Ana Soto".toList
      RUT := "11.111.111-1".toList
      Email := "ana@example.com".toList
      Telefono := none
      Cargo := "DBA".toList
      Interes := none
      Mensaje := none
      ArchivoBase64 := none
      NombreArchivoOriginal := none
      TipoArchivo := none }], 8⟩

/-- An environment of the job-application handlers in which nothing fails. -/
def entornoPostulacionSinFallas : EntornoPostulacion :=
  ⟨none, fun _ => false, ""⟩

/-- An environment in which `handleUpload` rejects the file for its size. -/
def entornoCargaRechazada : EntornoPostulacion :=
  ⟨some "El archivo excede el límite de 5MB", fun _ => false, ""⟩

/-- An environment in which only the INSERT of the application fails. -/
def entornoFallaInsertar : EntornoPostulacion :=
  ⟨none, fun e => decide (e = .insertarPostulacion), ""⟩

/-- An environment in which only the mail send fails. -/
def entornoFallaCorreo : EntornoPostulacion :=
  ⟨none, fun e => decide (e = .enviarCorreo), "Connection timeout"⟩

/-- A complete application with the given RUT and no file. -/
def postulacionEjemplo (rut : String) : CuerpoPostulacion :=
  { nombre := some "Ana Soto".toList
    rut := some rut.toList
    email := some "ana@example.com".toList
    telefono := none
    cargo := some "DBA".toList
    interes := some "Bases de datos".toList
    mensaje := none
    archivo := none }

/-- A complete application update with the given RUT. -/
def actualizacionEjemplo (rut : String) : CuerpoActualizarPostulacion :=
  { Nombre := some "Ana Soto".toList
    RUT := some rut.toList
    Email := some "ana@example.com".toList
    Telefono := none
    Cargo := some "DBA".toList
    Interes := none
    Mensaje := none
    TipoArchivo := none }

/-- A data URL of exactly `5242880` ASCII characters, the largest accepted size. -/
def imagenLimite : Texto :=
  "data:image/png;base64,".toList ++ List.replicate 5242858 'A'

/-- A create request with the title `"foto"` and the image of exactly `maxSize` characters. -/
def solicitudLimite : CuerpoImagen :=
  { Titulo := some "foto".toList
    Descripcion := none
    ImagenBase64 := some imagenLimite
    TipoImagen := none
    NombreArchivo := none
    Orden := none }

/-- A create request without a title. -/
def solicitudSinTitulo : CuerpoImagen :=
  { Titulo := none
    Descripcion := none
    ImagenBase64 := some "data:image/png;base64,iVBORw0KGgo=".toList
    TipoImagen := none
    NombreArchivo := none
    Orden := none }

/-- An environment in which exactly the storage call `op` rejects. -/
def entornoFalla (op : Operacion) : Entorno :=
  ⟨fun o => decide (o = op), false, .otra, 7, claveSinMayusculas⟩

/-- A row with the given id, title and date, and no image (`ImagenBase64` is `NULL`). -/
def filaHuerfana (id : Int) (titulo : String) (fecha : Nat) : Fila :=
  { Id := id
    Titulo := titulo.toList
    Descripcion := none
    ImagenBase64 := none
    TipoImagen := none
    NombreArchivo := none
    Orden := none
    FechaCreacion := fecha }

/-- A table in which the title `"logo"` is held by row 1 (date 0, with image) and by the more
recent row 2 (date 5, without image), next to row 3 `"banner"`. -/
def tablaDuplicada : Tabla :=
  ⟨[filaEjemplo 1 "logo", filaHuerfana 2 "logo" 5, filaEjemplo 3 "banner"], 4⟩

/-- A table in which row 1 is titled `"logo"` (date 0) and the more recent row 2 `"Logo "`
(date 5, upper-case initial and trailing blank), both with image, next to the orphan row 3
`"banner"`. -/
def tablaPorLimpiar : Tabla :=
  ⟨[filaEjemplo 1 "logo", { filaEjemplo 2 "Logo " with FechaCreacion := 5 },
    filaHuerfana 3 "banner" 1], 4⟩

/-- A table whose only row is an orphan titled `"logo"`. -/
def tablaConHuerfana : Tabla :=
  ⟨[filaHuerfana 1 "logo" 0], 2⟩

/-- A cleanup environment in which no storage call rejects. -/
def limpiezaSinFallas : PasoLimpieza → Bool :=
  fun _ => false

/-- An update request that only carries the given title. -/
def solicitudSoloTitulo (titulo : String) : CuerpoImagen :=
  { Titulo := some titulo.toList
    Descripcion := none
    ImagenBase64 := none
    TipoImagen := none
    NombreArchivo := none
    Orden := none }

/-- An update request whose data URL has an empty media type. -/
def solicitudTipoVacio : CuerpoImagen :=
  { Titulo := some "logo".toList
    Descripcion := none
    ImagenBase64 := some "data:;base64,iVBORw0KGgo=".toList
    TipoImagen := none
    NombreArchivo := none
    Orden := none }

/-- A create request with every optional field present and an `Orden` of 0. -/
def solicitudCompleta : CuerpoImagen :=
  { Titulo := some "foto".toList
    Descripcion := some "Equipo".toList
    ImagenBase64 := some "data:image/png;base64,iVBORw0KGgo=".toList
    TipoImagen := some "image/png".toList
    NombreArchivo := some "equipo.png".toList
    Orden := some 0 }

/-- A data URL of `11 + 2621440` characters, each of the last `2621440` being `U+1F600`, which
takes two UTF-16 code units: JavaScript's `length` is `11 + 5242880`, above `maxSize`. -/
def imagenAstral : Texto :=
  "data:image/".toList ++ List.replicate 2621440 (Char.ofNat 0x1F600)

/-- A create request with the title `"foto"` and the image `imagenAstral`. -/
def solicitudAstral : CuerpoImagen :=
  { Titulo := some "foto".toList
    Descripcion := none
    ImagenBase64 := some imagenAstral
    TipoImagen := none
    NombreArchivo := none
    Orden := none }

/-! ### Definitions used to state the RUT claims -/

/-- The weighted sum of the characters of `l`, the first one having index `k`. -/
def sumaDesde (k : Nat) (l : List Char) : Nat :=
  ((l.enumFrom k).map (fun p => (p.2.toNat - '0'.toNat) * (2 + p.1 % 6))).sum

/-- The numeric value of a decimal digit character. -/
def valorDigito (c : Char) : Nat :=
  c.toNat - '0'.toNat

/-- The weighted sum of the specification: the body digits counted from the rightmost
(`i = 0, 1, ...`), each multiplied by `w_i = 2 + (i mod 6)`. -/
def sumaEspecificada (cuerpo : Texto) : Nat :=
  ((cuerpo.reverse.enumFrom 0).map (fun p => valorDigito p.2 * (2 + p.1 % 6))).sum

/-- The mapping `f` of the specification: `f(11) = '0'`, `f(10) = 'K'`, otherwise the decimal
digit itself. -/
def fEspecificada (v : Nat) : Char :=
  if v = 11 then '0' else if v = 10 then 'K' else Nat.digitChar v

/-- The grouping `G` of the specification: a `'.'` is put between two adjacent characters
exactly when the number of characters to the right of the gap is a positive multiple of 3. -/
def agrupar : Texto → Texto
  | [] => []
  | c :: resto =>
    if 0 < resto.length ∧ resto.length % 3 = 0 then c :: '.' :: agrupar resto
    else c :: agrupar resto

/-- The check on the cleaned string that `validarRUT` performs after the length test. -/
def validarNucleo (rutLimpio : Texto) : Bool :=
  decide (toUpperCase (sliceDv rutLimpio) =
    dvEsperado (dvCalculado (sumaBucle (sliceCuerpo rutLimpio).reverse (some 0) 2)))

/-- The shape the specification gives to a stored RUT: 1 to 3 digits, then one or more groups
of `'.'` and exactly three digits, then `'-'`, then one character that is a digit or `'K'` and
equals the checksum of the body. -/
def EsRutCanonico (s : Texto) : Prop :=
  ∃ cabeza : Texto, ∃ grupos : List Texto, ∃ dv : Char,
    s = cabeza ++ (grupos.map (fun g => '.' :: g)).flatten ++ ['-', dv] ∧
    1 ≤ cabeza.length ∧ cabeza.length ≤ 3 ∧ (∀ c ∈ cabeza, c.isDigit = true) ∧
    grupos ≠ [] ∧ (∀ g ∈ grupos, g.length = 3 ∧ ∀ c ∈ g, c.isDigit = true) ∧
    (dv.isDigit = true ∨ dv = 'K') ∧
    dv = fEspecificada (11 - sumaEspecificada (cabeza ++ grupos.flatten) % 11)

/-! ### Lemmas on characters and cleaning -/

theorem limpiar_length_le (x : Texto) : (limpiar x).length ≤ x.length :=
  List.length_filter_le _ _

theorem esCaracterRUT_of_mem_limpiar {x : Texto} {c : Char} (h : c ∈ limpiar x) :
    esCaracterRUT c = true :=
  (List.mem_filter.mp h).2

theorem limpiar_eq_self {s : Texto} (h : ∀ c ∈ s, esCaracterRUT c = true) : limpiar s = s :=
  List.filter_eq_self.mpr h

theorem limpiar_append (a b : Texto) : limpiar (a ++ b) = limpiar a ++ limpiar b :=
  List.filter_append _ _

theorem kMayuscula_length (s : Texto) : (kMayuscula s).length = s.length :=
  List.length_map _ _

theorem esCaracterRUT_kMayuscula {s : Texto} (h : ∀ c ∈ s, esCaracterRUT c = true) :
    ∀ c ∈ kMayuscula s, esCaracterRUT c = true := by
  intro c hc
  obtain ⟨d, hd, rfl⟩ := List.mem_map.mp hc
  by_cases hk : d = 'k'
  · subst hk; decide
  · simpa [hk] using h d hd

theorem kMayuscula_idem {s : Texto} : kMayuscula (kMayuscula s) = kMayuscula s := by
  unfold kMayuscula
  rw [List.map_map]
  apply List.map_congr_left
  intro c _
  by_cases hk : c = 'k'
  · subst hk; decide
  · simp [hk]

theorem validarRUT_eq (x : Texto) :
    validarRUT x = (decide (7 ≤ (limpiar x).length) && validarNucleo (limpiar x)) := by
  unfold validarRUT validarNucleo
  cases x with
  | nil => rfl
  | cons a l =>
    by_cases h : (limpiar (a :: l)).length < 7
    · have h7 : ¬ 7 ≤ (limpiar (a :: l)).length := by omega
      simp [h, h7]
    · have h7 : 7 ≤ (limpiar (a :: l)).length := by omega
      simp [h, h7]

theorem dropLast_append_sliceDv (s : Texto) : sliceCuerpo s ++ sliceDv s = s := by
  unfold sliceCuerpo sliceDv
  rw [List.dropLast_eq_take]
  exact List.take_append_drop _ s

theorem sliceDv_length {s : Texto} (h : 0 < s.length) : (sliceDv s).length = 1 := by
  unfold sliceDv
  rw [List.length_drop]
  omega

theorem sliceCuerpo_length (s : Texto) : (sliceCuerpo s).length = s.length - 1 := by
  unfold sliceCuerpo
  exact List.length_dropLast s

/-! ### The formatting loop computes the grouping of the specification -/

theorem formatearBucle_eq_agrupar (l sufijo : Texto) :
    formatearBucle l sufijo.length (agrupar sufijo) = agrupar (l.reverse ++ sufijo) := by
  induction l generalizing sufijo with
  | nil => rfl
  | cons c resto ih =>
    have paso : (c :: (if (decide (sufijo.length > 0) && sufijo.length % 3 == 0) = true
        then '.' :: agrupar sufijo else agrupar sufijo)) = agrupar (c :: sufijo) := by
      by_cases h : 0 < sufijo.length ∧ sufijo.length % 3 = 0
      · have h1 := h.1
        have h2 := h.2
        simp [agrupar, h1, h2]
      · by_cases h1 : 0 < sufijo.length
        · have h2 : ¬ sufijo.length % 3 = 0 := fun h2 => h ⟨h1, h2⟩
          simp [agrupar, h1, h2]
        · simp [agrupar, h1]
    have ih2 := ih (c :: sufijo)
    rw [List.length_cons] at ih2
    simp only [formatearBucle, List.reverse_cons, List.append_assoc, List.singleton_append]
    rw [paso]
    exact ih2

theorem formatearBucle_cuerpo (cuerpo : Texto) :
    formatearBucle cuerpo.reverse 0 [] = agrupar cuerpo := by
  have h := formatearBucle_eq_agrupar cuerpo.reverse []
  simpa [agrupar] using h

theorem formatearRUT_corto {x : Texto} (h : (limpiar x).length < 7) : formatearRUT x = x := by
  unfold formatearRUT
  have hk : (kMayuscula (limpiar x)).length < 7 := by rw [kMayuscula_length]; exact h
  by_cases he : x.isEmpty = true
  · simp [he]
  · simp [he, hk]

theorem formatearRUT_largo {x : Texto} (h : 7 ≤ (limpiar x).length) :
    formatearRUT x = agrupar (sliceCuerpo (kMayuscula (limpiar x))) ++
      '-' :: sliceDv (kMayuscula (limpiar x)) := by
  unfold formatearRUT
  have hk : ¬ (kMayuscula (limpiar x)).length < 7 := by rw [kMayuscula_length]; omega
  have he : ¬ x.isEmpty = true := by
    intro he
    have : x = [] := List.isEmpty_iff.mp he
    subst this
    simp [limpiar] at h
  simp only [he, hk, if_false, formatearBucle_cuerpo]
  simp

theorem limpiar_agrupar {s : Texto} (h : ∀ c ∈ s, esCaracterRUT c = true) :
    limpiar (agrupar s) = s := by
  induction s with
  | nil => rfl
  | cons c resto ih =>
    have hc : esCaracterRUT c = true := h c (List.mem_cons_self _ _)
    have hr : limpiar (agrupar resto) = resto :=
      ih (fun d hd => h d (List.mem_cons_of_mem _ hd))
    have hp : esCaracterRUT '.' = false := by decide
    unfold limpiar at hr ⊢
    by_cases hg : 0 < resto.length ∧ resto.length % 3 = 0
    · simp only [agrupar, hg, and_self, if_true]
      rw [List.filter_cons_of_pos hc, List.filter_cons_of_neg (by simp [hp]), hr]
    · simp only [agrupar, hg, if_false]
      rw [List.filter_cons_of_pos hc, hr]

theorem limpiar_formato {cuerpo dv : Texto} (hc : ∀ c ∈ cuerpo, esCaracterRUT c = true)
    (hd : ∀ c ∈ dv, esCaracterRUT c = true) :
    limpiar (agrupar cuerpo ++ '-' :: dv) = cuerpo ++ dv := by
  have hg : esCaracterRUT '-' = false := by decide
  rw [limpiar_append, limpiar_agrupar hc]
  congr 1
  unfold limpiar
  rw [List.filter_cons_of_neg (by simp [hg])]
  exact List.filter_eq_self.mpr hd

theorem limpiar_formatearRUT_largo {x : Texto} (h : 7 ≤ (limpiar x).length) :
    limpiar (formatearRUT x) = kMayuscula (limpiar x) := by
  have hrl : ∀ c ∈ kMayuscula (limpiar x), esCaracterRUT c = true :=
    esCaracterRUT_kMayuscula (fun c hc => esCaracterRUT_of_mem_limpiar hc)
  have hdesc := dropLast_append_sliceDv (kMayuscula (limpiar x))
  rw [formatearRUT_largo h, limpiar_formato, hdesc]
  · intro c hc
    exact hrl c (hdesc ▸ List.mem_append_left _ hc)
  · intro c hc
    exact hrl c (hdesc ▸ List.mem_append_right _ hc)

/-! ### The checksum loop computes the weighted sum of the specification -/

theorem sumaBucle_NaN (l : List Char) (m : Nat) : sumaBucle l none m = none := by
  induction l generalizing m with
  | nil => rfl
  | cons c resto ih => simp [sumaBucle, sumaMas, ih]

theorem sumaBucle_no_digito {l : List Char} (h : ∃ c ∈ l, c.isDigit = false)
    (suma : Option Nat) (m : Nat) : sumaBucle l suma m = none := by
  induction l generalizing suma m with
  | nil => simp at h
  | cons c resto ih =>
    by_cases hc : c.isDigit = true
    · have hr : ∃ d ∈ resto, d.isDigit = false := by
        obtain ⟨d, hd, hdig⟩ := h
        rcases List.mem_cons.mp hd with rfl | hd
        · rw [hc] at hdig; cases hdig
        · exact ⟨d, hd, hdig⟩
      simp only [sumaBucle]
      exact ih hr _ _
    · have hp : parseInt c = none := by simp [parseInt, hc]
      have hs : sumaMas suma (parseInt c) m = none := by
        rw [hp]; cases suma <;> rfl
      simp only [sumaBucle, hs]
      exact sumaBucle_NaN _ _

theorem sumaBucle_digitos {l : List Char} (h : ∀ c ∈ l, c.isDigit = true) (s k : Nat) :
    sumaBucle l (some s) (2 + k % 6) =
      some (s + ((l.enumFrom k).map (fun p => valorDigito p.2 * (2 + p.1 % 6))).sum) := by
  induction l generalizing s k with
  | nil => simp [sumaBucle]
  | cons c resto ih =>
    have hc : c.isDigit = true := h c (List.mem_cons_self _ _)
    have hp : parseInt c = some (valorDigito c) := by simp [parseInt, valorDigito, hc]
    have hm : (if 2 + k % 6 = 7 then 2 else 2 + k % 6 + 1) = 2 + (k + 1) % 6 := by
      split <;> omega
    simp only [sumaBucle, hp, sumaMas, hm, List.enumFrom_cons, List.map_cons, List.sum_cons]
    rw [ih (fun d hd => h d (List.mem_cons_of_mem _ hd))]
    simp [Nat.add_assoc]

theorem sumaBucle_cuerpo {cuerpo : Texto} (h : ∀ c ∈ cuerpo, c.isDigit = true) :
    sumaBucle cuerpo.reverse (some 0) 2 = some (sumaEspecificada cuerpo) := by
  have hr : ∀ c ∈ cuerpo.reverse, c.isDigit = true := fun c hc => h c (List.mem_reverse.mp hc)
  have := sumaBucle_digitos hr 0 0
  simpa [sumaEspecificada] using this

theorem sumaBucle_map {g : Char → Char} (hg : ∀ c, parseInt (g c) = parseInt c)
    (l : List Char) (suma : Option Nat) (m : Nat) :
    sumaBucle (l.map g) suma m = sumaBucle l suma m := by
  induction l generalizing suma m with
  | nil => rfl
  | cons c resto ih => simp only [List.map_cons, sumaBucle, hg, ih]

theorem repr_digito {v : Nat} (h : v < 10) : (Nat.repr v).toList = [Nat.digitChar v] := by
  interval_cases v <;> rfl

theorem dvEsperado_suma (s : Nat) :
    dvEsperado (dvCalculado (some s)) = [fEspecificada (11 - s % 11)] := by
  have hlt : s % 11 < 11 := Nat.mod_lt _ (by decide)
  simp only [dvCalculado, Option.map_some', dvEsperado, fEspecificada]
  by_cases h11 : 11 - s % 11 = 11
  · simp [h11]
  · by_cases h10 : 11 - s % 11 = 10
    · simp [h10]
    · simp only [h11, h10, if_false]
      exact repr_digito (by omega)

theorem sliceDv_eq_getLast {s : Texto} (h : s ≠ []) : sliceDv s = [s.getLast h] := by
  have h1 := dropLast_append_sliceDv s
  have h2 : sliceCuerpo s ++ [s.getLast h] = s := List.dropLast_concat_getLast h
  exact List.append_cancel_left (h1.trans h2.symm)

/-! ### Upper-casing does not change what `validarRUT` looks at -/

theorem toUpper_casos (c : Char) :
    c.toUpper = c ∨ ∃ n, 97 ≤ n ∧ n ≤ 122 ∧ c = Char.ofNat n := by
  by_cases h : c.toNat ≥ 97 ∧ c.toNat ≤ 122
  · exact Or.inr ⟨c.toNat, h.1, h.2, (Char.ofNat_toNat c).symm⟩
  · left
    simp only [Char.toUpper]
    rw [if_neg h]

theorem parseInt_toUpper (c : Char) : parseInt c.toUpper = parseInt c := by
  rcases toUpper_casos c with h | ⟨n, h1, h2, rfl⟩
  · rw [h]
  · interval_cases n <;> decide

theorem toUpper_toUpper (c : Char) : c.toUpper.toUpper = c.toUpper := by
  rcases toUpper_casos c with h | ⟨n, h1, h2, rfl⟩
  · rw [h, h]
  · interval_cases n <;> decide

theorem parseInt_kMayuscula (c : Char) :
    parseInt (if c == 'k' then 'K' else c) = parseInt c := by
  by_cases h : c = 'k'
  · subst h; decide
  · simp [h]

theorem toUpper_kMayuscula (c : Char) :
    (if c == 'k' then 'K' else c).toUpper = c.toUpper := by
  by_cases h : c = 'k'
  · subst h; decide
  · simp [h]

theorem validarNucleo_map {g : Char → Char} (hp : ∀ c, parseInt (g c) = parseInt c)
    (hu : ∀ c, (g c).toUpper = c.toUpper) (s : Texto) :
    validarNucleo (s.map g) = validarNucleo s := by
  have hcuerpo : (sliceCuerpo (s.map g)).reverse = (sliceCuerpo s).reverse.map g := by
    unfold sliceCuerpo
    rw [← List.map_dropLast, List.map_reverse]
  have hdv : toUpperCase (sliceDv (s.map g)) = toUpperCase (sliceDv s) := by
    unfold toUpperCase sliceDv
    rw [List.length_map, ← List.map_drop, List.map_map]
    exact List.map_congr_left (fun c _ => hu c)
  unfold validarNucleo
  rw [hcuerpo, hdv, sumaBucle_map hp]

theorem validarNucleo_kMayuscula (s : Texto) :
    validarNucleo (kMayuscula s) = validarNucleo s :=
  validarNucleo_map parseInt_kMayuscula toUpper_kMayuscula s

theorem validarNucleo_toUpperCase (s : Texto) :
    validarNucleo (toUpperCase s) = validarNucleo s :=
  validarNucleo_map parseInt_toUpper toUpper_toUpper s

theorem validarRUT_falso_si_corto {x : Texto} (h : (limpiar x).length < 7) :
    validarRUT x = false := by
  have h7 : ¬ 7 ≤ (limpiar x).length := by omega
  rw [validarRUT_eq]
  simp [h7]

/-! ### Shape of a formatted body -/

theorem agrupar_descompone (b : Texto) (hb : b ≠ []) :
    ∃ cabeza : Texto, ∃ grupos : List Texto,
      b = cabeza ++ grupos.flatten ∧
      agrupar b = cabeza ++ (grupos.map (fun g => '.' :: g)).flatten ∧
      1 ≤ cabeza.length ∧ cabeza.length ≤ 3 ∧
      (∀ g ∈ grupos, g.length = 3) ∧
      b.length = cabeza.length + 3 * grupos.length := by
  induction b with
  | nil => exact absurd rfl hb
  | cons c resto ih =>
    by_cases hr : resto = []
    · subst hr
      exact ⟨[c], [], by simp, by simp [agrupar], by simp, by simp, by simp, by simp⟩
    · obtain ⟨cab, grs, hdesc, hagr, h1, h3, hg, hlen⟩ := ih hr
      by_cases hm : 0 < resto.length ∧ resto.length % 3 = 0
      · have hcab : cab.length = 3 := by omega
        refine ⟨[c], cab :: grs, ?_, ?_, by simp, by simp, ?_, ?_⟩
        · simp [← hdesc]
        · simp [agrupar, hm, hagr]
        · intro g hgm
          rcases List.mem_cons.mp hgm with rfl | hgm
          · exact hcab
          · exact hg g hgm
        · simp only [List.length_cons, List.length_nil]
          omega
      · have hpos : 0 < resto.length := List.length_pos.mpr hr
        have hmod : ¬ resto.length % 3 = 0 := fun h => hm ⟨hpos, h⟩
        refine ⟨c :: cab, grs, ?_, ?_, by simp, ?_, hg, ?_⟩
        · simp [← hdesc]
        · simp [agrupar, hpos, hmod, hagr]
        · simp only [List.length_cons]
          omega
        · simp only [List.length_cons]
          omega

theorem kMayuscula_sin_k {s : Texto} : ∀ c ∈ kMayuscula s, c ≠ 'k' := by
  intro c hc
  obtain ⟨d, _, rfl⟩ := List.mem_map.mp hc
  by_cases hk : d = 'k'
  · subst hk; decide
  · simp [hk]

theorem toUpper_digito_o_K {c : Char} (h : c.isDigit = true ∨ c = 'K') : c.toUpper = c := by
  rcases toUpper_casos c with hc | ⟨n, h1, h2, rfl⟩
  · exact hc
  · exfalso
    revert h
    interval_cases n <;> decide

theorem digito_o_K_of_limpio {c : Char} (h : esCaracterRUT c = true) (hk : c ≠ 'k') :
    c.isDigit = true ∨ c = 'K' := by
  simp only [esCaracterRUT, Bool.or_eq_true, beq_iff_eq] at h
  rcases h with (h | h) | h
  · exact Or.inl h
  · exact Or.inr h
  · exact absurd h hk

theorem cuerpo_digitos_of_validarNucleo {s : Texto} (hs : 0 < s.length)
    (h : validarNucleo s = true) : ∀ c ∈ sliceCuerpo s, c.isDigit = true := by
  by_contra hno
  have hex : ∃ c ∈ (sliceCuerpo s).reverse, c.isDigit = false := by
    simp only [not_forall] at hno
    obtain ⟨c, hc, hd⟩ := hno
    exact ⟨c, List.mem_reverse.mpr hc, by simpa using hd⟩
  unfold validarNucleo at h
  rw [sumaBucle_no_digito hex] at h
  have hlen := congrArg List.length (of_decide_eq_true h)
  simp only [toUpperCase, List.length_map, sliceDv_length hs] at hlen
  simp [dvCalculado, dvEsperado] at hlen

/-! ## Claims on the RUT formatter / validator -/

/-- C1: for a text whose cleaned form has a digit-only body, `validarRUT` is true exactly when
the cleaned form has at least 7 characters and its upper-cased last character is
`f(11 - (S mod 11))`, with `S` the weighted sum of the body digits counted from the right with
weights `2 + (i mod 6)`. -/
theorem validarRUT_iff_checksum (x : Texto)
    (h : ∀ ch ∈ (limpiar x).dropLast, ch.isDigit = true) :
    validarRUT x = true ↔
      7 ≤ (limpiar x).length ∧
      (limpiar x).getLast?.map Char.toUpper =
        some (fEspecificada (11 - sumaEspecificada (limpiar x).dropLast % 11)) := by
  rw [validarRUT_eq]
  by_cases h7 : 7 ≤ (limpiar x).length
  · have hne : limpiar x ≠ [] := by
      intro he
      rw [he] at h7
      simp at h7
    have hsuma : sumaBucle (sliceCuerpo (limpiar x)).reverse (some 0) 2 =
        some (sumaEspecificada (limpiar x).dropLast) := sumaBucle_cuerpo h
    simp only [h7, decide_True, Bool.true_and, true_and, validarNucleo, hsuma, dvEsperado_suma,
      sliceDv_eq_getLast hne, List.getLast?_eq_getLast _ hne, toUpperCase, List.map_cons,
      List.map_nil, Option.map_some', decide_eq_true_eq]
    constructor
    · intro he
      rw [List.cons.inj he |>.1]
    · intro he
      rw [Option.some.inj he]
  · simp [h7]

/-- Witness for C1 at `"12345678-5"` (where `S = 138`), together with the rejected
`"12345678-6"`. -/
theorem validarRUT_iff_checksum_witness :
    (∀ ch ∈ (limpiar "12345678-5".toList).dropLast, ch.isDigit = true) ∧
    (validarRUT "12345678-5".toList = true ↔
      7 ≤ (limpiar "12345678-5".toList).length ∧
      (limpiar "12345678-5".toList).getLast?.map Char.toUpper =
        some (fEspecificada
          (11 - sumaEspecificada (limpiar "12345678-5".toList).dropLast % 11))) ∧
    validarRUT "12345678-5".toList = true ∧
    sumaEspecificada "12345678".toList = 138 ∧
    validarRUT "12345678-6".toList = false :=
  ⟨by decide, validarRUT_iff_checksum "12345678-5".toList (by decide), by decide, by decide,
    by decide⟩

/-- C2: for every text with at least 7 cleaned characters, formatting does not change
validity: `validarRUT (formatearRUT x) = validarRUT x`. -/
theorem validarRUT_formatearRUT (x : Texto) (h : 7 ≤ (limpiar x).length) :
    validarRUT (formatearRUT x) = validarRUT x := by
  rw [validarRUT_eq, validarRUT_eq, limpiar_formatearRUT_largo h, kMayuscula_length,
    validarNucleo_kMayuscula]

/-- Witness for C2 at `"  12.345.678-5  "`, which stays valid after formatting. -/
theorem validarRUT_formatearRUT_witness :
    7 ≤ (limpiar "  12.345.678-5  ".toList).length ∧
    validarRUT (formatearRUT "  12.345.678-5  ".toList) = validarRUT "  12.345.678-5  ".toList ∧
    validarRUT (formatearRUT "  12.345.678-5  ".toList) = true :=
  ⟨by decide, validarRUT_formatearRUT "  12.345.678-5  ".toList (by decide), by decide⟩

/-- C3: `formatearRUT` is idempotent on every text. -/
theorem formatearRUT_idempotente (x : Texto) :
    formatearRUT (formatearRUT x) = formatearRUT x := by
  by_cases h : (limpiar x).length < 7
  · rw [formatearRUT_corto h, formatearRUT_corto h]
  · have h7 : 7 ≤ (limpiar x).length := by omega
    have hl := limpiar_formatearRUT_largo h7
    have h7f : 7 ≤ (limpiar (formatearRUT x)).length := by
      rw [hl, kMayuscula_length]; exact h7
    rw [formatearRUT_largo h7f, hl, kMayuscula_idem, ← formatearRUT_largo h7]

/-- C4: when the cleaned, upper-cased form `c` of the input has at least 7 characters,
`formatearRUT` returns `G(body)`, then `'-'`, then `dv`, where `dv` is the last character of
`c`, `body` is the rest of `c` and `G` groups the body in threes from the right with dots. -/
theorem formatearRUT_eq_agrupar (x : Texto) (h : 7 ≤ (kMayuscula (limpiar x)).length) :
    ∃ dv, (kMayuscula (limpiar x)).getLast? = some dv ∧
      formatearRUT x = agrupar (kMayuscula (limpiar x)).dropLast ++ ['-', dv] := by
  have h7 : 7 ≤ (limpiar x).length := by rw [kMayuscula_length] at h; exact h
  have hne : kMayuscula (limpiar x) ≠ [] := by
    intro he
    rw [he] at h
    simp at h
  refine ⟨(kMayuscula (limpiar x)).getLast hne, List.getLast?_eq_getLast _ hne, ?_⟩
  rw [formatearRUT_largo h7, sliceDv_eq_getLast hne]
  rfl

/-- Witness for C4: `"  12.345.678-5  "` gives `"12.345.678-5"`. -/
theorem formatearRUT_eq_agrupar_witness :
    7 ≤ (kMayuscula (limpiar "  12.345.678-5  ".toList)).length ∧
    (∃ dv, (kMayuscula (limpiar "  12.345.678-5  ".toList)).getLast? = some dv ∧
      formatearRUT "  12.345.678-5  ".toList =
        agrupar (kMayuscula (limpiar "  12.345.678-5  ".toList)).dropLast ++ ['-', dv]) ∧
    formatearRUT "  12.345.678-5  ".toList = "12.345.678-5".toList ∧
    kMayuscula (limpiar "  12.345.678-5  ".toList) = "123456785".toList :=
  ⟨by decide, formatearRUT_eq_agrupar "  12.345.678-5  ".toList (by decide), by decide,
    by decide⟩

/-- C5: a text with fewer than 7 cleaned characters is returned by `formatearRUT` unchanged,
character for character; the function is total, so no error is raised. -/
theorem formatearRUT_corto_identidad (x : Texto) (h : (limpiar x).length < 7) :
    formatearRUT x = x :=
  formatearRUT_corto h

/-- Witness for C5: `formatearRUT("123-4") = "123-4"`. -/
theorem formatearRUT_corto_identidad_witness :
    (limpiar "123-4".toList).length < 7 ∧ formatearRUT "123-4".toList = "123-4".toList :=
  ⟨by decide, formatearRUT_corto_identidad "123-4".toList (by decide)⟩

/-- C6: a text with fewer than 7 cleaned characters, the empty text included, is rejected by
`validarRUT`. -/
theorem validarRUT_corto_falso (x : Texto) (h : (limpiar x).length < 7) :
    validarRUT x = false :=
  validarRUT_falso_si_corto h

/-- Witness for C6: `validarRUT("123-4") = false`. -/
theorem validarRUT_corto_falso_witness :
    (limpiar "123-4".toList).length < 7 ∧ validarRUT "123-4".toList = false :=
  ⟨by decide, validarRUT_corto_falso "123-4".toList (by decide)⟩

/-- C7: `validarRUT` depends only on the cleaned, upper-cased form of its input. -/
theorem validarRUT_depende_de_limpio (x y : Texto)
    (h : toUpperCase (limpiar x) = toUpperCase (limpiar y)) :
    validarRUT x = validarRUT y := by
  have hlen : (limpiar x).length = (limpiar y).length := by
    have := congrArg List.length h
    simpa [toUpperCase] using this
  rw [validarRUT_eq, validarRUT_eq, hlen, ← validarNucleo_toUpperCase (limpiar x),
    ← validarNucleo_toUpperCase (limpiar y), h]

/-- Witness for C7: separators, spaces and the case of the check letter do not matter. -/
theorem validarRUT_depende_de_limpio_witness :
    toUpperCase (limpiar " 1.000.013-k ".toList) = toUpperCase (limpiar "1000013K".toList) ∧
    validarRUT " 1.000.013-k ".toList = validarRUT "1000013K".toList :=
  ⟨by decide, validarRUT_depende_de_limpio " 1.000.013-k ".toList "1000013K".toList (by decide)⟩

/-! ### General lemmas on request fields -/

theorem maxSize_valor : maxSize = 5242880 := by decide

theorem esVerdadero_some {v : Option Texto} (h : esVerdadero v = true) :
    ∃ s, v = some s ∧ s ≠ [] := by
  cases v with
  | none => simp [esVerdadero] at h
  | some s =>
    refine ⟨s, rfl, ?_⟩
    intro hs
    subst hs
    simp [esVerdadero] at h

theorem esVerdadero_of_ne_nil {s : Texto} (h : s ≠ []) : esVerdadero (some s) = true := by
  cases s with
  | nil => exact absurd rfl h
  | cons a l => rfl

/-! ## Claims on the duplicate-safe protocol -/

theorem mismoTitulo_refl (clave : Texto → Texto) (a : Texto) :
    mismoTitulo clave a a = true := by
  simp [mismoTitulo]

theorem mismoTitulo_of_eq {clave : Texto → Texto} {a b : Texto} (h : a = b) :
    mismoTitulo clave a b = true := by
  rw [h]
  exact mismoTitulo_refl clave b

theorem ne_of_mismoTitulo_false {clave : Texto → Texto} {a b : Texto}
    (h : mismoTitulo clave a b = false) : a ≠ b := by
  intro hab
  rw [mismoTitulo_of_eq hab] at h
  cases h

theorem mismoTitulo_symm (clave : Texto → Texto) (a b : Texto) :
    mismoTitulo clave a b = mismoTitulo clave b a := by
  simp only [mismoTitulo]
  exact decide_eq_decide.mpr ⟨Eq.symm, Eq.symm⟩

theorem mismoTitulo_congr {clave : Texto → Texto} {a b : Texto}
    (h : mismoTitulo clave a b = true) (c : Texto) :
    mismoTitulo clave c a = mismoTitulo clave c b := by
  simp only [mismoTitulo, decide_eq_true_eq] at h ⊢
  rw [h]

theorem longitudUtf16_append (a b : Texto) :
    longitudUtf16 (a ++ b) = longitudUtf16 a + longitudUtf16 b := by
  simp [longitudUtf16]

theorem longitudUtf16_replicate (n : Nat) (c : Char) :
    longitudUtf16 (List.replicate n c) = n * unidadesUtf16 c := by
  simp [longitudUtf16]

theorem longitudUtf16_nil_iff {s : Texto} (h : longitudUtf16 s = 0) : s = [] := by
  cases s with
  | nil => rfl
  | cons c l =>
    exfalso
    have hc : 1 ≤ unidadesUtf16 c := by
      unfold unidadesUtf16
      split <;> omega
    simp only [longitudUtf16, List.map_cons, List.sum_cons] at h
    omega

theorem cerrarBloque_tabla (env : Entorno) (mensaje : String) (previo : List Operacion)
    (b : Bloque) : (cerrarBloque env mensaje previo b).tabla = b.tabla := by
  cases b <;> rfl

theorem sin_titulo_of_filter_nil {filas : List Fila} {p : Fila → Bool}
    (h : (filas.filter p).map (·.Id) = []) : ∀ f ∈ filas, p f = false := by
  intro f hf
  have hnil : filas.filter p = [] := List.map_eq_nil_iff.mp h
  by_contra hp
  have hmem : f ∈ filas.filter p := List.mem_filter.mpr ⟨hf, by simpa using hp⟩
  rw [hnil] at hmem
  cases hmem

theorem filaActualizada_Id (titulo : Texto) (req : CuerpoImagen) (actual f : Fila) :
    (filaActualizada titulo req actual f).Id = f.Id := rfl

theorem filaActualizada_Titulo (titulo : Texto) (req : CuerpoImagen) (actual f : Fila) :
    (filaActualizada titulo req actual f).Titulo = titulo := rfl

theorem transaccionCrear_invariante (env : Entorno) (t : Tabla) (titulo imagen : Texto)
    (req : CuerpoImagen) (hbf : t.BienFormada) (hu : t.TitulosUnicos) :
    (transaccionCrear env t titulo imagen req).tabla.BienFormada ∧
      (transaccionCrear env t titulo imagen req).tabla.TitulosUnicos := by
  have hmas : (Tabla.mk t.filas (t.identidad + 1)).BienFormada :=
    ⟨hbf.1, fun f hf => by have := hbf.2 f hf; show f.Id < t.identidad + 1; omega⟩
  have humas : (Tabla.mk t.filas (t.identidad + 1)).TitulosUnicos := hu
  cases hex : (t.filas.filter (fun f => mismoTitulo env.clave f.Titulo titulo)).map (·.Id) with
  | cons d ds =>
    simp only [transaccionCrear, hex]
    split_ifs <;> exact ⟨hbf, hu⟩
  | nil =>
    have hsin := sin_titulo_of_filter_nil hex
    simp only [transaccionCrear, hex]
    split_ifs
    · exact ⟨hbf, hu⟩
    · exact ⟨hbf, hu⟩
    · exact ⟨hbf, hu⟩
    · exact ⟨hbf, hu⟩
    · exact ⟨hbf, hu⟩
    · exact ⟨hmas, humas⟩
    · have hsub : (t.filas.filter (fun f => !esHuerfana env.clave titulo f)).Sublist t.filas :=
        List.filter_sublist _
      constructor
      · refine ⟨?_, ?_⟩
        · show List.Pairwise _ (_ ++ _)
          rw [List.pairwise_append]
          refine ⟨hbf.1.sublist hsub, List.pairwise_singleton _ _, ?_⟩
          intro f hf g hg
          rw [List.mem_singleton] at hg
          subst hg
          have := hbf.2 f (hsub.subset hf)
          show f.Id ≠ t.identidad
          omega
        · intro f hf
          show f.Id < t.identidad + 1
          rcases List.mem_append.mp hf with hf | hf
          · have := hbf.2 f (hsub.subset hf)
            omega
          · rw [List.mem_singleton] at hf
            subst hf
            show t.identidad < t.identidad + 1
            omega
      · show List.Pairwise _ (_ ++ _)
        rw [List.pairwise_append]
        refine ⟨hu.sublist hsub, List.pairwise_singleton _ _, ?_⟩
        intro f hf g hg
        rw [List.mem_singleton] at hg
        subst hg
        show f.Titulo ≠ titulo
        exact ne_of_mismoTitulo_false (hsin f (hsub.subset hf))

theorem actualizadas_invariante {clave : Texto → Texto} {filas : List Fila} {imagenId : Int}
    {titulo : Texto} (req : CuerpoImagen) (actual : Fila)
    (hid : filas.Pairwise (fun f g => f.Id ≠ g.Id))
    (hu : filas.Pairwise (fun f g => f.Titulo ≠ g.Titulo))
    (hsin : ∀ f ∈ filas,
      (mismoTitulo clave f.Titulo titulo && decide (f.Id ≠ imagenId)) = false) :
    (filas.map (fun f => if f.Id = imagenId then filaActualizada titulo req actual f
        else f)).Pairwise (fun f g => f.Id ≠ g.Id) ∧
    (filas.map (fun f => if f.Id = imagenId then filaActualizada titulo req actual f
        else f)).Pairwise (fun f g => f.Titulo ≠ g.Titulo) := by
  have hotro : ∀ f ∈ filas, f.Id ≠ imagenId → f.Titulo ≠ titulo := by
    intro f hf hne htit
    have := hsin f hf
    rw [mismoTitulo_of_eq htit] at this
    simp [hne] at this
  constructor
  · rw [List.pairwise_map]
    refine hid.imp ?_
    intro f g hfg
    have hmismo : ∀ x : Fila,
        (if x.Id = imagenId then filaActualizada titulo req actual x else x).Id = x.Id := by
      intro x
      split <;> rfl
    simp only [hmismo]
    exact hfg
  · rw [List.pairwise_map]
    refine (hid.and hu).imp_of_mem ?_
    intro f g hfm hgm hfg
    obtain ⟨hids, htits⟩ := hfg
    by_cases hf : f.Id = imagenId
    · have hg : g.Id ≠ imagenId := fun hg => hids (hf.trans hg.symm)
      simp only [hf, hg, if_true, if_false, filaActualizada_Titulo]
      exact fun h => hotro g hgm hg h.symm
    · by_cases hg : g.Id = imagenId
      · simp only [hf, hg, if_true, if_false, filaActualizada_Titulo]
        exact hotro f hfm hf
      · simp only [hf, hg, if_false]
        exact htits

theorem transaccionActualizar_invariante (env : Entorno) (t : Tabla) (imagenId : Int)
    (titulo : Texto) (req : CuerpoImagen) (hbf : t.BienFormada) (hu : t.TitulosUnicos) :
    (transaccionActualizar env t imagenId titulo req).tabla.BienFormada ∧
      (transaccionActualizar env t imagenId titulo req).tabla.TitulosUnicos := by
  cases hex : (t.filas.filter
      (fun f => mismoTitulo env.clave f.Titulo titulo && decide (f.Id ≠ imagenId))).map (·.Id) with
  | cons d ds =>
    simp only [transaccionActualizar, hex]
    split_ifs <;> exact ⟨hbf, hu⟩
  | nil =>
    have hsin := sin_titulo_of_filter_nil hex
    cases hid : t.filas.filter (fun f => decide (f.Id = imagenId)) with
    | nil =>
      simp only [transaccionActualizar, hex, hid]
      split_ifs <;> exact ⟨hbf, hu⟩
    | cons actual otras =>
      have hinv := actualizadas_invariante req actual hbf.1 hu hsin
      simp only [transaccionActualizar, hex, hid]
      split_ifs
      all_goals first
        | exact ⟨hbf, hu⟩
        | refine ⟨⟨hinv.1, ?_⟩, hinv.2⟩
          intro f hf
          obtain ⟨g, hg, rfl⟩ := List.mem_map.mp hf
          have hlt := hbf.2 g hg
          by_cases hgi : g.Id = imagenId
          · simpa [hgi, filaActualizada_Id] using hgi ▸ hlt
          · simpa [hgi] using hlt

/-- C9: title uniqueness is an invariant of the table under the create and the update handler.
In the sequential model, for a table whose `Id` column is a key below the identity counter, if
no two rows share a title before a `POST /api/foroimagenes` or a `PUT /api/foroimagenes/:id`
request, then no two rows share a title after it, whatever the request and whatever storage
calls fail; the key property of `Id` is preserved as well. -/
theorem titulosUnicos_invariante (env : Entorno) (t : Tabla) (imagenId : Int)
    (req : CuerpoImagen) (hbf : t.BienFormada) (hu : t.TitulosUnicos) :
    ((postForoImagenes env t req).tabla.TitulosUnicos ∧
      (postForoImagenes env t req).tabla.BienFormada) ∧
    ((putForoImagenes env t imagenId req).tabla.TitulosUnicos ∧
      (putForoImagenes env t imagenId req).tabla.BienFormada) := by
  obtain ⟨rTitulo, rDescripcion, rImagen, rTipo, rNombre, rOrden⟩ := req
  constructor
  · cases rTitulo <;> cases rImagen <;> simp only [postForoImagenes] <;> split_ifs <;>
      first
        | exact ⟨hu, hbf⟩
        | (rw [cerrarBloque_tabla]
           exact (transaccionCrear_invariante env t _ _ _ hbf hu).symm)
  · cases rTitulo <;> simp only [putForoImagenes] <;> split_ifs <;>
      first
        | exact ⟨hu, hbf⟩
        | (rw [cerrarBloque_tabla]
           exact (transaccionActualizar_invariante env t imagenId _ _ hbf hu).symm)

/-- Witness for C9: on the two-row example table a create request with a new title is
committed (201) and an update of row 1 to a new title is committed (200); both leave a table
with unique titles. -/
theorem titulosUnicos_invariante_witness :
    tablaEjemplo.BienFormada ∧ tablaEjemplo.TitulosUnicos ∧
    (((postForoImagenes entornoSinFallas tablaEjemplo (solicitudEjemplo "foto")).tabla.TitulosUnicos ∧
      (postForoImagenes entornoSinFallas tablaEjemplo (solicitudEjemplo "foto")).tabla.BienFormada) ∧
    ((putForoImagenes entornoSinFallas tablaEjemplo 1 (solicitudEjemplo "foto")).tabla.TitulosUnicos ∧
      (putForoImagenes entornoSinFallas tablaEjemplo 1
        (solicitudEjemplo "foto")).tabla.BienFormada)) ∧
    (postForoImagenes entornoSinFallas tablaEjemplo (solicitudEjemplo "foto")).respuesta.status
      = 201 ∧
    (postForoImagenes entornoSinFallas tablaEjemplo (solicitudEjemplo "foto")).tabla.filas.length
      = 3 ∧
    (putForoImagenes entornoSinFallas tablaEjemplo 1 (solicitudEjemplo "foto")).respuesta.status
      = 200 :=
  ⟨by decide, by decide,
    titulosUnicos_invariante entornoSinFallas tablaEjemplo 1 (solicitudEjemplo "foto")
      (by decide) (by decide),
    by decide, by decide, by decide⟩

theorem filter_primero {filas : List Fila} {p : Fila → Bool}
    (h : ∃ f ∈ filas, p f = true) :
    ∃ g resto, filas.filter p = g :: resto ∧ g ∈ filas ∧ p g = true := by
  obtain ⟨f, hf, hp⟩ := h
  have hm : f ∈ filas.filter p := List.mem_filter.mpr ⟨hf, hp⟩
  cases hfil : filas.filter p with
  | nil => rw [hfil] at hm; cases hm
  | cons g resto =>
    have hg : g ∈ filas.filter p := by rw [hfil]; exact List.mem_cons_self _ _
    exact ⟨g, resto, rfl, (List.mem_filter.mp hg).1, (List.mem_filter.mp hg).2⟩

/-- C10 (as stated, refuted): the example table holds a row titled `"logo"`, the request
passes validation and asks for the title `"logo"`, but `sql.connect` rejects; the handler
answers 500, not 409. -/
theorem post_conflicto_contraejemplo :
    pasaValidacionCrear (solicitudEjemplo "logo") = true ∧
    (∃ f ∈ tablaEjemplo.filas, some f.Titulo = (solicitudEjemplo "logo").Titulo) ∧
    (postForoImagenes entornoSinConexion tablaEjemplo (solicitudEjemplo "logo")).respuesta.status
      = 500 ∧
    (postForoImagenes entornoSinConexion tablaEjemplo (solicitudEjemplo "logo")).respuesta.status
      ≠ 409 := by
  decide

/-- C10 (amended): for a create request that passes validation, if the table already holds a
row with the requested title and the storage calls of that path (connect, begin, lock query,
duplicate check, rollback) succeed, the handler rolls back after the duplicate check without
issuing a delete or an insert, leaves the table unchanged, and answers 409 with
`success = false` and `data.id` the `Id` of an existing row with that title.  A row holds the
title when the database compares the two equal (`mismoTitulo`), which an exactly equal title
always is. -/
theorem post_conflicto (env : Entorno) (t : Tabla) (req : CuerpoImagen) (titulo : Texto)
    (hval : pasaValidacionCrear req = true) (htit : req.Titulo = some titulo)
    (hex : ∃ f ∈ t.filas, mismoTitulo env.clave f.Titulo titulo = true)
    (hconectar : env.falla .conectar = false) (hiniciar : env.falla .iniciar = false)
    (hbloquear : env.falla .bloquear = false)
    (hbuscar : env.falla .buscarDuplicado = false)
    (hrevertir : env.falla .revertir = false) :
    (postForoImagenes env t req).respuesta.status = 409 ∧
    (postForoImagenes env t req).respuesta.success = false ∧
    (∃ f ∈ t.filas, mismoTitulo env.clave f.Titulo titulo = true ∧
      (postForoImagenes env t req).respuesta.dataId = some f.Id) ∧
    (postForoImagenes env t req).tabla = t ∧
    (postForoImagenes env t req).traza =
      [.conectar, .iniciar, .bloquear, .buscarDuplicado, .revertir] := by
  obtain ⟨rTitulo, rDescripcion, rImagen, rTipo, rNombre, rOrden⟩ := req
  simp only at htit
  subst htit
  obtain ⟨g, resto, hfil, hg, hgt⟩ := filter_primero hex
  cases rImagen with
  | none => simp [pasaValidacionCrear, esVerdadero] at hval
  | some imagen =>
    simp only [pasaValidacionCrear, Bool.and_eq_true, decide_eq_true_eq] at hval
    obtain ⟨⟨hvt, hvi⟩, hlen, hpre⟩ := hval
    have hlen2 : ¬ longitudUtf16 imagen > maxSize := by omega
    have hr : postForoImagenes env t ⟨some titulo, rDescripcion, some imagen, rTipo, rNombre,
        rOrden⟩ =
        ⟨⟨409, false, "Ya existe una imagen con este título exacto", some g.Id⟩, t,
          [.conectar, .iniciar, .bloquear, .buscarDuplicado, .revertir]⟩ := by
      simp only [postForoImagenes, transaccionCrear, cerrarBloque, hvt, hvi, hlen2, hpre,
        hconectar, hiniciar, hbloquear, hbuscar, hrevertir, hfil, List.map_cons, Bool.not_true,
        Bool.or_self, Bool.false_eq_true, if_false, List.singleton_append]
    rw [hr]
    exact ⟨rfl, rfl, ⟨g, hg, hgt, rfl⟩, rfl, rfl⟩

/-- Witness for the amended C10: on the example table a request for the title `"logo"`
answers 409 with `data.id = 1` and leaves the table as it was. -/
theorem post_conflicto_witness :
    pasaValidacionCrear (solicitudEjemplo "logo") = true ∧
    (postForoImagenes entornoSinFallas tablaEjemplo (solicitudEjemplo "logo")).respuesta.status
      = 409 ∧
    (postForoImagenes entornoSinFallas tablaEjemplo (solicitudEjemplo "logo")).respuesta.dataId
      = some 1 ∧
    (postForoImagenes entornoSinFallas tablaEjemplo (solicitudEjemplo "logo")).tabla
      = tablaEjemplo :=
  have h := post_conflicto entornoSinFallas tablaEjemplo (solicitudEjemplo "logo") "logo".toList
    (by decide) (by decide) (by decide) (by decide) (by decide) (by decide) (by decide)
    (by decide)
  ⟨by decide, h.1, by decide, h.2.2.2.1⟩

/-! ## Claims on the update handler, request validation, atomicity and ordering -/

theorem filter_nil_of_forall {filas : List Fila} {p : Fila → Bool}
    (h : ∀ f ∈ filas, p f = false) : filas.filter p = [] := by
  rw [List.filter_eq_nil_iff]
  intro f hf
  simp [h f hf]

/-- The answer of the update handler when the duplicate check finds the row `g` first. -/
theorem putForoImagenes_conflicto {env : Entorno} {t : Tabla} {imagenId : Int}
    {req : CuerpoImagen} {titulo : Texto} {g : Fila} {resto : List Fila}
    (htit : req.Titulo = some titulo) (hnv : esVerdadero req.Titulo = true)
    (hfil : t.filas.filter
      (fun f => mismoTitulo env.clave f.Titulo titulo && decide (f.Id ≠ imagenId))
      = g :: resto)
    (hconectar : env.falla .conectar = false) (hiniciar : env.falla .iniciar = false)
    (hbloquear : env.falla .bloquear = false)
    (hbuscar : env.falla .buscarDuplicado = false)
    (hrevertir : env.falla .revertir = false) :
    putForoImagenes env t imagenId req =
      ⟨⟨409, false, "Ya existe otra imagen con este título", some g.Id⟩, t,
        [.conectar, .iniciar, .bloquear, .buscarDuplicado, .revertir]⟩ := by
  obtain ⟨rTitulo, rDescripcion, rImagen, rTipo, rNombre, rOrden⟩ := req
  simp only at htit
  subst htit
  simp only at hnv
  simp only [putForoImagenes, transaccionActualizar, cerrarBloque, hnv, hconectar, hiniciar,
    hbloquear, hbuscar, hrevertir, hfil, List.map_cons, Bool.not_true, Bool.false_eq_true,
    if_false, List.singleton_append]

/-- The answer of the update handler when no other row holds the title and no row has the
requested `Id`. -/
theorem putForoImagenes_noEncontrada {env : Entorno} {t : Tabla} {imagenId : Int}
    {req : CuerpoImagen} {titulo : Texto}
    (htit : req.Titulo = some titulo) (hnv : esVerdadero req.Titulo = true)
    (hfil : t.filas.filter
      (fun f => mismoTitulo env.clave f.Titulo titulo && decide (f.Id ≠ imagenId))
      = [])
    (hid : t.filas.filter (fun f => decide (f.Id = imagenId)) = [])
    (hconectar : env.falla .conectar = false) (hiniciar : env.falla .iniciar = false)
    (hbloquear : env.falla .bloquear = false)
    (hbuscar : env.falla .buscarDuplicado = false)
    (hporId : env.falla .buscarPorId = false)
    (hrevertir : env.falla .revertir = false) :
    putForoImagenes env t imagenId req =
      ⟨⟨404, false, "Imagen no encontrada", none⟩, t,
        [.conectar, .iniciar, .bloquear, .buscarDuplicado, .buscarPorId, .revertir]⟩ := by
  obtain ⟨rTitulo, rDescripcion, rImagen, rTipo, rNombre, rOrden⟩ := req
  simp only at htit
  subst htit
  simp only at hnv
  simp only [putForoImagenes, transaccionActualizar, cerrarBloque, hnv, hconectar, hiniciar,
    hbloquear, hbuscar, hporId, hrevertir, hfil, hid, List.map_nil, Bool.not_true,
    Bool.false_eq_true, if_false, List.singleton_append]

/-- The answer of the update handler when no other row holds the title, the target row exists
and every storage call succeeds: the UPDATE is committed. -/
theorem putForoImagenes_exito {env : Entorno} {t : Tabla} {imagenId : Int}
    {req : CuerpoImagen} {titulo : Texto} {actual : Fila} {otras : List Fila}
    (htit : req.Titulo = some titulo) (hnv : esVerdadero req.Titulo = true)
    (hfil : t.filas.filter
      (fun f => mismoTitulo env.clave f.Titulo titulo && decide (f.Id ≠ imagenId))
      = [])
    (hid : t.filas.filter (fun f => decide (f.Id = imagenId)) = actual :: otras)
    (hconectar : env.falla .conectar = false) (hiniciar : env.falla .iniciar = false)
    (hbloquear : env.falla .bloquear = false)
    (hbuscar : env.falla .buscarDuplicado = false)
    (hporId : env.falla .buscarPorId = false)
    (hactualizar : env.falla .actualizar = false)
    (hconfirmar : env.falla .confirmar = false) :
    putForoImagenes env t imagenId req =
      ⟨⟨200, true, "Imagen del foro actualizada correctamente", none⟩,
        ⟨t.filas.map (fun f =>
          if f.Id = imagenId then filaActualizada titulo req actual f else f), t.identidad⟩,
        [.conectar, .iniciar, .bloquear, .buscarDuplicado, .buscarPorId, .actualizar,
          .confirmar]⟩ := by
  obtain ⟨rTitulo, rDescripcion, rImagen, rTipo, rNombre, rOrden⟩ := req
  simp only at htit
  subst htit
  simp only at hnv
  simp only [putForoImagenes, transaccionActualizar, cerrarBloque, hnv, hconectar, hiniciar,
    hbloquear, hbuscar, hporId, hactualizar, hconfirmar, hfil, hid, List.map_nil,
    List.length_cons, Bool.not_true, Bool.false_eq_true, if_false, List.singleton_append,
    Nat.add_one_ne_zero]

/-- C11 (as stated, refuted): row 2 of the example table holds the title `"banner"` and the
request asks to give that title to row 1, but `sql.connect` rejects; the handler answers 500,
not 409. -/
theorem put_conflicto_contraejemplo :
    esVerdadero (solicitudEjemplo "banner").Titulo = true ∧
    (∃ f ∈ tablaEjemplo.filas,
      some f.Titulo = (solicitudEjemplo "banner").Titulo ∧ f.Id ≠ 1) ∧
    (putForoImagenes entornoSinConexion tablaEjemplo 1
      (solicitudEjemplo "banner")).respuesta.status = 500 ∧
    (putForoImagenes entornoSinConexion tablaEjemplo 1
      (solicitudEjemplo "banner")).respuesta.status ≠ 409 := by
  decide

/-- C11 (amended): for an update request on record `imagenId` with a non-empty title, if some
row with a different `Id` holds that title and the storage calls of that path (connect, begin,
lock query, duplicate check, rollback) succeed, the update is rejected: the transaction is
rolled back without any write, the table is unchanged, and the answer is 409 with
`success = false` and `data.id` the `Id` of such a row.  A row holds the title when the
database compares the two equal (`mismoTitulo`), which an exactly equal title always is. -/
theorem put_conflicto (env : Entorno) (t : Tabla) (imagenId : Int) (req : CuerpoImagen)
    (titulo : Texto) (htit : req.Titulo = some titulo) (hnv : esVerdadero req.Titulo = true)
    (hex : ∃ f ∈ t.filas, mismoTitulo env.clave f.Titulo titulo = true ∧ f.Id ≠ imagenId)
    (hconectar : env.falla .conectar = false) (hiniciar : env.falla .iniciar = false)
    (hbloquear : env.falla .bloquear = false)
    (hbuscar : env.falla .buscarDuplicado = false)
    (hrevertir : env.falla .revertir = false) :
    (putForoImagenes env t imagenId req).respuesta.status = 409 ∧
    (putForoImagenes env t imagenId req).respuesta.success = false ∧
    (∃ f ∈ t.filas, mismoTitulo env.clave f.Titulo titulo = true ∧ f.Id ≠ imagenId ∧
      (putForoImagenes env t imagenId req).respuesta.dataId = some f.Id) ∧
    (putForoImagenes env t imagenId req).tabla = t ∧
    (putForoImagenes env t imagenId req).traza =
      [.conectar, .iniciar, .bloquear, .buscarDuplicado, .revertir] := by
  have hex2 : ∃ f ∈ t.filas,
      (mismoTitulo env.clave f.Titulo titulo && decide (f.Id ≠ imagenId)) = true := by
    obtain ⟨f, hf, ht, hi⟩ := hex
    exact ⟨f, hf, by simp [ht, hi]⟩
  obtain ⟨g, resto, hfil, hg, hpg⟩ := filter_primero hex2
  have hgp : mismoTitulo env.clave g.Titulo titulo = true ∧ g.Id ≠ imagenId := by
    simpa using hpg
  rw [putForoImagenes_conflicto htit hnv hfil hconectar hiniciar hbloquear hbuscar hrevertir]
  exact ⟨rfl, rfl, ⟨g, hg, hgp.1, hgp.2, rfl⟩, rfl, rfl⟩

/-- Witness for the amended C11: giving row 1 the title of row 2 answers 409 with
`data.id = 2` and leaves the table as it was. -/
theorem put_conflicto_witness :
    (∃ f ∈ tablaEjemplo.filas,
      mismoTitulo entornoSinFallas.clave f.Titulo "banner".toList = true ∧ f.Id ≠ 1) ∧
    (putForoImagenes entornoSinFallas tablaEjemplo 1
      (solicitudEjemplo "banner")).respuesta.status = 409 ∧
    (putForoImagenes entornoSinFallas tablaEjemplo 1
      (solicitudEjemplo "banner")).respuesta.dataId = some 2 ∧
    (putForoImagenes entornoSinFallas tablaEjemplo 1 (solicitudEjemplo "banner")).tabla
      = tablaEjemplo :=
  have h := put_conflicto entornoSinFallas tablaEjemplo 1 (solicitudEjemplo "banner")
    "banner".toList (by decide) (by decide) (by decide) (by decide) (by decide) (by decide)
    (by decide) (by decide)
  ⟨by decide, h.1, by decide, h.2.2.2.1⟩

/-- C12 (as stated, refuted): row 2 of the example table exists and no row holds the title
`"logo "` (with a trailing blank), so no row other than row 2 holds it; every storage call
succeeds.  The database compares `"logo "` equal to the `"logo"` of row 1, and the update of
row 2 is answered 409, not 200. -/
theorem put_autoexclusion_contraejemplo :
    esVerdadero (solicitudEjemplo "logo ").Titulo = true ∧
    (∃ f ∈ tablaEjemplo.filas, f.Id = 2) ∧
    (∀ f ∈ tablaEjemplo.filas, some f.Titulo ≠ (solicitudEjemplo "logo ").Titulo) ∧
    (∀ op, entornoSinFallas.falla op = false) ∧
    (putForoImagenes entornoSinFallas tablaEjemplo 2
      (solicitudEjemplo "logo ")).respuesta.status = 409 ∧
    (putForoImagenes entornoSinFallas tablaEjemplo 2
      (solicitudEjemplo "logo ")).respuesta.status ≠ 200 ∧
    (putForoImagenes entornoSinFallas tablaEjemplo 2
      (solicitudEjemplo "logo ")).tabla = tablaEjemplo := by
  refine ⟨by decide, by decide, by decide, fun _ => rfl, by decide, by decide, by decide⟩

/-- C12 (amended): self-exclusion in the duplicate check of the update.  For an update request
on an existing record `imagenId` with a non-empty title, if no row other than that record
holds a title that the database compares equal to the requested one (`mismoTitulo`: trailing
blanks ignored, letters compared as the collation of the column says) and the storage calls
succeed, the UPDATE is committed, the record ends with the requested title, and the answer is
200 with `success = true`.  The record itself may already hold the title. -/
theorem put_autoexclusion (env : Entorno) (t : Tabla) (imagenId : Int) (req : CuerpoImagen)
    (titulo : Texto) (htit : req.Titulo = some titulo) (hnv : esVerdadero req.Titulo = true)
    (hexiste : ∃ f ∈ t.filas, f.Id = imagenId)
    (hsolo : ∀ f ∈ t.filas, mismoTitulo env.clave f.Titulo titulo = true → f.Id = imagenId)
    (hconectar : env.falla .conectar = false) (hiniciar : env.falla .iniciar = false)
    (hbloquear : env.falla .bloquear = false)
    (hbuscar : env.falla .buscarDuplicado = false)
    (hporId : env.falla .buscarPorId = false)
    (hactualizar : env.falla .actualizar = false)
    (hconfirmar : env.falla .confirmar = false) :
    (putForoImagenes env t imagenId req).respuesta.status = 200 ∧
    (putForoImagenes env t imagenId req).respuesta.success = true ∧
    (putForoImagenes env t imagenId req).traza =
      [.conectar, .iniciar, .bloquear, .buscarDuplicado, .buscarPorId, .actualizar,
        .confirmar] ∧
    (∃ f ∈ (putForoImagenes env t imagenId req).tabla.filas, f.Id = imagenId) ∧
    (∀ f ∈ (putForoImagenes env t imagenId req).tabla.filas,
      f.Id = imagenId → f.Titulo = titulo) ∧
    (putForoImagenes env t imagenId req).tabla.filas.map (·.Id) = t.filas.map (·.Id) := by
  have hfil : t.filas.filter
      (fun f => mismoTitulo env.clave f.Titulo titulo && decide (f.Id ≠ imagenId)) = [] := by
    apply filter_nil_of_forall
    intro f hf
    by_cases ht : mismoTitulo env.clave f.Titulo titulo = true
    · simp [ht, hsolo f hf ht]
    · simp [ht]
  have hex2 : ∃ f ∈ t.filas, decide (f.Id = imagenId) = true := by
    obtain ⟨f, hf, hi⟩ := hexiste
    exact ⟨f, hf, by simpa using hi⟩
  obtain ⟨actual, otras, hid, -, -⟩ := filter_primero hex2
  rw [putForoImagenes_exito htit hnv hfil hid hconectar hiniciar hbloquear hbuscar hporId
    hactualizar hconfirmar]
  have hmismo : ∀ x : Fila,
      (if x.Id = imagenId then filaActualizada titulo req actual x else x).Id = x.Id := by
    intro x
    split <;> rfl
  refine ⟨rfl, rfl, rfl, ?_, ?_, ?_⟩
  · obtain ⟨f, hf, hi⟩ := hexiste
    exact ⟨_, List.mem_map.mpr ⟨f, hf, rfl⟩, (hmismo f).trans hi⟩
  · intro f hf hi
    obtain ⟨g, hg, rfl⟩ := List.mem_map.mp hf
    have hgi : g.Id = imagenId := (hmismo g).symm.trans hi
    simp only [hgi, if_true]
    rfl
  · show List.map _ (List.map _ t.filas) = _
    rw [List.map_map]
    exact List.map_congr_left (fun x _ => hmismo x)

/-- Witness for the amended C12: row 1 of the example table already holds `"logo"`; an update
of row 1 that keeps the title `"logo"` is committed and answers 200. -/
theorem put_autoexclusion_witness :
    (∃ f ∈ tablaEjemplo.filas, f.Id = 1 ∧ f.Titulo = "logo".toList) ∧
    (putForoImagenes entornoSinFallas tablaEjemplo 1
      (solicitudEjemplo "logo")).respuesta.status = 200 ∧
    (putForoImagenes entornoSinFallas tablaEjemplo 1
      (solicitudEjemplo "logo")).respuesta.success = true :=
  have h := put_autoexclusion entornoSinFallas tablaEjemplo 1 (solicitudEjemplo "logo")
    "logo".toList (by decide) (by decide) (by decide) (by decide) (by decide) (by decide)
    (by decide) (by decide) (by decide) (by decide) (by decide)
  ⟨by decide, h.1, h.2.1⟩

/-- C13 (as stated, refuted): no row of the example table holds the title `"foto"` and none
has the `Id` 99, but `sql.connect` rejects; the handler answers 500, not 404.  And with every
storage call succeeding, no row holds the title `"logo "` (with a trailing blank) and none has
the `Id` 99, but the database compares `"logo "` equal to the `"logo"` of row 1; the handler
answers 409, not 404. -/
theorem put_noEncontrada_contraejemplo :
    esVerdadero (solicitudEjemplo "foto").Titulo = true ∧
    (∀ f ∈ tablaEjemplo.filas, some f.Titulo ≠ (solicitudEjemplo "foto").Titulo) ∧
    (∀ f ∈ tablaEjemplo.filas, f.Id ≠ 99) ∧
    (putForoImagenes entornoSinConexion tablaEjemplo 99
      (solicitudEjemplo "foto")).respuesta.status = 500 ∧
    (putForoImagenes entornoSinConexion tablaEjemplo 99
      (solicitudEjemplo "foto")).respuesta.status ≠ 404 ∧
    esVerdadero (solicitudEjemplo "logo ").Titulo = true ∧
    (∀ f ∈ tablaEjemplo.filas, some f.Titulo ≠ (solicitudEjemplo "logo ").Titulo) ∧
    (∀ op, entornoSinFallas.falla op = false) ∧
    (putForoImagenes entornoSinFallas tablaEjemplo 99
      (solicitudEjemplo "logo ")).respuesta.status = 409 ∧
    (putForoImagenes entornoSinFallas tablaEjemplo 99
      (solicitudEjemplo "logo ")).respuesta.status ≠ 404 := by
  refine ⟨by decide, by decide, by decide, by decide, by decide, by decide, by decide,
    fun _ => rfl, by decide, by decide⟩

/-- C13 (amended): for an update request with a non-empty title, if no other row holds a
title that the database compares equal to the requested one (`mismoTitulo`: trailing blanks
ignored, letters compared as the collation of the column says), no row has the requested `Id`
and the storage calls of that path (connect, begin, lock query, duplicate check, existence
check, rollback) succeed, the handler rolls the transaction back before answering, leaves the
table unchanged, and answers 404 with `success = false`. -/
theorem put_noEncontrada (env : Entorno) (t : Tabla) (imagenId : Int) (req : CuerpoImagen)
    (titulo : Texto) (htit : req.Titulo = some titulo) (hnv : esVerdadero req.Titulo = true)
    (hsolo : ∀ f ∈ t.filas, mismoTitulo env.clave f.Titulo titulo = true → f.Id = imagenId)
    (hninguna : ∀ f ∈ t.filas, f.Id ≠ imagenId)
    (hconectar : env.falla .conectar = false) (hiniciar : env.falla .iniciar = false)
    (hbloquear : env.falla .bloquear = false)
    (hbuscar : env.falla .buscarDuplicado = false)
    (hporId : env.falla .buscarPorId = false)
    (hrevertir : env.falla .revertir = false) :
    (putForoImagenes env t imagenId req).respuesta.status = 404 ∧
    (putForoImagenes env t imagenId req).respuesta.success = false ∧
    (putForoImagenes env t imagenId req).tabla = t ∧
    (putForoImagenes env t imagenId req).traza =
      [.conectar, .iniciar, .bloquear, .buscarDuplicado, .buscarPorId, .revertir] := by
  have hfil : t.filas.filter
      (fun f => mismoTitulo env.clave f.Titulo titulo && decide (f.Id ≠ imagenId)) = [] := by
    apply filter_nil_of_forall
    intro f hf
    by_cases ht : mismoTitulo env.clave f.Titulo titulo = true
    · simp [ht, hsolo f hf ht]
    · simp [ht]
  have hid : t.filas.filter (fun f => decide (f.Id = imagenId)) = [] := by
    apply filter_nil_of_forall
    intro f hf
    simpa using hninguna f hf
  rw [putForoImagenes_noEncontrada htit hnv hfil hid hconectar hiniciar hbloquear hbuscar
    hporId hrevertir]
  exact ⟨rfl, rfl, rfl, rfl⟩

/-- Witness for the amended C13: an update of the absent record 99 answers 404 and leaves the
example table as it was. -/
theorem put_noEncontrada_witness :
    (∀ f ∈ tablaEjemplo.filas, f.Id ≠ 99) ∧
    (putForoImagenes entornoSinFallas tablaEjemplo 99
      (solicitudEjemplo "foto")).respuesta.status = 404 ∧
    (putForoImagenes entornoSinFallas tablaEjemplo 99 (solicitudEjemplo "foto")).tabla
      = tablaEjemplo :=
  have h := put_noEncontrada entornoSinFallas tablaEjemplo 99 (solicitudEjemplo "foto")
    "foto".toList (by decide) (by decide) (by decide) (by decide) (by decide) (by decide)
    (by decide) (by decide) (by decide) (by decide)
  ⟨by decide, h.1, h.2.2.1⟩

/-- The trace of a create transaction always starts with the begin. -/
theorem transaccionCrear_inicia (env : Entorno) (t : Tabla) (titulo imagen : Texto)
    (req : CuerpoImagen) :
    (∃ t1 resto, transaccionCrear env t titulo imagen req = .lanza t1 (.iniciar :: resto)) ∨
    (∃ r t1 resto, transaccionCrear env t titulo imagen req = .responde r t1 (.iniciar :: resto)
      ∧ (r.status = 409 ∨ r.status = 201)) := by
  cases hex : (t.filas.filter (fun f => mismoTitulo env.clave f.Titulo titulo)).map (·.Id) with
  | cons d ds =>
    simp only [transaccionCrear, hex]
    split_ifs <;> simp
  | nil =>
    simp only [transaccionCrear, hex]
    split_ifs <;> simp

/-- A create request that passes validation reaches `sql.connect`. -/
theorem postForoImagenes_valida_eq (env : Entorno) (t : Tabla) (req : CuerpoImagen)
    (titulo imagen : Texto) (htit : req.Titulo = some titulo)
    (himg : req.ImagenBase64 = some imagen)
    (hnt : titulo ≠ []) (hni : imagen ≠ []) (hlen : longitudUtf16 imagen ≤ maxSize)
    (hpre : "data:image/".toList.isPrefixOf imagen = true) :
    postForoImagenes env t req =
      if env.falla .conectar then
        ⟨⟨500, false, mensajeErrorCrear env.claseError, none⟩, t, [.conectar]⟩
      else
        cerrarBloque env (mensajeErrorCrear env.claseError) [.conectar]
          (transaccionCrear env t titulo imagen req) := by
  obtain ⟨rTitulo, rDescripcion, rImagen, rTipo, rNombre, rOrden⟩ := req
  simp only at htit himg
  subst htit himg
  have hvt : esVerdadero (some titulo) = true := by
    cases titulo with
    | nil => exact absurd rfl hnt
    | cons a l => rfl
  have hvi : esVerdadero (some imagen) = true := by
    cases imagen with
    | nil => exact absurd rfl hni
    | cons a l => rfl
  have hlen2 : ¬ longitudUtf16 imagen > maxSize := by omega
  simp only [postForoImagenes, hvt, hvi, hlen2, hpre, Bool.not_true, Bool.or_self,
    Bool.false_eq_true, if_false]

/-- A valid create request goes on to the storage phase and never answers 400. -/
theorem postForoImagenes_valida (env : Entorno) (t : Tabla) (req : CuerpoImagen)
    (titulo imagen : Texto) (htit : req.Titulo = some titulo)
    (himg : req.ImagenBase64 = some imagen)
    (hnt : titulo ≠ []) (hni : imagen ≠ []) (hlen : longitudUtf16 imagen ≤ maxSize)
    (hpre : "data:image/".toList.isPrefixOf imagen = true) :
    (postForoImagenes env t req).respuesta.status ≠ 400 ∧
    (postForoImagenes env t req).traza.head? = some .conectar ∧
    (env.falla .conectar = false →
      (postForoImagenes env t req).traza.take 2 = [.conectar, .iniciar]) := by
  rw [postForoImagenes_valida_eq env t req titulo imagen htit himg hnt hni hlen hpre]
  by_cases hc : env.falla .conectar = true
  · simp [hc]
  · have hc2 : env.falla .conectar = false := by simpa using hc
    rcases transaccionCrear_inicia env t titulo imagen req with
      ⟨t1, resto, hb⟩ | ⟨r, t1, resto, hb, hr⟩
    · simp [hc2, hb, cerrarBloque]
    · simp only [hc2, hb, cerrarBloque, Bool.false_eq_true, if_false, List.singleton_append,
        List.head?_cons, List.take_succ_cons, List.take_zero, true_and, implies_true, and_true]
      rcases hr with hr | hr <;> rw [hr] <;> decide

/-- C14: the create handler answers 400 with `success = false`, without any storage call,
exactly when the title is missing or empty, or the image is missing or empty, or the image is
longer than `5 * 1024 * 1024 = 5242880` characters, or the image does not start with
`data:image/`.  An image of exactly `5242880` characters is not rejected for its size, and
every other request goes on to connect and, once connected, to begin the transaction.
Characters are counted as the code counts them (`ImagenBase64.length`): in UTF-16 code
units. -/
theorem post_validacion (env : Entorno) (t : Tabla) (req : CuerpoImagen) :
    (esInvalidaCrear req →
      (postForoImagenes env t req).respuesta.status = 400 ∧
      (postForoImagenes env t req).respuesta.success = false ∧
      (postForoImagenes env t req).traza = [] ∧
      (postForoImagenes env t req).tabla = t) ∧
    (¬ esInvalidaCrear req →
      (postForoImagenes env t req).respuesta.status ≠ 400 ∧
      (postForoImagenes env t req).traza.head? = some .conectar ∧
      (env.falla .conectar = false →
        (postForoImagenes env t req).traza.take 2 = [.conectar, .iniciar])) ∧
    (∀ imagen, req.ImagenBase64 = some imagen → longitudUtf16 imagen = 5242880 →
      esVerdadero req.Titulo = true → "data:image/".toList.isPrefixOf imagen = true →
      (postForoImagenes env t req).respuesta.status ≠ 400) ∧
    maxSize = 5242880 := by
  have hvalida : ¬ esInvalidaCrear req →
      (postForoImagenes env t req).respuesta.status ≠ 400 ∧
      (postForoImagenes env t req).traza.head? = some .conectar ∧
      (env.falla .conectar = false →
        (postForoImagenes env t req).traza.take 2 = [.conectar, .iniciar]) := by
    intro hno
    unfold esInvalidaCrear at hno
    simp only [not_or, Bool.not_eq_false, not_exists, not_and, not_lt] at hno
    obtain ⟨hvt, hvi, hresto⟩ := hno
    obtain ⟨titulo, htit, hnt⟩ := esVerdadero_some hvt
    obtain ⟨imagen, himg, hni⟩ := esVerdadero_some hvi
    have h := hresto imagen himg
    refine postForoImagenes_valida env t req titulo imagen htit himg hnt hni ?_ h.2
    rw [maxSize_valor]
    exact h.1
  refine ⟨?_, hvalida, ?_, by decide⟩
  · intro hinv
    obtain ⟨rTitulo, rDescripcion, rImagen, rTipo, rNombre, rOrden⟩ := req
    rcases hinv with h | h | ⟨imagen, himg, h⟩
    · simp only at h
      simp [postForoImagenes, h]
    · simp only at h
      simp [postForoImagenes, h]
    · simp only at himg
      subst himg
      cases rTitulo with
      | none => simp [postForoImagenes, esVerdadero]
      | some titulo =>
        by_cases hv : (!esVerdadero (some titulo) || !esVerdadero (some imagen)) = true
        · simp [postForoImagenes, hv]
        · rcases h with h | h
          · have hlen : longitudUtf16 imagen > maxSize := by rw [maxSize_valor]; exact h
            simp [postForoImagenes, hv, hlen]
          · by_cases hlen : longitudUtf16 imagen > maxSize
            · simp [postForoImagenes, hv, hlen]
            · simp only [postForoImagenes, hv, hlen, h, Bool.not_false, if_true, if_false]
              exact ⟨rfl, rfl, rfl, rfl⟩
  · intro imagen himg hlen hvt hpre
    refine (hvalida ?_).1
    unfold esInvalidaCrear
    simp only [not_or, Bool.not_eq_false, not_exists, not_and, not_lt]
    refine ⟨hvt, ?_, ?_⟩
    · rw [himg]
      cases imagen with
      | nil => exact absurd hlen (by decide)
      | cons a l => rfl
    · intro img2 himg2
      rw [himg] at himg2
      cases himg2
      exact ⟨by omega, hpre⟩

theorem imagenGrande_length : longitudUtf16 imagenGrande = 5242902 := by
  rw [imagenGrande, longitudUtf16_append, longitudUtf16_replicate]
  rfl

/-- C15 (the code at the failing input): an update of row 1 of the example table that carries
an image of 5242902 ASCII characters, more than `maxSize = 5242880`, is not answered with 400; it
opens the transaction, runs the UPDATE, commits and answers 200, and the oversized image is
stored in row 1.  The create handler rejects the same image with 400 before any storage
call. -/
theorem put_sin_limite_de_tamano :
    maxSize < longitudUtf16 imagenGrande ∧
    (putForoImagenes entornoSinFallas tablaEjemplo 1 solicitudGrande).respuesta.status = 200 ∧
    (putForoImagenes entornoSinFallas tablaEjemplo 1 solicitudGrande).traza =
      [.conectar, .iniciar, .bloquear, .buscarDuplicado, .buscarPorId, .actualizar,
        .confirmar] ∧
    (∃ f ∈ (putForoImagenes entornoSinFallas tablaEjemplo 1 solicitudGrande).tabla.filas,
      f.Id = 1 ∧ f.ImagenBase64 = some imagenGrande) ∧
    (postForoImagenes entornoSinFallas tablaEjemplo solicitudGrande).respuesta.status = 400 ∧
    (postForoImagenes entornoSinFallas tablaEjemplo solicitudGrande).traza = [] := by
  have hlen : maxSize < longitudUtf16 imagenGrande := by
    rw [imagenGrande_length]
    decide
  have hne : imagenGrande ≠ [] := by
    intro h
    rw [h] at hlen
    exact absurd hlen (by decide)
  have hvi : esVerdadero (some imagenGrande) = true := esVerdadero_of_ne_nil hne
  have hput := @putForoImagenes_exito entornoSinFallas tablaEjemplo 1 solicitudGrande
    "logo".toList (filaEjemplo 1 "logo") [] rfl (by decide) (by decide) (by decide)
    rfl rfl rfl rfl rfl rfl rfl
  refine ⟨hlen, ?_, ?_, ?_, ?_, ?_⟩
  · rw [hput]
  · rw [hput]
  · rw [hput]
    refine ⟨filaActualizada "logo".toList solicitudGrande (filaEjemplo 1 "logo")
      (filaEjemplo 1 "logo"), ?_, rfl, ?_⟩
    · dsimp only
      refine List.mem_map.mpr ⟨filaEjemplo 1 "logo", by decide, ?_⟩
      rw [if_pos (by decide)]
    · show (if esVerdadero solicitudGrande.ImagenBase64 = true then solicitudGrande.ImagenBase64
        else (filaEjemplo 1 "logo").ImagenBase64) = some imagenGrande
      show (if esVerdadero (some imagenGrande) = true then some imagenGrande
        else (filaEjemplo 1 "logo").ImagenBase64) = some imagenGrande
      rw [if_pos hvi]
  · have hgt : longitudUtf16 imagenGrande > maxSize := hlen
    simp only [postForoImagenes, solicitudGrande, hvi, hgt, if_true, Bool.not_true,
      Bool.or_false, Bool.or_self, Bool.false_eq_true, if_false]
    rfl
  · have hgt : longitudUtf16 imagenGrande > maxSize := hlen
    simp only [postForoImagenes, solicitudGrande, hvi, hgt, if_true, Bool.not_true,
      Bool.or_false, Bool.or_self, Bool.false_eq_true, if_false]
    rfl

theorem transaccionCrear_coherente (env : Entorno) (t : Tabla) (titulo imagen : Texto)
    (req : CuerpoImagen) :
    (transaccionCrear env t titulo imagen req).Coherente env t := by
  cases hex : (t.filas.filter (fun f => mismoTitulo env.clave f.Titulo titulo)).map (·.Id) with
  | cons d ds =>
    simp only [transaccionCrear, hex]
    split_ifs <;> simp_all [Bloque.Coherente]
  | nil =>
    simp only [transaccionCrear, hex]
    split_ifs <;> simp_all [Bloque.Coherente]

theorem transaccionActualizar_coherente (env : Entorno) (t : Tabla) (imagenId : Int)
    (titulo : Texto) (req : CuerpoImagen) :
    (transaccionActualizar env t imagenId titulo req).Coherente env t := by
  cases hex : (t.filas.filter
      (fun f => mismoTitulo env.clave f.Titulo titulo && decide (f.Id ≠ imagenId))).map (·.Id) with
  | cons d ds =>
    simp only [transaccionActualizar, hex]
    split_ifs <;> simp_all [Bloque.Coherente]
  | nil =>
    cases hid : t.filas.filter (fun f => decide (f.Id = imagenId)) with
    | nil =>
      simp only [transaccionActualizar, hex, hid]
      split_ifs <;> simp_all [Bloque.Coherente]
    | cons actual otras =>
      simp only [transaccionActualizar, hex, hid]
      split_ifs <;> simp_all [Bloque.Coherente]

theorem cerrarBloque_atomico (env : Entorno) (t : Tabla) (mensaje : String) (b : Bloque)
    (op : Operacion) (hcoh : b.Coherente env t) (hc : env.falla .conectar = false)
    (hop : op ∈ pasosTransaccion) (hf : env.falla op = true)
    (hmem : op ∈ (cerrarBloque env mensaje [.conectar] b).traza) :
    fallaAtomica env t op (cerrarBloque env mensaje [.conectar] b) := by
  have hnc : op ≠ .conectar := by
    intro h
    rw [h, hc] at hf
    cases hf
  have hnr : op ≠ .revertir := by
    intro h
    rw [h] at hop
    revert hop
    decide
  cases b with
  | responde r t1 traza =>
    exfalso
    simp only [cerrarBloque, List.singleton_append, List.mem_cons] at hmem
    rcases hmem with h | h
    · exact hnc h
    · have := hcoh op h
      rw [hf] at this
      cases this
  | lanza t1 traza =>
    obtain ⟨hfilas, ultima, hult, hfu, hprev⟩ := hcoh
    have hdesc : traza.dropLast ++ [ultima] = traza :=
      List.dropLast_append_getLast? ultima hult
    have hposterior : ∀ o ∈ (if env.abortada = true then [] else [Operacion.revertir]),
        o = Operacion.revertir := by
      intro o ho
      split at ho
      · cases ho
      · exact List.mem_singleton.mp ho
    have htraza : (cerrarBloque env mensaje [.conectar] (.lanza t1 traza)).traza =
        .conectar :: (traza ++ (if env.abortada = true then [] else [Operacion.revertir])) := by
      simp [cerrarBloque]
    rw [htraza] at hmem
    have hes : op = ultima := by
      rcases List.mem_cons.mp hmem with h | h
      · exact absurd h hnc
      · rcases List.mem_append.mp h with h | h
        · rw [← hdesc] at h
          rcases List.mem_append.mp h with h | h
          · have := hprev op h
            rw [hf] at this
            cases this
          · exact List.mem_singleton.mp h
        · exact absurd (hposterior op h) hnr
    subst hes
    refine ⟨rfl, rfl, hfilas, .conectar :: traza.dropLast,
      (if env.abortada = true then [] else [Operacion.revertir]), ?_, ?_, rfl, ?_⟩
    · rw [htraza]
      nth_rewrite 1 [← hdesc]
      simp
    · intro o ho
      rcases List.mem_cons.mp ho with h | h
      · rw [h]; exact hc
      · exact hprev o h
    · intro h
      have := hposterior _ h
      cases this

/-- C16: atomicity on storage failure.  In the create and the update handler, if a storage
step inside the transaction (begin, lock query, duplicate check, cleanup or existence check,
insert or update, commit) is issued and fails, the handler answers 500 with `success = false`,
issues a rollback unless the transaction is already aborted, issues no commit after the
failure, and the rows of the table after the request are the rows before it. -/
theorem atomicidad_fallo_almacenamiento (env : Entorno) (t : Tabla) (imagenId : Int)
    (req : CuerpoImagen) (op : Operacion) (hop : op ∈ pasosTransaccion)
    (hf : env.falla op = true) :
    (op ∈ (postForoImagenes env t req).traza →
      fallaAtomica env t op (postForoImagenes env t req)) ∧
    (op ∈ (putForoImagenes env t imagenId req).traza →
      fallaAtomica env t op (putForoImagenes env t imagenId req)) := by
  have hnc : op ≠ .conectar := by
    intro h
    rw [h] at hop
    revert hop
    decide
  obtain ⟨rTitulo, rDescripcion, rImagen, rTipo, rNombre, rOrden⟩ := req
  constructor
  · cases rTitulo <;> cases rImagen <;> simp only [postForoImagenes] <;> split_ifs <;>
      intro hmem <;>
      first
        | (exact absurd hmem (List.not_mem_nil _))
        | (exact absurd (List.mem_singleton.mp hmem) hnc)
        | (exact cerrarBloque_atomico env t _ _ op (transaccionCrear_coherente env t _ _ _)
            (by simp_all) hop hf hmem)
  · cases rTitulo <;> simp only [putForoImagenes] <;> split_ifs <;>
      intro hmem <;>
      first
        | (exact absurd hmem (List.not_mem_nil _))
        | (exact absurd (List.mem_singleton.mp hmem) hnc)
        | (exact cerrarBloque_atomico env t _ _ op
            (transaccionActualizar_coherente env t imagenId _ _) (by simp_all) hop hf hmem)

theorem cerrarBloque_traza (env : Entorno) (mensaje : String) (b : Bloque) :
    (cerrarBloque env mensaje [.conectar] b).traza = .conectar :: b.traza ∨
    (cerrarBloque env mensaje [.conectar] b).traza = .conectar :: (b.traza ++ [.revertir]) := by
  cases b with
  | responde r t1 traza => left; rfl
  | lanza t1 traza =>
    by_cases ha : env.abortada = true
    · left; simp [cerrarBloque, ha, Bloque.traza]
    · right; simp [cerrarBloque, ha, Bloque.traza]

theorem transaccionCrear_orden (env : Entorno) (t : Tabla) (titulo imagen : Texto)
    (req : CuerpoImagen) :
    ordenRespetado (.conectar :: (transaccionCrear env t titulo imagen req).traza) = true ∧
    ordenRespetado
      (.conectar :: ((transaccionCrear env t titulo imagen req).traza ++ [.revertir])) = true := by
  cases hex : (t.filas.filter (fun f => mismoTitulo env.clave f.Titulo titulo)).map (·.Id) with
  | cons d ds =>
    simp only [transaccionCrear, hex]
    split_ifs <;> exact ⟨rfl, rfl⟩
  | nil =>
    simp only [transaccionCrear, hex]
    split_ifs <;> exact ⟨rfl, rfl⟩

theorem transaccionActualizar_orden (env : Entorno) (t : Tabla) (imagenId : Int)
    (titulo : Texto) (req : CuerpoImagen) :
    ordenRespetado
      (.conectar :: (transaccionActualizar env t imagenId titulo req).traza) = true ∧
    ordenRespetado
      (.conectar ::
        ((transaccionActualizar env t imagenId titulo req).traza ++ [.revertir])) = true := by
  cases hex : (t.filas.filter
      (fun f => mismoTitulo env.clave f.Titulo titulo && decide (f.Id ≠ imagenId))).map (·.Id) with
  | cons d ds =>
    simp only [transaccionActualizar, hex]
    split_ifs <;> exact ⟨rfl, rfl⟩
  | nil =>
    cases hid : t.filas.filter (fun f => decide (f.Id = imagenId)) with
    | nil =>
      simp only [transaccionActualizar, hex, hid]
      split_ifs <;> exact ⟨rfl, rfl⟩
    | cons actual otras =>
      simp only [transaccionActualizar, hex, hid]
      split_ifs <;> exact ⟨rfl, rfl⟩

theorem transaccionCrear_sinEscrituras (env : Entorno) (t : Tabla) (titulo imagen : Texto)
    (req : CuerpoImagen)
    (hdup : ∃ f ∈ t.filas, mismoTitulo env.clave f.Titulo titulo = true) :
    sinEscrituras (.conectar :: (transaccionCrear env t titulo imagen req).traza) = true ∧
    sinEscrituras
      (.conectar :: ((transaccionCrear env t titulo imagen req).traza ++ [.revertir])) = true := by
  obtain ⟨g, resto, hfil, -, -⟩ := filter_primero hdup
  simp only [transaccionCrear, hfil, List.map_cons]
  split_ifs <;> exact ⟨rfl, rfl⟩

theorem transaccionActualizar_sinEscrituras (env : Entorno) (t : Tabla) (imagenId : Int)
    (titulo : Texto) (req : CuerpoImagen)
    (hdup : ∃ f ∈ t.filas, mismoTitulo env.clave f.Titulo titulo = true ∧ f.Id ≠ imagenId) :
    sinEscrituras
      (.conectar :: (transaccionActualizar env t imagenId titulo req).traza) = true ∧
    sinEscrituras
      (.conectar ::
        ((transaccionActualizar env t imagenId titulo req).traza ++ [.revertir])) = true := by
  have hex2 : ∃ f ∈ t.filas,
      (mismoTitulo env.clave f.Titulo titulo && decide (f.Id ≠ imagenId)) = true := by
    obtain ⟨f, hf, ht, hi⟩ := hdup
    exact ⟨f, hf, by simp [ht, hi]⟩
  obtain ⟨g, resto, hfil, -, -⟩ := filter_primero hex2
  simp only [transaccionActualizar, hfil, List.map_cons]
  split_ifs <;> exact ⟨rfl, rfl⟩

/-- C17: lock-then-check-then-write ordering.  In every execution of the create and of the
update handler the lock query is the first SQL statement and follows the begin, it precedes
every read, the duplicate check precedes every DELETE, INSERT or UPDATE, and when the table
holds a row that the duplicate check finds (a row whose title the database compares equal to
the requested one), no write statement is issued at all. -/
theorem orden_bloqueo_verificacion_escritura (env : Entorno) (t : Tabla) (imagenId : Int)
    (req : CuerpoImagen) :
    ordenRespetado (postForoImagenes env t req).traza = true ∧
    ordenRespetado (putForoImagenes env t imagenId req).traza = true ∧
    (∀ titulo, req.Titulo = some titulo →
      (∃ f ∈ t.filas, mismoTitulo env.clave f.Titulo titulo = true) →
      sinEscrituras (postForoImagenes env t req).traza = true) ∧
    (∀ titulo, req.Titulo = some titulo →
      (∃ f ∈ t.filas, mismoTitulo env.clave f.Titulo titulo = true ∧ f.Id ≠ imagenId) →
      sinEscrituras (putForoImagenes env t imagenId req).traza = true) := by
  obtain ⟨rTitulo, rDescripcion, rImagen, rTipo, rNombre, rOrden⟩ := req
  refine ⟨?_, ?_, ?_, ?_⟩
  · cases rTitulo <;> cases rImagen <;> simp only [postForoImagenes] <;> split_ifs <;>
      first
        | rfl
        | (rcases cerrarBloque_traza env (mensajeErrorCrear env.claseError)
              (transaccionCrear env t _ _ _) with h | h <;> rw [h]
           · exact (transaccionCrear_orden env t _ _ _).1
           · exact (transaccionCrear_orden env t _ _ _).2)
  · cases rTitulo <;> simp only [putForoImagenes] <;> split_ifs <;>
      first
        | rfl
        | (rcases cerrarBloque_traza env "Error al actualizar imagen del foro"
              (transaccionActualizar env t imagenId _ _) with h | h <;> rw [h]
           · exact (transaccionActualizar_orden env t imagenId _ _).1
           · exact (transaccionActualizar_orden env t imagenId _ _).2)
  · intro titulo htit hdup
    simp only at htit
    subst htit
    cases rImagen <;> simp only [postForoImagenes] <;> split_ifs <;>
      first
        | rfl
        | (rcases cerrarBloque_traza env (mensajeErrorCrear env.claseError)
              (transaccionCrear env t _ _ _) with h | h <;> rw [h]
           · exact (transaccionCrear_sinEscrituras env t _ _ _ hdup).1
           · exact (transaccionCrear_sinEscrituras env t _ _ _ hdup).2)
  · intro titulo htit hdup
    simp only at htit
    subst htit
    simp only [putForoImagenes]
    split_ifs <;>
      first
        | rfl
        | (rcases cerrarBloque_traza env "Error al actualizar imagen del foro"
              (transaccionActualizar env t imagenId _ _) with h | h <;> rw [h]
           · exact (transaccionActualizar_sinEscrituras env t imagenId _ _ hdup).1
           · exact (transaccionActualizar_sinEscrituras env t imagenId _ _ hdup).2)


/-! ### Witnesses for the validation, atomicity and ordering claims -/

theorem imagenLimite_length : longitudUtf16 imagenLimite = 5242880 := by
  rw [imagenLimite, longitudUtf16_append, longitudUtf16_replicate]
  rfl

theorem imagenAstral_length : longitudUtf16 imagenAstral = 5242891 := by
  rw [imagenAstral, longitudUtf16_append, longitudUtf16_replicate]
  rfl

theorem imagenAstral_caracteres : imagenAstral.length = 2621451 := by
  rw [imagenAstral, List.length_append, List.length_replicate]
  rfl

theorem imagenLimite_prefijo : "data:image/".toList.isPrefixOf imagenLimite = true := by
  rfl

/-- Witness for C14: a request without title is answered 400 with no storage call; a valid
request connects and begins the transaction; an image of exactly `5242880` characters is not
answered 400; an image of `2621451` characters that takes `5242891` UTF-16 code units is
answered 400 with no storage call. -/
theorem post_validacion_witness :
    esInvalidaCrear solicitudSinTitulo ∧
    (postForoImagenes entornoSinFallas tablaEjemplo solicitudSinTitulo).respuesta.status = 400 ∧
    (postForoImagenes entornoSinFallas tablaEjemplo solicitudSinTitulo).traza = [] ∧
    ¬ esInvalidaCrear (solicitudEjemplo "foto") ∧
    (postForoImagenes entornoSinFallas tablaEjemplo (solicitudEjemplo "foto")).traza.take 2 =
      [.conectar, .iniciar] ∧
    longitudUtf16 imagenLimite = 5242880 ∧
    (postForoImagenes entornoSinFallas tablaEjemplo solicitudLimite).respuesta.status ≠ 400 ∧
    imagenAstral.length = 2621451 ∧ longitudUtf16 imagenAstral = 5242891 ∧
    (postForoImagenes entornoSinFallas tablaEjemplo solicitudAstral).respuesta.status = 400 ∧
    (postForoImagenes entornoSinFallas tablaEjemplo solicitudAstral).traza = [] :=
  have hinv : esInvalidaCrear solicitudSinTitulo := Or.inl rfl
  have hval : ¬ esInvalidaCrear (solicitudEjemplo "foto") := by
    intro h
    rcases h with h | h | ⟨imagen, himg, h⟩
    · exact absurd h (by decide)
    · exact absurd h (by decide)
    · cases himg
      rcases h with h | h
      · exact absurd h (by decide)
      · exact absurd h (by decide)
  have h1 := post_validacion entornoSinFallas tablaEjemplo solicitudSinTitulo
  have h2 := post_validacion entornoSinFallas tablaEjemplo (solicitudEjemplo "foto")
  have h3 := post_validacion entornoSinFallas tablaEjemplo solicitudLimite
  have hastral : esInvalidaCrear solicitudAstral :=
    Or.inr (Or.inr ⟨imagenAstral, rfl, Or.inl (by rw [imagenAstral_length]; decide)⟩)
  have h4 := post_validacion entornoSinFallas tablaEjemplo solicitudAstral
  ⟨hinv, (h1.1 hinv).1, (h1.1 hinv).2.2.1, hval, (h2.2.1 hval).2.2 rfl, imagenLimite_length,
    h3.2.2.1 imagenLimite rfl imagenLimite_length rfl imagenLimite_prefijo,
    imagenAstral_caracteres, imagenAstral_length, (h4.1 hastral).1, (h4.1 hastral).2.2.1⟩

/-- Witness for C16: when the commit fails, both handlers answer 500, attempt the rollback
and leave the rows of the example table as they were. -/
theorem atomicidad_fallo_almacenamiento_witness :
    Operacion.confirmar ∈ pasosTransaccion ∧
    (entornoFalla .confirmar).falla .confirmar = true ∧
    Operacion.confirmar ∈
      (postForoImagenes (entornoFalla .confirmar) tablaEjemplo (solicitudEjemplo "foto")).traza ∧
    fallaAtomica (entornoFalla .confirmar) tablaEjemplo .confirmar
      (postForoImagenes (entornoFalla .confirmar) tablaEjemplo (solicitudEjemplo "foto")) ∧
    Operacion.confirmar ∈
      (putForoImagenes (entornoFalla .confirmar) tablaEjemplo 1
        (solicitudEjemplo "foto")).traza ∧
    fallaAtomica (entornoFalla .confirmar) tablaEjemplo .confirmar
      (putForoImagenes (entornoFalla .confirmar) tablaEjemplo 1 (solicitudEjemplo "foto")) ∧
    (postForoImagenes (entornoFalla .confirmar) tablaEjemplo (solicitudEjemplo "foto")).traza =
      [.conectar, .iniciar, .bloquear, .buscarDuplicado, .limpiarHuerfanos, .insertar,
        .confirmar, .revertir] :=
  have h := atomicidad_fallo_almacenamiento (entornoFalla .confirmar) tablaEjemplo 1
    (solicitudEjemplo "foto") .confirmar (by decide) (by decide)
  ⟨by decide, by decide, by decide, h.1 (by decide), by decide, h.2 (by decide), by decide⟩

/-- Witness for C17: the traces of a committed create, of a rejected create and of a rejected
update respect the ordering, the rejected ones contain no write, and a trace that checks
before locking or writes before checking does not respect it. -/
theorem orden_bloqueo_verificacion_escritura_witness :
    ordenRespetado
      (postForoImagenes entornoSinFallas tablaEjemplo (solicitudEjemplo "foto")).traza = true ∧
    (postForoImagenes entornoSinFallas tablaEjemplo (solicitudEjemplo "foto")).traza =
      [.conectar, .iniciar, .bloquear, .buscarDuplicado, .limpiarHuerfanos, .insertar,
        .confirmar] ∧
    (∃ f ∈ tablaEjemplo.filas,
      mismoTitulo entornoSinFallas.clave f.Titulo "logo".toList = true) ∧
    sinEscrituras
      (postForoImagenes entornoSinFallas tablaEjemplo (solicitudEjemplo "logo")).traza = true ∧
    (∃ f ∈ tablaEjemplo.filas,
      mismoTitulo entornoSinFallas.clave f.Titulo "banner".toList = true ∧ f.Id ≠ 1) ∧
    sinEscrituras
      (putForoImagenes entornoSinFallas tablaEjemplo 1 (solicitudEjemplo "banner")).traza
        = true ∧
    ordenRespetado [.conectar, .iniciar, .buscarDuplicado, .bloquear] = false ∧
    ordenRespetado [.conectar, .iniciar, .bloquear, .insertar, .buscarDuplicado] = false ∧
    sinEscrituras [.conectar, .iniciar, .bloquear, .buscarDuplicado, .insertar] = false :=
  have h := orden_bloqueo_verificacion_escritura entornoSinFallas tablaEjemplo 1
  ⟨(h (solicitudEjemplo "foto")).1, by decide, by decide,
    (h (solicitudEjemplo "logo")).2.2.1 "logo".toList rfl (by decide), by decide,
    (h (solicitudEjemplo "banner")).2.2.2 "banner".toList rfl (by decide), by decide,
    by decide, by decide⟩

/-! ## Claims on the job-application handlers -/

theorem postPostulacion_rut_invalido (env : EntornoPostulacion) (a : Almacen)
    (req : CuerpoPostulacion) (rut : Texto) (hcarga : env.cargaRechazada = none)
    (hcampos : camposCompletos req = true) (hrut : req.rut = some rut)
    (hinv : validarRUT (formatearRUT rut) = false) :
    postPostulacion env a req =
      ⟨⟨400, false, "El RUT ingresado no es válido", none⟩, a, [], []⟩ := by
  obtain ⟨nombre, rRut, email, telefono, cargo, interes, mensaje, archivo⟩ := req
  simp only at hrut
  subst hrut
  simp only [camposCompletos, Bool.and_eq_true] at hcampos
  obtain ⟨⟨⟨⟨hn, hr⟩, he⟩, hc⟩, hi⟩ := hcampos
  obtain ⟨n, rfl, -⟩ := esVerdadero_some hn
  obtain ⟨e, rfl, -⟩ := esVerdadero_some he
  obtain ⟨c, rfl, -⟩ := esVerdadero_some hc
  obtain ⟨i, rfl, -⟩ := esVerdadero_some hi
  simp only [postPostulacion, hcarga, hn, hr, he, hc, hi, hinv, Bool.not_true, Bool.or_self,
    Bool.false_eq_true, if_false, Bool.not_false, if_true]

theorem postPostulacion_carga_rechazada (env : EntornoPostulacion) (a : Almacen)
    (req : CuerpoPostulacion) (mensaje : String) (hcarga : env.cargaRechazada = some mensaje) :
    postPostulacion env a req =
      ⟨⟨400, false, "Error al procesar la postulación: " ++ mensaje, none⟩, a, [], []⟩ := by
  simp only [postPostulacion, hcarga]

theorem putPostulacion_rut_invalido (env : EntornoPostulacion) (a : Almacen)
    (postulacionId : Texto) (req : CuerpoActualizarPostulacion) (rut : Texto)
    (hnum : esNumerico postulacionId = true)
    (hcampos : camposCompletosActualizar req = true) (hrut : req.RUT = some rut)
    (hinv : validarRUT (formatearRUT rut) = false) :
    putPostulacion env a postulacionId req =
      ⟨⟨400, false, "El RUT ingresado no es válido", none⟩, a, [], []⟩ := by
  obtain ⟨nombre, rRut, email, telefono, cargo, interes, mensaje, tipo⟩ := req
  simp only at hrut
  subst hrut
  simp only [camposCompletosActualizar, Bool.and_eq_true] at hcampos
  obtain ⟨⟨⟨hn, hr⟩, he⟩, hc⟩ := hcampos
  obtain ⟨n, rfl, -⟩ := esVerdadero_some hn
  obtain ⟨e, rfl, -⟩ := esVerdadero_some he
  obtain ⟨c, rfl, -⟩ := esVerdadero_some hc
  simp only [putPostulacion, hnum, hn, hr, he, hc, hinv, Bool.not_true, Bool.or_self,
    Bool.false_eq_true, if_false, Bool.not_false, if_true]

/-- C19 (as stated, refuted): the application has all required fields and an invalid RUT, but
`handleUpload` rejects the attached file; the answer is still 400 without storage or mail, yet
its message is the upload error, not `El RUT ingresado no es válido`. -/
theorem rut_invalido_contraejemplo :
    camposCompletos (postulacionEjemplo "12345678-6") = true ∧
    validarRUT (formatearRUT "12345678-6".toList) = false ∧
    (postPostulacion entornoCargaRechazada almacenVacio
      (postulacionEjemplo "12345678-6")).respuesta.message =
        "Error al procesar la postulación: El archivo excede el límite de 5MB" ∧
    (postPostulacion entornoCargaRechazada almacenVacio
      (postulacionEjemplo "12345678-6")).respuesta.message ≠ "El RUT ingresado no es válido" := by
  decide

/-- C19 (amended): a RUT validation failure is a 400 with no effect on storage or mail.  For
every `POST /api/postulacion` request with all required fields present and every
`PUT /api/postulacion/:id` request with a numeric id and all required fields present, if the
text RUT has `validarRUT (formatearRUT rut) = false`, the handler answers 400 with
`success = false`, issues no database call and sends no mail; the message is
`El RUT ingresado no es válido` for the update, and for the create whenever the upload step
was accepted. -/
theorem rut_invalido_400 (env : EntornoPostulacion) (a : Almacen) :
    (∀ (req : CuerpoPostulacion) (rut : Texto), camposCompletos req = true →
      req.rut = some rut → validarRUT (formatearRUT rut) = false →
      (postPostulacion env a req).respuesta.status = 400 ∧
      (postPostulacion env a req).respuesta.success = false ∧
      (postPostulacion env a req).efectos = [] ∧
      (postPostulacion env a req).correos = [] ∧
      (postPostulacion env a req).almacen = a ∧
      (env.cargaRechazada = none →
        (postPostulacion env a req).respuesta.message = "El RUT ingresado no es válido")) ∧
    (∀ (postulacionId : Texto) (req : CuerpoActualizarPostulacion) (rut : Texto),
      esNumerico postulacionId = true → camposCompletosActualizar req = true →
      req.RUT = some rut → validarRUT (formatearRUT rut) = false →
      (putPostulacion env a postulacionId req).respuesta.status = 400 ∧
      (putPostulacion env a postulacionId req).respuesta.success = false ∧
      (putPostulacion env a postulacionId req).efectos = [] ∧
      (putPostulacion env a postulacionId req).correos = [] ∧
      (putPostulacion env a postulacionId req).almacen = a ∧
      (putPostulacion env a postulacionId req).respuesta.message
        = "El RUT ingresado no es válido") := by
  constructor
  · intro req rut hcampos hrut hinv
    cases hcarga : env.cargaRechazada with
    | none =>
      rw [postPostulacion_rut_invalido env a req rut hcarga hcampos hrut hinv]
      exact ⟨rfl, rfl, rfl, rfl, rfl, fun _ => rfl⟩
    | some mensaje =>
      rw [postPostulacion_carga_rechazada env a req mensaje hcarga]
      exact ⟨rfl, rfl, rfl, rfl, rfl, fun h => by cases h⟩
  · intro postulacionId req rut hnum hcampos hrut hinv
    rw [putPostulacion_rut_invalido env a postulacionId req rut hnum hcampos hrut hinv]
    exact ⟨rfl, rfl, rfl, rfl, rfl, rfl⟩

/-- Witness for the amended C19: the RUT `12345678-6` is rejected by both handlers with the
message of the claim and without any effect. -/
theorem rut_invalido_400_witness :
    camposCompletos (postulacionEjemplo "12345678-6") = true ∧
    camposCompletosActualizar (actualizacionEjemplo "12345678-6") = true ∧
    esNumerico "7".toList = true ∧
    validarRUT (formatearRUT "12345678-6".toList) = false ∧
    (postPostulacion entornoPostulacionSinFallas almacenVacio
      (postulacionEjemplo "12345678-6")).respuesta.message = "El RUT ingresado no es válido" ∧
    (postPostulacion entornoPostulacionSinFallas almacenVacio
      (postulacionEjemplo "12345678-6")).efectos = [] ∧
    (putPostulacion entornoPostulacionSinFallas almacenVacio "7".toList
      (actualizacionEjemplo "12345678-6")).respuesta.status = 400 ∧
    (putPostulacion entornoPostulacionSinFallas almacenVacio "7".toList
      (actualizacionEjemplo "12345678-6")).efectos = [] :=
  have h := rut_invalido_400 entornoPostulacionSinFallas almacenVacio
  have hp := h.1 (postulacionEjemplo "12345678-6") "12345678-6".toList (by decide) rfl
    (by decide)
  have hu := h.2 "7".toList (actualizacionEjemplo "12345678-6") "12345678-6".toList
    (by decide) (by decide) rfl (by decide)
  ⟨by decide, by decide, by decide, by decide, hp.2.2.2.2.2 rfl, hp.2.2.1, hu.1, hu.2.2.1⟩

/-- C20 (as stated, refuted): the application passes validation; when only the INSERT fails
the handler answers 200 with `success = true`, and when only the mail send fails it answers
400; neither answer is the 500 of the claim. -/
theorem fallos_postulacion_contraejemplo :
    pasaValidacionPostulacion entornoFallaInsertar (postulacionEjemplo "12345678-5") ∧
    entornoFallaInsertar.falla .insertarPostulacion = true ∧
    (postPostulacion entornoFallaInsertar almacenVacio
      (postulacionEjemplo "12345678-5")).respuesta.status = 200 ∧
    (postPostulacion entornoFallaInsertar almacenVacio
      (postulacionEjemplo "12345678-5")).respuesta.success = true ∧
    (postPostulacion entornoFallaInsertar almacenVacio
      (postulacionEjemplo "12345678-5")).almacen = almacenVacio ∧
    entornoFallaCorreo.falla .enviarCorreo = true ∧
    (postPostulacion entornoFallaCorreo almacenVacio
      (postulacionEjemplo "12345678-5")).respuesta.status = 400 := by
  refine ⟨⟨rfl, by decide, "12345678-5".toList, rfl, by decide⟩, by decide, by decide,
    by decide, by decide, by decide, by decide⟩

theorem guardarPostulacion_falla (env : EntornoPostulacion) (a : Almacen)
    (nueva : Postulacion)
    (h : env.falla .conectarBD = true ∨ env.falla .consultaColumnas = true ∨
      env.falla .insertarPostulacion = true) :
    (guardarPostulacion env a nueva).1 = a := by
  unfold guardarPostulacion
  split_ifs <;> first | rfl | simp_all

/-- C20 (amended): on `POST /api/postulacion`, for every request that passes validation, a
failure of the database block (connect, column check or INSERT) is caught and logged: nothing
is stored and the mail is still attempted; the answer is 200 with `success = true` whenever
the mail send succeeds, whether or not the insert failed, and has `success = false` whenever
the mail send fails. -/
theorem fallos_postulacion (env : EntornoPostulacion) (a : Almacen)
    (req : CuerpoPostulacion) (hval : pasaValidacionPostulacion env req) :
    (env.falla .enviarCorreo = false →
      (postPostulacion env a req).respuesta.status = 200 ∧
      (postPostulacion env a req).respuesta.success = true ∧
      (postPostulacion env a req).correos.length = 1) ∧
    (env.falla .enviarCorreo = true →
      (postPostulacion env a req).respuesta.success = false ∧
      (postPostulacion env a req).correos = []) ∧
    (env.falla .conectarBD = true ∨ env.falla .consultaColumnas = true ∨
        env.falla .insertarPostulacion = true →
      (postPostulacion env a req).almacen = a) ∧
    Efecto.enviarCorreo ∈ (postPostulacion env a req).efectos := by
  obtain ⟨hcarga, hcampos, rut, hrut, hvalido⟩ := hval
  obtain ⟨nombre, rRut, email, telefono, cargo, interes, mensaje, archivo⟩ := req
  simp only at hrut
  subst hrut
  simp only [camposCompletos, Bool.and_eq_true] at hcampos
  obtain ⟨⟨⟨⟨hn, hr⟩, he⟩, hc⟩, hi⟩ := hcampos
  obtain ⟨n, rfl, -⟩ := esVerdadero_some hn
  obtain ⟨e, rfl, -⟩ := esVerdadero_some he
  obtain ⟨c, rfl, -⟩ := esVerdadero_some hc
  obtain ⟨i, rfl, -⟩ := esVerdadero_some hi
  simp only [postPostulacion, hcarga, hn, hr, he, hc, hi, hvalido, Bool.not_true, Bool.or_self,
    Bool.false_eq_true, if_false]
  refine ⟨?_, ?_, ?_, ?_⟩
  · intro hcorreo
    simp [hcorreo]
  · intro hcorreo
    simp [hcorreo]
  · intro hbd
    split <;> exact guardarPostulacion_falla env a _ hbd
  · split <;> simp

/-- Witness for the amended C20: with a failing INSERT the valid application is answered 200
and nothing is stored; with a failing mail send the answer has `success = false`. -/
theorem fallos_postulacion_witness :
    pasaValidacionPostulacion entornoFallaInsertar (postulacionEjemplo "12345678-5") ∧
    (postPostulacion entornoFallaInsertar almacenVacio
      (postulacionEjemplo "12345678-5")).respuesta.status = 200 ∧
    (postPostulacion entornoFallaInsertar almacenVacio
      (postulacionEjemplo "12345678-5")).almacen = almacenVacio ∧
    (postPostulacion entornoFallaCorreo almacenVacio
      (postulacionEjemplo "12345678-5")).respuesta.success = false :=
  have hval : pasaValidacionPostulacion entornoFallaInsertar
      (postulacionEjemplo "12345678-5") :=
    ⟨rfl, by decide, "12345678-5".toList, rfl, by decide⟩
  have h := fallos_postulacion entornoFallaInsertar almacenVacio
    (postulacionEjemplo "12345678-5") hval
  ⟨hval, (h.1 (by decide)).1, h.2.2.1 (Or.inr (Or.inr (by decide))), by decide⟩

/-- A text that passes the gate `validarRUT (formatearRUT rut)` is formatted to the canonical
shape, with the check character of its body. -/
theorem formatearRUT_canonico (rut : Texto) (hval : validarRUT (formatearRUT rut) = true) :
    EsRutCanonico (formatearRUT rut) := by
  have h7 : 7 ≤ (limpiar rut).length := by
    by_contra hc
    have hcorto : (limpiar rut).length < 7 := by omega
    rw [formatearRUT_corto hcorto, validarRUT_falso_si_corto hcorto] at hval
    cases hval
  have hl := limpiar_formatearRUT_largo h7
  rw [validarRUT_eq, hl, kMayuscula_length] at hval
  have hnuc : validarNucleo (kMayuscula (limpiar rut)) = true := by
    simpa [h7] using hval
  have hlen : 7 ≤ (kMayuscula (limpiar rut)).length := by rw [kMayuscula_length]; exact h7
  have hne : kMayuscula (limpiar rut) ≠ [] := by
    intro he
    rw [he] at hlen
    simp at hlen
  have hdig := cuerpo_digitos_of_validarNucleo (by omega) hnuc
  have hlimpio : ∀ c ∈ kMayuscula (limpiar rut), esCaracterRUT c = true :=
    esCaracterRUT_kMayuscula (fun c hc => esCaracterRUT_of_mem_limpiar hc)
  have hdvK := digito_o_K_of_limpio (hlimpio _ (List.getLast_mem hne))
    (kMayuscula_sin_k _ (List.getLast_mem hne))
  have hcheck : (kMayuscula (limpiar rut)).getLast hne =
      fEspecificada (11 - sumaEspecificada (sliceCuerpo (kMayuscula (limpiar rut))) % 11) := by
    unfold validarNucleo at hnuc
    rw [sumaBucle_cuerpo hdig, dvEsperado_suma, sliceDv_eq_getLast hne] at hnuc
    have := of_decide_eq_true hnuc
    simp only [toUpperCase, List.map_cons, List.map_nil, toUpper_digito_o_K hdvK] at this
    exact (List.cons.inj this).1
  have hcl : (sliceCuerpo (kMayuscula (limpiar rut))).length =
      (kMayuscula (limpiar rut)).length - 1 := sliceCuerpo_length _
  have hcne : sliceCuerpo (kMayuscula (limpiar rut)) ≠ [] := by
    intro he
    rw [he] at hcl
    simp at hcl
    omega
  obtain ⟨cab, grs, hdesc, hagr, h1, h3, hg, hlong⟩ := agrupar_descompone _ hcne
  refine ⟨cab, grs, (kMayuscula (limpiar rut)).getLast hne, ?_, h1, h3, ?_, ?_, ?_, hdvK, ?_⟩
  · rw [formatearRUT_largo h7, sliceDv_eq_getLast hne, hagr]
  · intro c hc
    exact hdig c (hdesc ▸ List.mem_append_left _ hc)
  · intro he
    rw [he] at hlong
    simp at hlong
    omega
  · intro g hgm
    refine ⟨hg g hgm, fun c hc => ?_⟩
    exact hdig c (hdesc ▸ List.mem_append_right _ (List.mem_flatten_of_mem hgm hc))
  · rw [← hdesc]
    exact hcheck

/-- The rows left by the database block of the create handler: the rows before it, and at
most the new row. -/
theorem guardarPostulacion_filas (env : EntornoPostulacion) (a : Almacen)
    (nueva p : Postulacion) (hp : p ∈ (guardarPostulacion env a nueva).1.postulaciones) :
    p ∈ a.postulaciones ∨ p = nueva := by
  unfold guardarPostulacion at hp
  split_ifs at hp
  · exact Or.inl hp
  · exact Or.inl hp
  · exact Or.inl hp
  · rcases List.mem_append.mp hp with h | h
    · exact Or.inl h
    · exact Or.inr (List.mem_singleton.mp h)

/-- The INSERT is issued by the database block only. -/
theorem procesarArchivo_sin_insertar (env : EntornoPostulacion) (archivo : Option Archivo) :
    Efecto.insertarPostulacion ∉ (procesarArchivo env archivo).2 := by
  unfold procesarArchivo
  cases archivo with
  | none => simp
  | some f => split_ifs <;> simp

/-- Every row that the create handler adds carries the formatted RUT of the request, and the
handler reaches the INSERT only with a RUT that passed the gate. -/
theorem postPostulacion_rut (env : EntornoPostulacion) (a : Almacen)
    (req : CuerpoPostulacion) :
    (∀ p ∈ (postPostulacion env a req).almacen.postulaciones, p ∉ a.postulaciones →
      ∃ rut, req.rut = some rut ∧ validarRUT (formatearRUT rut) = true ∧
        p.RUT = formatearRUT rut) ∧
    (Efecto.insertarPostulacion ∈ (postPostulacion env a req).efectos →
      ∃ rut, req.rut = some rut ∧ validarRUT (formatearRUT rut) = true) := by
  cases hcarga : env.cargaRechazada with
  | some mensaje =>
    rw [postPostulacion_carga_rechazada env a req mensaje hcarga]
    exact ⟨fun p hp hno => absurd hp hno, fun h => absurd h (List.not_mem_nil _)⟩
  | none =>
    obtain ⟨nombre, rRut, email, telefono, cargo, interes, mensaje, archivo⟩ := req
    cases nombre <;> cases rRut <;> cases email <;> cases cargo <;> cases interes <;>
      simp only [postPostulacion, hcarga] <;> split_ifs <;>
      first
        | exact ⟨fun p hp hno => absurd hp hno, fun h => absurd h (List.not_mem_nil _)⟩
        | (rename_i rut _ _ _ _ hval _
           have hv : validarRUT (formatearRUT rut) = true := by simpa using hval
           refine ⟨?_, fun _ => ⟨rut, rfl, hv⟩⟩
           intro p hp hno
           rcases guardarPostulacion_filas env a _ p hp with h | h
           · exact absurd h hno
           · exact ⟨rut, rfl, hv, by rw [h]⟩)

/-- Every row that the update handler changes carries the formatted RUT of the request, and
the handler reaches the UPDATE only with a RUT that passed the gate. -/
theorem putPostulacion_rut (env : EntornoPostulacion) (a : Almacen) (postulacionId : Texto)
    (req : CuerpoActualizarPostulacion) :
    (∀ p ∈ (putPostulacion env a postulacionId req).almacen.postulaciones,
      p ∉ a.postulaciones →
      ∃ rut, req.RUT = some rut ∧ validarRUT (formatearRUT rut) = true ∧
        p.RUT = formatearRUT rut) ∧
    (Efecto.actualizarPostulacion ∈ (putPostulacion env a postulacionId req).efectos →
      ∃ rut, req.RUT = some rut ∧ validarRUT (formatearRUT rut) = true) := by
  obtain ⟨nombre, rRut, email, telefono, cargo, interes, mensaje, tipo⟩ := req
  by_cases hnum : esNumerico postulacionId = true
  · by_cases hcampos : (!esVerdadero nombre || !esVerdadero rRut || !esVerdadero email ||
        !esVerdadero cargo) = true
    · simp only [putPostulacion, hnum, hcampos, Bool.not_true, Bool.false_eq_true, if_false,
        if_true]
      exact ⟨fun p hp hno => absurd hp hno, fun h => absurd h (by decide)⟩
    · simp only [Bool.or_eq_true, Bool.not_eq_true', not_or, Bool.not_eq_false] at hcampos
      obtain ⟨⟨⟨hn, hr⟩, he⟩, hc⟩ := hcampos
      obtain ⟨n, rfl, -⟩ := esVerdadero_some hn
      obtain ⟨rut, rfl, -⟩ := esVerdadero_some hr
      obtain ⟨e, rfl, -⟩ := esVerdadero_some he
      obtain ⟨c, rfl, -⟩ := esVerdadero_some hc
      by_cases hval : validarRUT (formatearRUT rut) = true
      · simp only [putPostulacion, hnum, hn, hr, he, hc, hval, Bool.not_true, Bool.or_self,
          Bool.false_eq_true, if_false]
        split_ifs
        · exact ⟨fun p hp hno => absurd hp hno, fun _ => ⟨rut, rfl, hval⟩⟩
        · exact ⟨fun p hp hno => absurd hp hno, fun _ => ⟨rut, rfl, hval⟩⟩
        · exact ⟨fun p hp hno => absurd hp hno, fun _ => ⟨rut, rfl, hval⟩⟩
        all_goals
          refine ⟨?_, fun _ => ⟨rut, rfl, hval⟩⟩
          intro p hp hno
          obtain ⟨q, hq, hqp⟩ := List.mem_map.mp hp
          by_cases hid : q.Id = valorDecimal postulacionId
          · rw [if_pos hid] at hqp
            exact ⟨rut, rfl, hval, by rw [← hqp]⟩
          · rw [if_neg hid] at hqp
            rw [← hqp] at hno
            exact absurd hq hno
      · have hinv : validarRUT (formatearRUT rut) = false := by simpa using hval
        simp only [putPostulacion, hnum, hn, hr, he, hc, hinv, Bool.not_true, Bool.or_self,
          Bool.false_eq_true, if_false, Bool.not_false, if_true]
        exact ⟨fun p hp hno => absurd hp hno, fun h => absurd h (by decide)⟩
  · have hnum2 : esNumerico postulacionId = false := by simpa using hnum
    simp only [putPostulacion, hnum2, Bool.not_false, if_true]
    exact ⟨fun p hp hno => absurd hp hno, fun h => absurd h (by decide)⟩

/-- C8: every RUT handed to storage by the job-application handlers is canonical and valid.
Both handlers reach the INSERT / UPDATE only with a text `rut` for which
`validarRUT (formatearRUT rut)` is true, every row they add or change stores
`formatearRUT rut`, and that value is 1 to 3 digits, then one or more groups of `'.'` and
exactly three digits, then `'-'`, then one character that is a digit or `'K'` and equals the
checksum of the body. -/
theorem rut_almacenado_canonico (env : EntornoPostulacion) (a : Almacen) :
    (∀ (req : CuerpoPostulacion) (p : Postulacion),
      p ∈ (postPostulacion env a req).almacen.postulaciones → p ∉ a.postulaciones →
      ∃ rut, req.rut = some rut ∧ validarRUT (formatearRUT rut) = true ∧
        p.RUT = formatearRUT rut ∧ EsRutCanonico p.RUT) ∧
    (∀ (postulacionId : Texto) (req : CuerpoActualizarPostulacion) (p : Postulacion),
      p ∈ (putPostulacion env a postulacionId req).almacen.postulaciones →
      p ∉ a.postulaciones →
      ∃ rut, req.RUT = some rut ∧ validarRUT (formatearRUT rut) = true ∧
        p.RUT = formatearRUT rut ∧ EsRutCanonico p.RUT) ∧
    (∀ req : CuerpoPostulacion,
      Efecto.insertarPostulacion ∈ (postPostulacion env a req).efectos →
      ∃ rut, req.rut = some rut ∧ validarRUT (formatearRUT rut) = true) ∧
    (∀ (postulacionId : Texto) (req : CuerpoActualizarPostulacion),
      Efecto.actualizarPostulacion ∈ (putPostulacion env a postulacionId req).efectos →
      ∃ rut, req.RUT = some rut ∧ validarRUT (formatearRUT rut) = true) ∧
    (∀ rut : Texto, validarRUT (formatearRUT rut) = true →
      EsRutCanonico (formatearRUT rut)) := by
  refine ⟨?_, ?_, fun req => (postPostulacion_rut env a req).2,
    fun postulacionId req => (putPostulacion_rut env a postulacionId req).2,
    formatearRUT_canonico⟩
  · intro req p hp hno
    obtain ⟨rut, hrut, hval, hp2⟩ := (postPostulacion_rut env a req).1 p hp hno
    exact ⟨rut, hrut, hval, hp2, hp2 ▸ formatearRUT_canonico rut hval⟩
  · intro postulacionId req p hp hno
    obtain ⟨rut, hrut, hval, hp2⟩ := (putPostulacion_rut env a postulacionId req).1 p hp hno
    exact ⟨rut, hrut, hval, hp2, hp2 ▸ formatearRUT_canonico rut hval⟩

/-- Witness for C8: the application with RUT `"12345678-5"` is stored with `"12.345.678-5"`,
and the update of row 7 with the same RUT stores `"12.345.678-5"` in it; both stored values
have the canonical shape. -/
theorem rut_almacenado_canonico_witness :
    (postPostulacion entornoPostulacionSinFallas almacenVacio
      (postulacionEjemplo "12345678-5")).almacen.postulaciones.map (·.RUT)
      = ["12.345.678-5".toList] ∧
    (∀ p ∈ (postPostulacion entornoPostulacionSinFallas almacenVacio
      (postulacionEjemplo "12345678-5")).almacen.postulaciones, EsRutCanonico p.RUT) ∧
    (putPostulacion entornoPostulacionSinFallas almacenEjemplo "7".toList
      (actualizacionEjemplo "12345678-5")).almacen.postulaciones.map (·.RUT)
      = ["12.345.678-5".toList] ∧
    (∀ p ∈ (putPostulacion entornoPostulacionSinFallas almacenEjemplo "7".toList
      (actualizacionEjemplo "12345678-5")).almacen.postulaciones, EsRutCanonico p.RUT) ∧
    Efecto.insertarPostulacion ∈ (postPostulacion entornoPostulacionSinFallas almacenVacio
      (postulacionEjemplo "12345678-5")).efectos :=
  have hnuevo : ∀ p ∈ (putPostulacion entornoPostulacionSinFallas almacenEjemplo "7".toList
      (actualizacionEjemplo "12345678-5")).almacen.postulaciones,
      p ∉ almacenEjemplo.postulaciones := by decide
  ⟨by decide,
    fun p hp =>
      match (rut_almacenado_canonico entornoPostulacionSinFallas almacenVacio).1
        (postulacionEjemplo "12345678-5") p hp (List.not_mem_nil p) with
      | ⟨_, _, _, _, h⟩ => h,
    by decide,
    fun p hp =>
      match (rut_almacenado_canonico entornoPostulacionSinFallas almacenEjemplo).2.1
        "7".toList (actualizacionEjemplo "12345678-5") p hp (hnuevo p hp) with
      | ⟨_, _, _, _, h⟩ => h,
    by decide⟩

/-! ### Error detection of the checksum -/

theorem sumaEspecificada_eq_sumaDesde (b : Texto) :
    sumaEspecificada b = sumaDesde 0 b.reverse := rfl

theorem sumaDesde_cons (k : Nat) (c : Char) (l : List Char) :
    sumaDesde (k) (c :: l) = valorDigito c * (2 + k % 6) + sumaDesde (k + 1) l := by
  simp [sumaDesde, valorDigito]

theorem sumaDesde_append (k : Nat) (l₁ l₂ : List Char) :
    sumaDesde k (l₁ ++ l₂) = sumaDesde k l₁ + sumaDesde (k + l₁.length) l₂ := by
  simp [sumaDesde, List.enumFrom_append]

theorem isDigit_casos {c : Char} (h : c.isDigit = true) :
    ∃ n, 48 ≤ n ∧ n ≤ 57 ∧ c = Char.ofNat n := by
  refine ⟨c.toNat, ?_, ?_, (Char.ofNat_toNat c).symm⟩
  · simp only [Char.isDigit, Bool.and_eq_true, decide_eq_true_eq] at h
    exact h.1
  · simp only [Char.isDigit, Bool.and_eq_true, decide_eq_true_eq] at h
    exact h.2

theorem valorDigito_le_nueve {c : Char} (h : c.isDigit = true) : valorDigito c ≤ 9 := by
  obtain ⟨n, h1, h2, rfl⟩ := isDigit_casos h
  interval_cases n <;> decide

theorem valorDigito_inyectiva {x y : Char} (hx : x.isDigit = true) (hy : y.isDigit = true)
    (h : valorDigito x = valorDigito y) : x = y := by
  obtain ⟨n, h1, h2, rfl⟩ := isDigit_casos hx
  obtain ⟨m, h3, h4, rfl⟩ := isDigit_casos hy
  interval_cases n <;> interval_cases m <;> first | rfl | (exfalso; revert h; decide)

theorem fEspecificada_inyectiva {v w : Nat} (hv1 : 1 ≤ v) (hv2 : v ≤ 11) (hw1 : 1 ≤ w)
    (hw2 : w ≤ 11) (h : fEspecificada v = fEspecificada w) : v = w := by
  interval_cases v <;> interval_cases w <;> first | rfl | (exfalso; revert h; decide)

theorem esCaracterRUT_of_isDigit {c : Char} (h : c.isDigit = true) : esCaracterRUT c = true := by
  simp [esCaracterRUT, h]

theorem limpiar_cuerpo_dv {b : Texto} {c : Char} (hb : ∀ d ∈ b, d.isDigit = true)
    (hc : esCaracterRUT c = true) : limpiar (b ++ '-' :: [c]) = b ++ [c] := by
  have hg : esCaracterRUT '-' = false := by decide
  rw [limpiar_append, limpiar_eq_self (fun d hd => esCaracterRUT_of_isDigit (hb d hd))]
  congr 1
  unfold limpiar
  rw [List.filter_cons_of_neg (by simp [hg]), List.filter_cons_of_pos hc]
  rfl

theorem validarRUT_cuerpo_dv {b : Texto} {c : Char} (hb : ∀ d ∈ b, d.isDigit = true)
    (hlen : 6 ≤ b.length) (hc : esCaracterRUT c = true) :
    validarRUT (b ++ '-' :: [c]) =
      decide (c.toUpper = fEspecificada (11 - sumaEspecificada b % 11)) := by
  have hne : b ++ [c] ≠ [] := by simp
  have hcuerpo : sliceCuerpo (b ++ [c]) = b := by
    unfold sliceCuerpo
    exact List.dropLast_concat
  have hdv : sliceDv (b ++ [c]) = [c] := by
    rw [sliceDv_eq_getLast hne]
    simp
  have h7 : 7 ≤ (b ++ [c]).length := by
    rw [List.length_append]
    simp
    omega
  rw [validarRUT_eq, limpiar_cuerpo_dv hb hc]
  simp only [h7, decide_True, Bool.true_and, validarNucleo, hcuerpo, hdv, sumaBucle_cuerpo hb,
    dvEsperado_suma, toUpperCase, List.map_cons, List.map_nil]
  by_cases h : c.toUpper = fEspecificada (11 - sumaEspecificada b % 11)
  · simp [h]
  · simp [h]

theorem fEspecificada_digito_o_K {v : Nat} (hv1 : 1 ≤ v) (hv2 : v ≤ 11) :
    (fEspecificada v).isDigit = true ∨ fEspecificada v = 'K' := by
  interval_cases v <;> decide

theorem mod_once_de_resta {s s' : Nat} (h : 11 - s % 11 = 11 - s' % 11) : s % 11 = s' % 11 := by
  omega

/-- From two valid RUTs with the same check character, the two sums agree modulo 11. -/
theorem sumas_congruentes {b b' : Texto} {c : Char} (hb : ∀ d ∈ b, d.isDigit = true)
    (hb' : ∀ d ∈ b', d.isDigit = true) (hlen : 6 ≤ b.length) (hlen' : 6 ≤ b'.length)
    (hc : esCaracterRUT c = true) (hval : validarRUT (b ++ '-' :: [c]) = true)
    (hval' : validarRUT (b' ++ '-' :: [c]) = true) :
    sumaEspecificada b % 11 = sumaEspecificada b' % 11 := by
  rw [validarRUT_cuerpo_dv hb hlen hc] at hval
  rw [validarRUT_cuerpo_dv hb' hlen' hc] at hval'
  have h1 := of_decide_eq_true hval
  have h2 := of_decide_eq_true hval'
  have hf := h1.symm.trans h2
  have hm : sumaEspecificada b % 11 < 11 := Nat.mod_lt _ (by decide)
  have hm' : sumaEspecificada b' % 11 < 11 := Nat.mod_lt _ (by decide)
  exact mod_once_de_resta
    (fEspecificada_inyectiva (by omega) (by omega) (by omega) (by omega) hf)

/-- C23: the checksum detects every single-digit error in the body.  For digit-only bodies
`b` and `b'` of at least 6 digits that differ in exactly one position and a check character
`c`, if `b-c` is valid then `b'-c` is not. -/
theorem checksum_detecta_error_de_digito (b b' : Texto) (c : Char)
    (hb : ∀ d ∈ b, d.isDigit = true) (hb' : ∀ d ∈ b', d.isDigit = true)
    (hlen : 6 ≤ b.length) (hc : esCaracterRUT c = true)
    (hdif : difierenEnUnaPosicion b b')
    (hval : validarRUT (b ++ '-' :: [c]) = true) :
    b'.length = b.length ∧ validarRUT (b' ++ '-' :: [c]) = false := by
  obtain ⟨pre, x, y, post, rfl, rfl, hxy⟩ := hdif
  have hlong : (pre ++ y :: post).length = (pre ++ x :: post).length := by simp
  refine ⟨hlong, ?_⟩
  by_contra hno
  have hval' : validarRUT (pre ++ y :: post ++ '-' :: [c]) = true := by simpa using hno
  have hcong := sumas_congruentes hb hb' hlen (by omega) hc hval hval'
  have hx : x.isDigit = true := hb x (by simp)
  have hy : y.isDigit = true := hb' y (by simp)
  have hvx := valorDigito_le_nueve hx
  have hvy := valorDigito_le_nueve hy
  have hne : valorDigito x ≠ valorDigito y := fun h => hxy (valorDigito_inyectiva hx hy h)
  simp only [sumaEspecificada_eq_sumaDesde, List.reverse_append, List.reverse_cons,
    List.append_assoc, List.singleton_append, sumaDesde_append, sumaDesde_cons,
    List.length_reverse, Nat.zero_add] at hcong
  have hpeso : post.length % 6 < 6 := Nat.mod_lt _ (by decide)
  generalize post.length % 6 = a at hcong hpeso
  generalize sumaDesde 0 post.reverse = p at hcong
  generalize sumaDesde (post.length + 1) pre.reverse = q at hcong
  generalize valorDigito x = vx at hcong hvx hne
  generalize valorDigito y = vy at hcong hvy hne
  interval_cases a <;> omega

/-- Witness for C23: `12345678-5` is valid and `12345679-5`, with one digit changed, is
not. -/
theorem checksum_detecta_error_de_digito_witness :
    difierenEnUnaPosicion "12345678".toList "12345679".toList ∧
    validarRUT ("12345678".toList ++ '-' :: ['5']) = true ∧
    "12345679".toList.length = "12345678".toList.length ∧
    validarRUT ("12345679".toList ++ '-' :: ['5']) = false :=
  have hdif : difierenEnUnaPosicion "12345678".toList "12345679".toList :=
    ⟨"1234567".toList, '8', '9', [], rfl, rfl, by decide⟩
  have h := checksum_detecta_error_de_digito "12345678".toList "12345679".toList '5'
    (by decide) (by decide) (by decide) (by decide) hdif (by decide)
  ⟨hdif, by decide, h.1, h.2⟩

/-- C24: the checksum detects every transposition of two adjacent, different body digits,
the pair whose weights wrap from 7 back to 2 included.  For a digit-only body `b` of at least
6 digits and a check character `c`, if `b-c` is valid and `b'` is `b` with two neighbouring
different digits swapped, then `b'-c` is not valid. -/
theorem checksum_detecta_transposicion (b b' : Texto) (c : Char)
    (hb : ∀ d ∈ b, d.isDigit = true) (hlen : 6 ≤ b.length) (hc : esCaracterRUT c = true)
    (htrans : esTransposicionAdyacente b b')
    (hval : validarRUT (b ++ '-' :: [c]) = true) :
    validarRUT (b' ++ '-' :: [c]) = false := by
  obtain ⟨pre, x, y, post, rfl, rfl, hxy⟩ := htrans
  have hb' : ∀ d ∈ pre ++ y :: x :: post, d.isDigit = true := by
    intro d hd
    apply hb d
    simp only [List.mem_append, List.mem_cons] at hd ⊢
    tauto
  have hlong : (pre ++ y :: x :: post).length = (pre ++ x :: y :: post).length := by simp
  by_contra hno
  have hval' : validarRUT (pre ++ y :: x :: post ++ '-' :: [c]) = true := by simpa using hno
  have hcong := sumas_congruentes hb hb' hlen (by omega) hc hval hval'
  have hx : x.isDigit = true := hb x (by simp)
  have hy : y.isDigit = true := hb y (by simp)
  have hvx := valorDigito_le_nueve hx
  have hvy := valorDigito_le_nueve hy
  have hne : valorDigito x ≠ valorDigito y := fun h => hxy (valorDigito_inyectiva hx hy h)
  simp only [sumaEspecificada_eq_sumaDesde, List.reverse_append, List.reverse_cons,
    List.append_assoc, List.singleton_append, sumaDesde_append, sumaDesde_cons,
    List.length_reverse, Nat.zero_add] at hcong
  have hpeso : post.length % 6 < 6 := Nat.mod_lt _ (by decide)
  have hsig : (post.length + 1) % 6 = if post.length % 6 = 5 then 0 else post.length % 6 + 1 := by
    split <;> omega
  rw [hsig] at hcong
  generalize post.length % 6 = a at hcong hpeso
  generalize sumaDesde 0 post.reverse = p at hcong
  generalize sumaDesde (post.length + 1 + 1) pre.reverse = q at hcong
  generalize valorDigito x = vx at hcong hvx hne
  generalize valorDigito y = vy at hcong hvy hne
  interval_cases a <;> simp at hcong <;> omega

/-- Witness for C24: in `12345678` the digits `2` and `3` carry the weights 2 and 7, the pair
where the weights wrap; `12345678-5` is valid and `13245678-5` is not. -/
theorem checksum_detecta_transposicion_witness :
    esTransposicionAdyacente "12345678".toList "13245678".toList ∧
    validarRUT ("12345678".toList ++ '-' :: ['5']) = true ∧
    validarRUT ("13245678".toList ++ '-' :: ['5']) = false :=
  have htrans : esTransposicionAdyacente "12345678".toList "13245678".toList :=
    ⟨['1'], '2', '3', "45678".toList, rfl, rfl, by decide⟩
  ⟨htrans, by decide,
    checksum_detecta_transposicion "12345678".toList "13245678".toList '5' (by decide)
      (by decide) (by decide) htrans (by decide)⟩

/-- C25: every body has exactly one valid check character.  For a digit-only body `b` of at
least 6 digits there is exactly one character `c` among `'0'..'9'` and `'K'` with
`validarRUT (b-c) = true`; the computed value `11 - (sum mod 11)` lies in `1..11`, and the
mapping of these values to characters is injective. -/
theorem digito_verificador_unico (b : Texto) (hb : ∀ d ∈ b, d.isDigit = true)
    (hlen : 6 ≤ b.length) :
    (∃! c : Char, (c.isDigit = true ∨ c = 'K') ∧ validarRUT (b ++ '-' :: [c]) = true) ∧
    (1 ≤ 11 - sumaEspecificada b % 11 ∧ 11 - sumaEspecificada b % 11 ≤ 11) ∧
    (∀ v w : Nat, 1 ≤ v → v ≤ 11 → 1 ≤ w → w ≤ 11 →
      fEspecificada v = fEspecificada w → v = w) := by
  have hm : sumaEspecificada b % 11 < 11 := Nat.mod_lt _ (by decide)
  have hrango : 1 ≤ 11 - sumaEspecificada b % 11 ∧ 11 - sumaEspecificada b % 11 ≤ 11 := by
    omega
  have hforma := fEspecificada_digito_o_K hrango.1 hrango.2
  have hrut : ∀ c : Char, (c.isDigit = true ∨ c = 'K') → esCaracterRUT c = true := by
    intro c hc
    rcases hc with hc | hc
    · exact esCaracterRUT_of_isDigit hc
    · subst hc; decide
  refine ⟨⟨fEspecificada (11 - sumaEspecificada b % 11), ⟨hforma, ?_⟩, ?_⟩, hrango, ?_⟩
  · rw [validarRUT_cuerpo_dv hb hlen (hrut _ hforma), toUpper_digito_o_K hforma]
    simp
  · intro c hc
    obtain ⟨hdk, hval⟩ := hc
    rw [validarRUT_cuerpo_dv hb hlen (hrut _ hdk), toUpper_digito_o_K hdk] at hval
    exact of_decide_eq_true hval
  · intro v w hv1 hv2 hw1 hw2 h
    exact fEspecificada_inyectiva hv1 hv2 hw1 hw2 h

/-- Witness for C25: for the body `12345678` the only valid check character is `'5'`. -/
theorem digito_verificador_unico_witness :
    (∀ d ∈ "12345678".toList, d.isDigit = true) ∧ 6 ≤ "12345678".toList.length ∧
    (∃! c : Char, (c.isDigit = true ∨ c = 'K') ∧
      validarRUT ("12345678".toList ++ '-' :: [c]) = true) ∧
    validarRUT ("12345678".toList ++ '-' :: ['5']) = true :=
  ⟨by decide, by decide,
    (digito_verificador_unico "12345678".toList (by decide) (by decide)).1, by decide⟩

theorem mem_agrupar_of_mem {s : Texto} {c : Char} (h : c ∈ s) : c ∈ agrupar s := by
  induction s with
  | nil => cases h
  | cons a resto ih =>
    rcases List.mem_cons.mp h with rfl | h
    · by_cases hg : 0 < resto.length ∧ resto.length % 3 = 0
      · simp [agrupar, hg]
      · simp [agrupar, hg]
    · by_cases hg : 0 < resto.length ∧ resto.length % 3 = 0
      · simp [agrupar, hg, ih h]
      · simp [agrupar, hg, ih h]

/-- C26: `validarRUT` rejects a letter in the body.  For a text whose cleaned form has at
least 7 characters and holds a `K` or `k` before its last position, `validarRUT` is false
whatever the check character is, while `formatearRUT` still formats the input and keeps the
(upper-cased) `K` inside the body. -/
theorem validarRUT_rechaza_letra_en_cuerpo (x : Texto) (h7 : 7 ≤ (limpiar x).length)
    (hk : ∃ c ∈ (limpiar x).dropLast, c = 'K' ∨ c = 'k') :
    validarRUT x = false ∧
    (∃ dv, (kMayuscula (limpiar x)).getLast? = some dv ∧
      formatearRUT x = agrupar (kMayuscula (limpiar x)).dropLast ++ ['-', dv]) ∧
    'K' ∈ agrupar (kMayuscula (limpiar x)).dropLast := by
  obtain ⟨c, hc, hck⟩ := hk
  have hnodig : c.isDigit = false := by
    rcases hck with rfl | rfl <;> decide
  have hne : kMayuscula (limpiar x) ≠ [] := by
    intro he
    have hlong := kMayuscula_length (limpiar x)
    rw [he, List.length_nil] at hlong
    omega
  refine ⟨?_, ⟨(kMayuscula (limpiar x)).getLast hne, List.getLast?_eq_getLast _ hne, ?_⟩, ?_⟩
  · rw [validarRUT_eq]
    have hnuc : validarNucleo (limpiar x) = false := by
      by_contra hno
      have hsi : validarNucleo (limpiar x) = true := by simpa using hno
      have := cuerpo_digitos_of_validarNucleo (by omega) hsi c hc
      rw [hnodig] at this
      cases this
    simp [hnuc]
  · rw [formatearRUT_largo h7, sliceDv_eq_getLast hne]
    rfl
  · apply mem_agrupar_of_mem
    have hmap : (kMayuscula (limpiar x)).dropLast = kMayuscula (limpiar x).dropLast := by
      unfold kMayuscula
      rw [List.map_dropLast]
    rw [hmap]
    unfold kMayuscula
    refine List.mem_map.mpr ⟨c, hc, ?_⟩
    rcases hck with rfl | rfl <;> decide

/-- Witness for C26: `1k345678-5` is rejected and formatted as `1K.345.678-5`. -/
theorem validarRUT_rechaza_letra_en_cuerpo_witness :
    7 ≤ (limpiar "1k345678-5".toList).length ∧
    (∃ c ∈ (limpiar "1k345678-5".toList).dropLast, c = 'K' ∨ c = 'k') ∧
    validarRUT "1k345678-5".toList = false ∧
    formatearRUT "1k345678-5".toList = "1K.345.678-5".toList :=
  have hk : ∃ c ∈ (limpiar "1k345678-5".toList).dropLast, c = 'K' ∨ c = 'k' :=
    ⟨'k', by decide, Or.inr rfl⟩
  ⟨by decide, hk,
    (validarRUT_rechaza_letra_en_cuerpo "1k345678-5".toList (by decide) hk).1, by decide⟩

/-! ## Claims on the create postcondition, the orphan cleanup step and the update frame -/

theorem filter_no_huerfanas {clave : Texto → Texto} {filas : List Fila} {titulo : Texto}
    (h : ∀ f ∈ filas, mismoTitulo clave f.Titulo titulo = false) :
    filas.filter (fun f => !esHuerfana clave titulo f) = filas := by
  rw [List.filter_eq_self]
  intro f hf
  simp [esHuerfana, h f hf]

/-- The answer of the create handler when validation passes, the duplicate check finds no row
and every storage call succeeds: the INSERT is committed. -/
theorem postForoImagenes_exito {env : Entorno} {t : Tabla} {req : CuerpoImagen}
    {titulo imagen : Texto} (htit : req.Titulo = some titulo)
    (himg : req.ImagenBase64 = some imagen) (hnt : titulo ≠ []) (hni : imagen ≠ [])
    (hlen : longitudUtf16 imagen ≤ maxSize)
    (hpre : "data:image/".toList.isPrefixOf imagen = true)
    (hlibre : ∀ f ∈ t.filas, mismoTitulo env.clave f.Titulo titulo = false)
    (hconectar : env.falla .conectar = false) (hiniciar : env.falla .iniciar = false)
    (hbloquear : env.falla .bloquear = false)
    (hbuscar : env.falla .buscarDuplicado = false)
    (hlimpiar : env.falla .limpiarHuerfanos = false)
    (hinsertar : env.falla .insertar = false)
    (hconfirmar : env.falla .confirmar = false) :
    postForoImagenes env t req =
      ⟨⟨201, true, "Imagen del foro creada correctamente", some t.identidad⟩,
        ⟨t.filas ++ [{ Id := t.identidad
                       Titulo := titulo
                       Descripcion := oNulo req.Descripcion
                       ImagenBase64 := some imagen
                       TipoImagen := oNulo req.TipoImagen
                       NombreArchivo := oNulo req.NombreArchivo
                       Orden := ordenONulo req.Orden
                       FechaCreacion := env.ahora }], t.identidad + 1⟩,
        [.conectar, .iniciar, .bloquear, .buscarDuplicado, .limpiarHuerfanos, .insertar,
          .confirmar]⟩ := by
  have hfil : t.filas.filter (fun f => mismoTitulo env.clave f.Titulo titulo) = [] := by
    exact filter_nil_of_forall hlibre
  rw [postForoImagenes_valida_eq env t req titulo imagen htit himg hnt hni hlen hpre]
  simp only [transaccionCrear, cerrarBloque, hconectar, hiniciar, hbloquear, hbuscar, hlimpiar,
    hinsertar, hconfirmar, hfil, List.map_nil, Bool.false_eq_true, if_false,
    List.singleton_append, filter_no_huerfanas hlibre]

theorem pasaValidacionCrear_campos {req : CuerpoImagen} (h : pasaValidacionCrear req = true) :
    ∃ titulo imagen, req.Titulo = some titulo ∧ req.ImagenBase64 = some imagen ∧
      titulo ≠ [] ∧ imagen ≠ [] ∧ longitudUtf16 imagen ≤ maxSize ∧
      "data:image/".toList.isPrefixOf imagen = true := by
  simp only [pasaValidacionCrear, Bool.and_eq_true] at h
  obtain ⟨⟨hvt, hvi⟩, hresto⟩ := h
  obtain ⟨titulo, htit, hnt⟩ := esVerdadero_some hvt
  obtain ⟨imagen, himg, hni⟩ := esVerdadero_some hvi
  rw [himg] at hresto
  simp only [Bool.and_eq_true, decide_eq_true_eq] at hresto
  exact ⟨titulo, imagen, htit, himg, hnt, hni, hresto.1, hresto.2⟩

/-- C21 (the code at the failing input): no row of the example table holds the title `"logo "`
(with a trailing blank), the request passes validation and every storage call succeeds, so
the claim promises 201 and one new row.  The duplicate check `WHERE Titulo = @titulo`, which
the comment at line 2041 and the message call a check of the exact title, ignores the trailing
blank and finds row 1 (`"logo"`): the handler answers 409 with `data.id = 1` and inserts
nothing. -/
theorem post_titulo_con_blanco_final :
    pasaValidacionCrear (solicitudEjemplo "logo ") = true ∧
    (∀ f ∈ tablaEjemplo.filas, some f.Titulo ≠ (solicitudEjemplo "logo ").Titulo) ∧
    (∀ op, entornoSinFallas.falla op = false) ∧
    (postForoImagenes entornoSinFallas tablaEjemplo (solicitudEjemplo "logo ")).respuesta
      = ⟨409, false, "Ya existe una imagen con este título exacto", some 1⟩ ∧
    (postForoImagenes entornoSinFallas tablaEjemplo (solicitudEjemplo "logo ")).tabla
      = tablaEjemplo ∧
    (postForoImagenes entornoSinFallas tablaEjemplo (solicitudEjemplo "logo ")).traza
      = [.conectar, .iniciar, .bloquear, .buscarDuplicado, .revertir] := by
  refine ⟨by decide, by decide, fun _ => rfl, by decide, by decide, by decide⟩

/-- The create postcondition where the duplicate check finds nothing.  For a create request
that passes validation, if no row holds a title that the database compares equal to the
requested one and the storage calls succeed, the table after the request is the table before
it plus exactly one new row: its title and image are the request's, its description, image
type, file name and order are the request's value when that value is truthy and null
otherwise (an order of 0 is stored as null); the transaction is committed and the answer is
201 with `success = true` and `data.id` the `Id` of the new row. -/
theorem post_crea_una_fila (env : Entorno) (t : Tabla) (req : CuerpoImagen)
    (hval : pasaValidacionCrear req = true)
    (hlibre : ∀ f ∈ t.filas, ∀ titulo, req.Titulo = some titulo →
      mismoTitulo env.clave f.Titulo titulo = false)
    (hconectar : env.falla .conectar = false) (hiniciar : env.falla .iniciar = false)
    (hbloquear : env.falla .bloquear = false)
    (hbuscar : env.falla .buscarDuplicado = false)
    (hlimpiar : env.falla .limpiarHuerfanos = false)
    (hinsertar : env.falla .insertar = false)
    (hconfirmar : env.falla .confirmar = false) :
    ∃ nueva : Fila,
      (postForoImagenes env t req).tabla.filas = t.filas ++ [nueva] ∧
      some nueva.Titulo = req.Titulo ∧ nueva.ImagenBase64 = req.ImagenBase64 ∧
      nueva.Descripcion = (if esVerdadero req.Descripcion then req.Descripcion else none) ∧
      nueva.TipoImagen = (if esVerdadero req.TipoImagen then req.TipoImagen else none) ∧
      nueva.NombreArchivo =
        (if esVerdadero req.NombreArchivo then req.NombreArchivo else none) ∧
      (∀ n : Int, req.Orden = some n → n ≠ 0 → nueva.Orden = some n) ∧
      (req.Orden = none ∨ req.Orden = some 0 → nueva.Orden = none) ∧
      (postForoImagenes env t req).traza.getLast? = some .confirmar ∧
      (postForoImagenes env t req).respuesta.status = 201 ∧
      (postForoImagenes env t req).respuesta.success = true ∧
      (postForoImagenes env t req).respuesta.dataId = some nueva.Id := by
  obtain ⟨titulo, imagen, htit, himg, hnt, hni, hlen, hpre⟩ := pasaValidacionCrear_campos hval
  have hlibre2 : ∀ f ∈ t.filas, mismoTitulo env.clave f.Titulo titulo = false :=
    fun f hf => hlibre f hf titulo htit
  rw [postForoImagenes_exito htit himg hnt hni hlen hpre hlibre2 hconectar hiniciar hbloquear
    hbuscar hlimpiar hinsertar hconfirmar]
  refine ⟨_, rfl, htit.symm, himg.symm, rfl, rfl, rfl, ?_, ?_, rfl, rfl, rfl, rfl⟩
  · intro n hn hn0
    simp [hn, ordenONulo, hn0]
  · intro h
    rcases h with h | h <;> simp [h, ordenONulo]

/-- A complete request with the new title `"foto"` and an order of 0 adds row 3 to the
example table, with a null order, and is answered 201 with `data.id = 3`. -/
theorem post_crea_una_fila_witness :
    pasaValidacionCrear solicitudCompleta = true ∧
    (∀ f ∈ tablaEjemplo.filas,
      mismoTitulo entornoSinFallas.clave f.Titulo "foto".toList = false) ∧
    (postForoImagenes entornoSinFallas tablaEjemplo solicitudCompleta).tabla.filas.map
      (fun f => (f.Id, f.Titulo, f.Orden)) =
      [(1, "logo".toList, none), (2, "banner".toList, none), (3, "foto".toList, none)] ∧
    (postForoImagenes entornoSinFallas tablaEjemplo solicitudCompleta).respuesta.status = 201 ∧
    (postForoImagenes entornoSinFallas tablaEjemplo solicitudCompleta).respuesta.dataId
      = some 3 :=
  match post_crea_una_fila entornoSinFallas tablaEjemplo solicitudCompleta (by decide)
    (fun f hf titulo htit => by
      cases htit
      revert f
      decide) rfl rfl rfl rfl rfl rfl rfl with
  | ⟨_, _, _, _, _, _, _, _, _, _, hstatus, _, _⟩ =>
    ⟨by decide, by decide, by decide, hstatus, by decide⟩

/-- The answer of the create handler when the duplicate check finds the row `g` first. -/
theorem postForoImagenes_conflicto {env : Entorno} {t : Tabla} {req : CuerpoImagen}
    {titulo : Texto} {g : Fila} {resto : List Fila}
    (hval : pasaValidacionCrear req = true) (htit : req.Titulo = some titulo)
    (hfil : t.filas.filter (fun f => mismoTitulo env.clave f.Titulo titulo) = g :: resto)
    (hconectar : env.falla .conectar = false) (hiniciar : env.falla .iniciar = false)
    (hbloquear : env.falla .bloquear = false)
    (hbuscar : env.falla .buscarDuplicado = false)
    (hrevertir : env.falla .revertir = false) :
    postForoImagenes env t req =
      ⟨⟨409, false, "Ya existe una imagen con este título exacto", some g.Id⟩, t,
        [.conectar, .iniciar, .bloquear, .buscarDuplicado, .revertir]⟩ := by
  obtain ⟨titulo2, imagen, htit2, himg, hnt, hni, hlen, hpre⟩ := pasaValidacionCrear_campos hval
  rw [htit] at htit2
  cases htit2
  rw [postForoImagenes_valida_eq env t req titulo imagen htit himg hnt hni hlen hpre]
  simp only [transaccionCrear, cerrarBloque, hconectar, hiniciar, hbloquear, hbuscar, hrevertir,
    hfil, List.map_cons, Bool.false_eq_true, if_false, List.singleton_append]

/-- With a row that the duplicate check finds, the create handler writes nothing: the table
is left as it was and no write statement is issued. -/
theorem postForoImagenes_con_duplicado {env : Entorno} {t : Tabla} {req : CuerpoImagen}
    {titulo : Texto} (htit : req.Titulo = some titulo)
    (hdup : ∃ f ∈ t.filas, mismoTitulo env.clave f.Titulo titulo = true) :
    (postForoImagenes env t req).tabla = t ∧
    sinEscrituras (postForoImagenes env t req).traza = true := by
  obtain ⟨rTitulo, rDescripcion, rImagen, rTipo, rNombre, rOrden⟩ := req
  simp only at htit
  subst htit
  obtain ⟨g, resto, hfil, -, -⟩ := filter_primero hdup
  cases rImagen <;> simp only [postForoImagenes] <;> split_ifs <;>
    first
      | exact ⟨rfl, rfl⟩
      | (refine ⟨?_, ?_⟩
         · rw [cerrarBloque_tabla]
           simp only [transaccionCrear, hfil, List.map_cons]
           split_ifs <;> rfl
         · rcases cerrarBloque_traza env (mensajeErrorCrear env.claseError)
              (transaccionCrear env t _ _ _) with h | h <;> rw [h]
           · exact (transaccionCrear_sinEscrituras env t _ _ _ hdup).1
           · exact (transaccionCrear_sinEscrituras env t _ _ _ hdup).2)

theorem no_escritura_de_sinEscrituras {traza : List Operacion} {op : Operacion}
    (h : sinEscrituras traza = true) (hop : esEscritura op = true) : op ∉ traza := by
  intro hmem
  have := List.all_eq_true.mp h op hmem
  rw [hop] at this
  cases this

/-- C27 (as stated, refuted): the only row of the table is an orphan titled `"logo"` and the
request asks for that title, but `sql.connect` rejects; the orphan is not cleaned up, yet the
answer is 500, not 409. -/
theorem huerfana_contraejemplo :
    pasaValidacionCrear (solicitudEjemplo "logo") = true ∧
    (∃ f ∈ tablaConHuerfana.filas,
      esHuerfana entornoSinConexion.clave "logo".toList f = true) ∧
    (postForoImagenes entornoSinConexion tablaConHuerfana (solicitudEjemplo "logo")).tabla
      = tablaConHuerfana ∧
    (postForoImagenes entornoSinConexion tablaConHuerfana
      (solicitudEjemplo "logo")).respuesta.status = 500 ∧
    (postForoImagenes entornoSinConexion tablaConHuerfana
      (solicitudEjemplo "logo")).respuesta.status ≠ 409 := by
  decide

/-- C27 (amended): the orphan cleanup step of the create handler never removes a row.  In
every execution that reaches the DELETE, no row holds the requested title (not even as the
database compares titles), so no row matches the DELETE.  An orphan row sharing the title is
therefore never cleaned up: the DELETE is not reached and the table is left as it was; the
request ends in a 409 conflict when it passes validation and the storage calls up to the
rollback succeed. -/
theorem limpieza_de_huerfanas_sin_efecto (env : Entorno) (t : Tabla) (req : CuerpoImagen)
    (titulo : Texto) (htit : req.Titulo = some titulo) :
    (Operacion.limpiarHuerfanos ∈ (postForoImagenes env t req).traza →
      (∀ f ∈ t.filas, f.Titulo ≠ titulo) ∧
      (∀ f ∈ t.filas, mismoTitulo env.clave f.Titulo titulo = false) ∧
      t.filas.filter (fun f => esHuerfana env.clave titulo f) = [] ∧
      t.filas.filter (fun f => !esHuerfana env.clave titulo f) = t.filas) ∧
    ((∃ f ∈ t.filas, esHuerfana env.clave titulo f = true) →
      Operacion.limpiarHuerfanos ∉ (postForoImagenes env t req).traza ∧
      (postForoImagenes env t req).tabla = t ∧
      (pasaValidacionCrear req = true → env.falla .conectar = false →
        env.falla .iniciar = false → env.falla .bloquear = false →
        env.falla .buscarDuplicado = false → env.falla .revertir = false →
        (postForoImagenes env t req).respuesta.status = 409)) := by
  constructor
  · intro hmem
    have hlibre : ∀ f ∈ t.filas, mismoTitulo env.clave f.Titulo titulo = false := by
      intro f hf
      by_contra hno
      have ht : mismoTitulo env.clave f.Titulo titulo = true := by simpa using hno
      have h := (@postForoImagenes_con_duplicado env t req titulo htit ⟨f, hf, ht⟩).2
      exact @no_escritura_de_sinEscrituras _ Operacion.limpiarHuerfanos h rfl hmem
    refine ⟨fun f hf => ne_of_mismoTitulo_false (hlibre f hf), hlibre, ?_,
      filter_no_huerfanas hlibre⟩
    apply filter_nil_of_forall
    intro f hf
    simp [esHuerfana, hlibre f hf]
  · intro hhuerfana
    obtain ⟨f, hf, hh⟩ := hhuerfana
    have ht : mismoTitulo env.clave f.Titulo titulo = true := by
      simp only [esHuerfana, Bool.and_eq_true] at hh
      exact hh.1
    have hdup : ∃ f ∈ t.filas, mismoTitulo env.clave f.Titulo titulo = true := ⟨f, hf, ht⟩
    have h := @postForoImagenes_con_duplicado env t req titulo htit hdup
    refine ⟨@no_escritura_de_sinEscrituras _ Operacion.limpiarHuerfanos h.2 rfl, h.1, ?_⟩
    intro hval hconectar hiniciar hbloquear hbuscar hrevertir
    obtain ⟨g, resto, hfil, -, -⟩ := filter_primero hdup
    rw [postForoImagenes_conflicto hval htit hfil hconectar hiniciar hbloquear hbuscar
      hrevertir]

/-- With another row that the duplicate check finds, the update handler answers 409 or 500
and leaves the table as it was. -/
theorem putForoImagenes_con_duplicado {env : Entorno} {t : Tabla} {imagenId : Int}
    {req : CuerpoImagen} {titulo : Texto}
    (htit : req.Titulo = some titulo) (hnv : esVerdadero req.Titulo = true)
    (hdup : ∃ f ∈ t.filas, mismoTitulo env.clave f.Titulo titulo = true ∧ f.Id ≠ imagenId) :
    ((putForoImagenes env t imagenId req).respuesta.status = 409 ∨
      (putForoImagenes env t imagenId req).respuesta.status = 500) ∧
    (putForoImagenes env t imagenId req).tabla = t := by
  obtain ⟨rTitulo, rDescripcion, rImagen, rTipo, rNombre, rOrden⟩ := req
  simp only at htit
  subst htit
  simp only at hnv
  have hex2 : ∃ f ∈ t.filas,
      (mismoTitulo env.clave f.Titulo titulo && decide (f.Id ≠ imagenId)) = true := by
    obtain ⟨f, hf, ht, hi⟩ := hdup
    exact ⟨f, hf, by simp [ht, hi]⟩
  obtain ⟨g, resto, hfil, -, -⟩ := filter_primero hex2
  simp only [putForoImagenes, hnv, Bool.not_true, Bool.false_eq_true, if_false,
    transaccionActualizar, hfil, List.map_cons]
  split_ifs <;> simp [cerrarBloque]

theorem cerrarBloque_lanza_status (env : Entorno) (mensaje : String)
    (previo : List Operacion) (t : Tabla) (traza : List Operacion) :
    (cerrarBloque env mensaje previo (.lanza t traza)).respuesta.status = 500 := rfl

theorem cerrarBloque_responde (env : Entorno) (mensaje : String)
    (previo : List Operacion) (r : Respuesta) (t : Tabla) (traza : List Operacion) :
    cerrarBloque env mensaje previo (.responde r t traza) = ⟨r, t, previo ++ traza⟩ := rfl

/-- A 200 answer of the update block comes from the branch that commits: a row with the
requested `Id` was found and the table holds the rewritten rows. -/
theorem transaccionActualizar_de_200 {env : Entorno} {t : Tabla} {imagenId : Int}
    {titulo : Texto} {req : CuerpoImagen} {mensaje : String}
    (hok : (cerrarBloque env mensaje [.conectar]
      (transaccionActualizar env t imagenId titulo req)).respuesta.status = 200) :
    ∃ actual otras,
      t.filas.filter (fun f => decide (f.Id = imagenId)) = actual :: otras ∧
      (cerrarBloque env mensaje [.conectar]
        (transaccionActualizar env t imagenId titulo req)).tabla =
        ⟨t.filas.map
          (fun f => if f.Id = imagenId then filaActualizada titulo req actual f else f),
          t.identidad⟩ := by
  cases hex : (t.filas.filter
    (fun f => mismoTitulo env.clave f.Titulo titulo && decide (f.Id ≠ imagenId))).map (·.Id) with
  | cons d ds =>
    exfalso
    simp only [transaccionActualizar, hex] at hok
    split_ifs at hok <;>
      first
        | (rw [cerrarBloque_lanza_status] at hok; exact absurd hok (by decide))
        | (rw [cerrarBloque_responde] at hok; simp only [] at hok; omega)
  | nil =>
    cases hid : t.filas.filter (fun f => decide (f.Id = imagenId)) with
    | nil =>
      exfalso
      simp only [transaccionActualizar, hex, hid] at hok
      split_ifs at hok <;>
        first
          | (rw [cerrarBloque_lanza_status] at hok; exact absurd hok (by decide))
          | (rw [cerrarBloque_responde] at hok; simp only [] at hok; omega)
    | cons actual otras =>
      refine ⟨actual, otras, rfl, ?_⟩
      simp only [transaccionActualizar, hex, hid] at hok ⊢
      split_ifs at hok ⊢ <;>
        first
          | (rw [cerrarBloque_lanza_status] at hok; exact absurd hok (by decide))
          | (rw [cerrarBloque_responde] at hok; simp only [] at hok; omega)
          | rfl

/-- A 200 answer of the update handler comes from the branch that commits: the title is
present, a row with the requested `Id` was found, and the table holds the rewritten rows. -/
theorem putForoImagenes_de_200 {env : Entorno} {t : Tabla} {imagenId : Int}
    {req : CuerpoImagen}
    (hok : (putForoImagenes env t imagenId req).respuesta.status = 200) :
    ∃ titulo actual otras, req.Titulo = some titulo ∧
      t.filas.filter (fun f => decide (f.Id = imagenId)) = actual :: otras ∧
      (putForoImagenes env t imagenId req).tabla =
        ⟨t.filas.map
          (fun f => if f.Id = imagenId then filaActualizada titulo req actual f else f),
          t.identidad⟩ := by
  by_cases hnv : esVerdadero req.Titulo = true
  · cases htit : req.Titulo with
    | none => rw [htit] at hnv; cases hnv
    | some titulo =>
      have hput : putForoImagenes env t imagenId req =
          if env.falla .conectar then
            ⟨⟨500, false, "Error al actualizar imagen del foro", none⟩, t, [.conectar]⟩
          else
            cerrarBloque env "Error al actualizar imagen del foro" [.conectar]
              (transaccionActualizar env t imagenId titulo req) := by
        rw [htit] at hnv
        simp only [putForoImagenes, hnv, htit, Bool.not_true, Bool.false_eq_true, if_false]
      rw [hput] at hok ⊢
      by_cases hc : env.falla .conectar = true
      · rw [if_pos hc] at hok
        simp only [] at hok
        omega
      · rw [if_neg hc] at hok ⊢
        obtain ⟨actual, otras, hid, htabla⟩ := transaccionActualizar_de_200 hok
        exact ⟨titulo, actual, otras, rfl, hid, htabla⟩
  · exfalso
    have hput : putForoImagenes env t imagenId req =
        ⟨⟨400, false, "El título es obligatorio", none⟩, t, []⟩ := by
      simp only [putForoImagenes, hnv, Bool.not_false, if_true]
    rw [hput] at hok
    simp only [] at hok
    omega

theorem limpieza_de_huerfanas_sin_efecto_witness :
    (Operacion.limpiarHuerfanos ∈
      (postForoImagenes entornoSinFallas tablaEjemplo (solicitudEjemplo "foto")).traza) ∧
    (∀ f ∈ tablaEjemplo.filas, f.Titulo ≠ "foto".toList) ∧
    (∃ f ∈ tablaConHuerfana.filas,
      esHuerfana entornoSinFallas.clave "logo".toList f = true) ∧
    (postForoImagenes entornoSinFallas tablaConHuerfana (solicitudEjemplo "logo")).tabla
      = tablaConHuerfana ∧
    (postForoImagenes entornoSinFallas tablaConHuerfana
      (solicitudEjemplo "logo")).respuesta.status = 409 :=
  ⟨by decide,
    ((limpieza_de_huerfanas_sin_efecto entornoSinFallas tablaEjemplo (solicitudEjemplo "foto")
      "foto".toList rfl).1 (by decide)).1,
    by decide,
    ((limpieza_de_huerfanas_sin_efecto entornoSinFallas tablaConHuerfana
      (solicitudEjemplo "logo") "logo".toList rfl).2 (by decide)).2.1,
    ((limpieza_de_huerfanas_sin_efecto entornoSinFallas tablaConHuerfana
      (solicitudEjemplo "logo") "logo".toList rfl).2 (by decide)).2.2 (by decide) rfl rfl rfl
      rfl rfl⟩

theorem fila_unica_por_Id {filas : List Fila}
    (hid : filas.Pairwise (fun f g => f.Id ≠ g.Id)) {a b : Fila}
    (ha : a ∈ filas) (hb : b ∈ filas) (hab : a.Id = b.Id) : a = b := by
  by_contra hne
  exact hid.forall (fun _ _ h => Ne.symm h) ha hb hne hab

/-- The fallback `actual || defecto` of the update handler, as the value sent to the driver. -/
theorem respaldo_o_defecto (actual : Option Texto) (defecto : Texto) :
    some (match oNulo actual with
      | some v => v
      | none => defecto) = if esVerdadero actual then actual else some defecto := by
  cases actual with
  | none => rfl
  | some v =>
    by_cases hv : esVerdadero (some v) = true
    · simp only [oNulo, hv, if_true]
    · simp only [oNulo, hv, Bool.false_eq_true, if_false]

/-- C28 (as stated, refuted): no row has `Id` 99 and row 1 holds the title `"logo"`, but
`sql.connect` rejects; the answer is 500, not 409. -/
theorem put_precedencia_contraejemplo :
    esVerdadero (solicitudSoloTitulo "logo").Titulo = true ∧
    (∀ f ∈ tablaEjemplo.filas, f.Id ≠ 99) ∧
    (∃ f ∈ tablaEjemplo.filas, some f.Titulo = (solicitudSoloTitulo "logo").Titulo) ∧
    (putForoImagenes entornoSinConexion tablaEjemplo 99
      (solicitudSoloTitulo "logo")).respuesta.status = 500 ∧
    (putForoImagenes entornoSinConexion tablaEjemplo 99
      (solicitudSoloTitulo "logo")).respuesta.status ≠ 409 := by
  decide

/-- C28 (amended): in the update handler the duplicate-title check takes precedence over the
existence check.  For a request with a non-empty `Titulo` whose target id does not exist
while some row holds the requested title, when the storage calls up to the rollback succeed
the answer is 409 carrying the id of a row that holds the title, and the table is left as it
was.  Whatever the storage calls do, the answer is never 404 while another row holds the
title: 404 is returned only when no other row holds it.  A row holds the title when the
database compares the two equal (`mismoTitulo`), which an exactly equal title always is. -/
theorem put_duplicado_antes_que_existencia (env : Entorno) (t : Tabla) (imagenId : Int)
    (req : CuerpoImagen) (titulo : Texto)
    (htit : req.Titulo = some titulo) (hnv : esVerdadero req.Titulo = true) :
    ((∀ f ∈ t.filas, f.Id ≠ imagenId) →
      (∃ f ∈ t.filas, mismoTitulo env.clave f.Titulo titulo = true) →
      env.falla .conectar = false → env.falla .iniciar = false →
      env.falla .bloquear = false → env.falla .buscarDuplicado = false →
      env.falla .revertir = false →
      ∃ g ∈ t.filas, mismoTitulo env.clave g.Titulo titulo = true ∧
        (putForoImagenes env t imagenId req).respuesta.status = 409 ∧
        (putForoImagenes env t imagenId req).respuesta.dataId = some g.Id ∧
        (putForoImagenes env t imagenId req).tabla = t) ∧
    ((∃ f ∈ t.filas, mismoTitulo env.clave f.Titulo titulo = true ∧ f.Id ≠ imagenId) →
      (putForoImagenes env t imagenId req).respuesta.status ≠ 404) ∧
    ((putForoImagenes env t imagenId req).respuesta.status = 404 →
      ∀ f ∈ t.filas, mismoTitulo env.clave f.Titulo titulo = true → f.Id = imagenId) := by
  have hno404 :
      (∃ f ∈ t.filas, mismoTitulo env.clave f.Titulo titulo = true ∧ f.Id ≠ imagenId) →
      (putForoImagenes env t imagenId req).respuesta.status ≠ 404 := by
    intro hdup h404
    rcases (@putForoImagenes_con_duplicado env t imagenId req titulo htit hnv hdup).1
      with h | h <;> omega
  refine ⟨?_, hno404, ?_⟩
  · intro hausente hdup hconectar hiniciar hbloquear hbuscar hrevertir
    have hex2 : ∃ f ∈ t.filas,
        (mismoTitulo env.clave f.Titulo titulo && decide (f.Id ≠ imagenId)) = true := by
      obtain ⟨f, hf, ht⟩ := hdup
      exact ⟨f, hf, by simp [ht, hausente f hf]⟩
    obtain ⟨g, resto, hfil, hg, hpg⟩ := filter_primero hex2
    have hgt : mismoTitulo env.clave g.Titulo titulo = true := by
      simp only [Bool.and_eq_true] at hpg
      exact hpg.1
    refine ⟨g, hg, hgt, ?_⟩
    rw [putForoImagenes_conflicto htit hnv hfil hconectar hiniciar hbloquear hbuscar
      hrevertir]
    exact ⟨rfl, rfl, rfl⟩
  · intro h404 f hf ht
    by_contra hne
    exact hno404 ⟨f, hf, ht, hne⟩ h404

theorem put_duplicado_antes_que_existencia_witness :
    (putForoImagenes entornoSinFallas tablaEjemplo 99
      (solicitudSoloTitulo "logo")).respuesta.status = 409 ∧
    (putForoImagenes entornoSinFallas tablaEjemplo 99
      (solicitudSoloTitulo "banner")).respuesta.status ≠ 404 :=
  ⟨match (put_duplicado_antes_que_existencia entornoSinFallas tablaEjemplo 99
      (solicitudSoloTitulo "logo") "logo".toList rfl (by decide)).1 (by decide) (by decide)
      rfl rfl rfl rfl rfl with
    | ⟨_, _, _, hstatus, _, _⟩ => hstatus,
   (put_duplicado_antes_que_existencia entornoSinFallas tablaEjemplo 99
      (solicitudSoloTitulo "banner") "banner".toList rfl (by decide)).2.1 (by decide)⟩

/-- C29 (the code at the failing input): after an update whose data URL has an empty media
type, row 1 stores the empty text as `TipoImagen`, which is not null.  A second update that
carries only the title commits; the claim, like the comment `Valor por defecto si es NULL` at
line 2304, keeps the current value, but `currentData.TipoImagen || 'image/jpeg'` replaces the
empty text and `image/jpeg` is stored. -/
theorem put_respaldo_reemplaza_texto_vacio :
    (putForoImagenes entornoSinFallas tablaEjemplo 1 solicitudTipoVacio).respuesta.status
      = 200 ∧
    (putForoImagenes entornoSinFallas tablaEjemplo 1 solicitudTipoVacio).tabla.filas.map
      (fun f => (f.Id, f.TipoImagen)) = [(1, some []), (2, some "image/png".toList)] ∧
    (solicitudSoloTitulo "logo").ImagenBase64 = none ∧
    (putForoImagenes entornoSinFallas
      (putForoImagenes entornoSinFallas tablaEjemplo 1 solicitudTipoVacio).tabla 1
      (solicitudSoloTitulo "logo")).respuesta.status = 200 ∧
    (putForoImagenes entornoSinFallas
      (putForoImagenes entornoSinFallas tablaEjemplo 1 solicitudTipoVacio).tabla 1
      (solicitudSoloTitulo "logo")).tabla.filas.map (fun f => (f.Id, f.TipoImagen))
      = [(1, some "image/jpeg".toList), (2, some "image/png".toList)] := by
  decide

/-- The frame of a successful update, as the code computes it.  When the update answers 200
on a table whose `Id`s are a key, exactly one row `actual` has the requested `Id`; every other
row is unchanged and stays in place, and the row that replaces `actual` keeps its `Id` and its
`FechaCreacion`.  When the request carries no `ImagenBase64` (absent or empty) the stored
image is unchanged, and a `TipoImagen` or `NombreArchivo` the request does not carry is taken
from the row's current value when that value is truthy, and is `image/jpeg` or `imagen.jpg`
otherwise. -/
theorem put_marco_de_actualizacion (env : Entorno) (t : Tabla) (imagenId : Int)
    (req : CuerpoImagen) (hbf : t.BienFormada)
    (hok : (putForoImagenes env t imagenId req).respuesta.status = 200) :
    ∃ actual nueva, actual ∈ t.filas ∧ actual.Id = imagenId ∧
      (∀ f ∈ t.filas, f.Id = imagenId → f = actual) ∧
      (putForoImagenes env t imagenId req).tabla.filas =
        t.filas.map (fun f => if f.Id = imagenId then nueva else f) ∧
      nueva.Id = actual.Id ∧ nueva.FechaCreacion = actual.FechaCreacion ∧
      (esVerdadero req.ImagenBase64 = false →
        nueva.ImagenBase64 = actual.ImagenBase64 ∧
        (esVerdadero req.TipoImagen = false →
          nueva.TipoImagen =
            if esVerdadero actual.TipoImagen then actual.TipoImagen
            else some "image/jpeg".toList) ∧
        (esVerdadero req.NombreArchivo = false →
          nueva.NombreArchivo =
            if esVerdadero actual.NombreArchivo then actual.NombreArchivo
            else some "imagen.jpg".toList)) := by
  obtain ⟨titulo, actual, otras, -, hid, htabla⟩ := putForoImagenes_de_200 hok
  have hmem : actual ∈ t.filas.filter (fun f => decide (f.Id = imagenId)) := by
    rw [hid]
    exact List.mem_cons_self _ _
  obtain ⟨hactual, hdec⟩ := List.mem_filter.mp hmem
  have hactualId : actual.Id = imagenId := by simpa using hdec
  have hunica : ∀ f ∈ t.filas, f.Id = imagenId → f = actual := fun f hf hfid =>
    fila_unica_por_Id hbf.1 hf hactual (hfid.trans hactualId.symm)
  refine ⟨actual, filaActualizada titulo req actual actual, hactual, hactualId, hunica, ?_,
    rfl, rfl, ?_⟩
  · rw [htabla]
    apply List.map_congr_left
    intro f hf
    by_cases hfid : f.Id = imagenId
    · rw [if_pos hfid, if_pos hfid, hunica f hf hfid]
    · rw [if_neg hfid, if_neg hfid]
  · intro himg
    refine ⟨?_, ?_, ?_⟩
    · simp only [filaActualizada, himg, Bool.false_eq_true, if_false]
    · intro htipo
      have hnulo : oNulo req.ImagenBase64 = none := by
        simp only [oNulo, himg, Bool.false_eq_true, if_false]
      simp only [filaActualizada, htipo, hnulo, Bool.false_eq_true, if_false]
      exact respaldo_o_defecto actual.TipoImagen "image/jpeg".toList
    · intro hnombre
      simp only [filaActualizada, hnombre, Bool.false_eq_true, if_false]
      exact respaldo_o_defecto actual.NombreArchivo "imagen.jpg".toList

theorem put_marco_de_actualizacion_witness :
    tablaEjemplo.BienFormada ∧
    (putForoImagenes entornoSinFallas tablaEjemplo 1
      (solicitudSoloTitulo "portada")).respuesta.status = 200 ∧
    ∃ actual nueva, actual ∈ tablaEjemplo.filas ∧ actual.Id = 1 ∧
      (∀ f ∈ tablaEjemplo.filas, f.Id = 1 → f = actual) ∧
      (putForoImagenes entornoSinFallas tablaEjemplo 1
        (solicitudSoloTitulo "portada")).tabla.filas =
        tablaEjemplo.filas.map (fun f => if f.Id = 1 then nueva else f) ∧
      nueva.Id = actual.Id ∧ nueva.FechaCreacion = actual.FechaCreacion ∧
      (esVerdadero (solicitudSoloTitulo "portada").ImagenBase64 = false →
        nueva.ImagenBase64 = actual.ImagenBase64 ∧
        (esVerdadero (solicitudSoloTitulo "portada").TipoImagen = false →
          nueva.TipoImagen =
            if esVerdadero actual.TipoImagen then actual.TipoImagen
            else some "image/jpeg".toList) ∧
        (esVerdadero (solicitudSoloTitulo "portada").NombreArchivo = false →
          nueva.NombreArchivo =
            if esVerdadero actual.NombreArchivo then actual.NombreArchivo
            else some "imagen.jpg".toList)) :=
  ⟨by decide, by decide,
    put_marco_de_actualizacion entornoSinFallas tablaEjemplo 1 (solicitudSoloTitulo "portada")
      (by decide) (by decide)⟩

/-! ## Claims on the administrative cleanup of duplicates -/

/-- A title held by some row has a most recent row. -/
theorem masReciente_existe {clave : Texto → Texto} {titulo : Texto} {filas : List Fila}
    (h : ∃ g ∈ filas, mismoTitulo clave g.Titulo titulo = true) :
    ∃ m, masReciente clave titulo filas = some m := by
  induction filas with
  | nil =>
    obtain ⟨g, hg, -⟩ := h
    cases hg
  | cons f resto ih =>
    by_cases hf : mismoTitulo clave f.Titulo titulo = true
    · cases hr : masReciente clave titulo resto with
      | none => exact ⟨f, by simp only [masReciente, hf, if_true, hr]⟩
      | some b =>
        by_cases hlt : f.FechaCreacion < b.FechaCreacion
        · exact ⟨b, by simp only [masReciente, hf, if_true, hr, hlt]⟩
        · exact ⟨f, by simp only [masReciente, hf, if_true, hr, hlt, if_false]⟩
    · obtain ⟨g, hg, hgt⟩ := h
      rcases List.mem_cons.mp hg with rfl | hg2
      · exact absurd hgt hf
      · obtain ⟨m, hm⟩ := ih ⟨g, hg2, hgt⟩
        exact ⟨m, by simp only [masReciente, hf, Bool.false_eq_true, if_false, hm]⟩

/-- What `masReciente` returns is a row of the table whose title the database compares equal
to the one asked for, and no such row is more recent. -/
theorem masReciente_some {clave : Texto → Texto} {titulo : Texto} {filas : List Fila}
    {m : Fila} (h : masReciente clave titulo filas = some m) :
    m ∈ filas ∧ mismoTitulo clave m.Titulo titulo = true ∧
    ∀ g ∈ filas, mismoTitulo clave g.Titulo titulo = true →
      g.FechaCreacion ≤ m.FechaCreacion := by
  induction filas generalizing m with
  | nil => cases h
  | cons f resto ih =>
    by_cases hf : mismoTitulo clave f.Titulo titulo = true
    · cases hr : masReciente clave titulo resto with
      | none =>
        have hnadie : ∀ g ∈ resto, mismoTitulo clave g.Titulo titulo ≠ true := by
          intro g hg hgt
          obtain ⟨m2, hm2⟩ := @masReciente_existe clave titulo resto ⟨g, hg, hgt⟩
          rw [hr] at hm2
          cases hm2
        simp only [masReciente, hf, if_true, hr] at h
        cases h
        refine ⟨List.mem_cons_self _ _, hf, ?_⟩
        intro g hg hgt
        rcases List.mem_cons.mp hg with rfl | hg2
        · exact le_refl _
        · exact absurd hgt (hnadie g hg2)
      | some b =>
        obtain ⟨hb, hbt, hbmax⟩ := ih hr
        simp only [masReciente, hf, if_true, hr] at h
        by_cases hlt : f.FechaCreacion < b.FechaCreacion
        · rw [if_pos hlt] at h
          cases h
          refine ⟨List.mem_cons_of_mem _ hb, hbt, ?_⟩
          intro g hg hgt
          rcases List.mem_cons.mp hg with rfl | hg2
          · exact le_of_lt hlt
          · exact hbmax g hg2 hgt
        · rw [if_neg hlt] at h
          cases h
          refine ⟨List.mem_cons_self _ _, hf, ?_⟩
          intro g hg hgt
          rcases List.mem_cons.mp hg with rfl | hg2
          · exact le_refl _
          · exact le_trans (hbmax g hg2 hgt) (not_lt.mp hlt)
    · simp only [masReciente, hf, Bool.false_eq_true, if_false] at h
      obtain ⟨hm, hmt, hmax⟩ := ih h
      refine ⟨List.mem_cons_of_mem _ hm, hmt, ?_⟩
      intro g hg hgt
      rcases List.mem_cons.mp hg with rfl | hg2
      · exact absurd hgt hf
      · exact hmax g hg2 hgt

/-- Two titles that the database compares equal have the same partition, hence the same most
recent row. -/
theorem masReciente_congr {clave : Texto → Texto} {a b : Texto}
    (h : mismoTitulo clave a b = true) (filas : List Fila) :
    masReciente clave a filas = masReciente clave b filas := by
  induction filas with
  | nil => rfl
  | cons f resto ih =>
    simp only [masReciente, ih, mismoTitulo_congr h f.Titulo]

/-- With `Id` a key, the first DELETE removes exactly the rows that are not the most recent
of their title. -/
theorem mem_idsDuplicados_iff {clave : Texto → Texto} {filas : List Fila}
    (hid : filas.Pairwise (fun f g => f.Id ≠ g.Id)) {f : Fila} (hf : f ∈ filas) :
    f.Id ∈ idsDuplicados clave filas ↔ masReciente clave f.Titulo filas ≠ some f := by
  constructor
  · intro h
    obtain ⟨g, hg, hgid⟩ := List.mem_map.mp h
    obtain ⟨hgm, hgd⟩ := List.mem_filter.mp hg
    have hgf : g = f := fila_unica_por_Id hid hgm hf hgid
    subst hgf
    simpa using hgd
  · intro h
    exact List.mem_map.mpr ⟨f, List.mem_filter.mpr ⟨hf, by simpa using h⟩, rfl⟩

theorem mem_borrarDuplicadosPorTitulo_iff {clave : Texto → Texto} {filas : List Fila}
    (hid : filas.Pairwise (fun f g => f.Id ≠ g.Id)) {f : Fila} :
    f ∈ borrarDuplicadosPorTitulo clave filas ↔
      f ∈ filas ∧ masReciente clave f.Titulo filas = some f := by
  constructor
  · intro h
    obtain ⟨hf, hd⟩ := List.mem_filter.mp h
    refine ⟨hf, ?_⟩
    by_contra hne
    have := (mem_idsDuplicados_iff hid hf).mpr hne
    simp only [decide_eq_true_eq] at hd
    exact hd this
  · rintro ⟨hf, hm⟩
    refine List.mem_filter.mpr ⟨hf, ?_⟩
    simp only [decide_eq_true_eq]
    intro hmem
    exact (mem_idsDuplicados_iff hid hf).mp hmem hm

theorem mem_borrarHuerfanas_iff {filas : List Fila} {f : Fila} :
    f ∈ borrarHuerfanas filas ↔ f ∈ filas ∧ sinImagen f = false := by
  simp [borrarHuerfanas, List.mem_filter]

theorem longitudUtf16_reverse (s : Texto) : longitudUtf16 s.reverse = longitudUtf16 s := by
  simp [longitudUtf16, List.sum_reverse]

theorem sqlLen_le_longitudUtf16 (s : Texto) : sqlLen s ≤ longitudUtf16 s := by
  have h := List.takeWhile_append_dropWhile (fun c => c == ' ') s.reverse
  have hsuma : longitudUtf16 s =
      longitudUtf16 (s.reverse.takeWhile (fun c => c == ' ')) +
        longitudUtf16 (s.reverse.dropWhile (fun c => c == ' ')) := by
    rw [← longitudUtf16_append, h, longitudUtf16_reverse]
  rw [sqlLen, sinBlancosFinales, longitudUtf16_reverse, hsuma]
  omega

/-- A 200 answer of the cleanup comes from the run in which both DELETEs were executed. -/
theorem limpiarDuplicados_de_200 {clave : Texto → Texto} {falla : PasoLimpieza → Bool}
    {t : Tabla} (hok : (limpiarDuplicados clave falla t).status = 200) :
    limpiarDuplicados clave falla t =
      ⟨200, true,
        some (t.filas.length - (borrarDuplicadosPorTitulo clave t.filas).length),
        some ((borrarDuplicadosPorTitulo clave t.filas).length -
          (borrarHuerfanas (borrarDuplicadosPorTitulo clave t.filas)).length),
        ⟨borrarHuerfanas (borrarDuplicadosPorTitulo clave t.filas), t.identidad⟩,
        [.conectar, .borrarDuplicados, .borrarHuerfanos]⟩ := by
  simp only [limpiarDuplicados] at hok ⊢
  split_ifs at hok ⊢ <;> first
    | rfl
    | (simp only [] at hok; omega)

set_option maxRecDepth 4000 in
/-- C22 (the code at the failing input): the title `"logo"` is held by row 1 (date 0, with
image) and by the more recent row 2 (date 5, `ImagenBase64` null).  The claim, like the
comment `mantener el más reciente` at line 2172, keeps the most recent row of the title; the
first DELETE keeps row 2 and removes row 1, the second DELETE removes row 2 for having no
image, and the cleanup answers 200 with no row titled `"logo"` left. -/
theorem limpieza_borra_la_mas_reciente :
    (limpiarDuplicados claveSinMayusculas limpiezaSinFallas tablaDuplicada).status = 200 ∧
    masReciente claveSinMayusculas "logo".toList tablaDuplicada.filas
      = some (filaHuerfana 2 "logo" 5) ∧
    filaHuerfana 2 "logo" 5 ∉
      (limpiarDuplicados claveSinMayusculas limpiezaSinFallas tablaDuplicada).tabla.filas ∧
    (limpiarDuplicados claveSinMayusculas limpiezaSinFallas tablaDuplicada).tabla.filas
      = [filaEjemplo 3 "banner"] ∧
    (limpiarDuplicados claveSinMayusculas limpiezaSinFallas tablaDuplicada).deletedByTitle
      = some 1 ∧
    (limpiarDuplicados claveSinMayusculas limpiezaSinFallas tablaDuplicada).deletedOrphans
      = some 1 := by
  decide

/-- What the cleanup does to the rows of one title.  After the cleanup answers 200 on a table
whose `Id`s are a key, for every title present before the call there is a row `m` of that
title (as the database compares titles) with the latest `FechaCreacion`; every other row of
that title has been deleted, and `m` itself is still present exactly when it has an image
whose `LEN` is at least 100. -/
theorem limpieza_mantiene_mas_reciente (clave : Texto → Texto) (falla : PasoLimpieza → Bool)
    (t : Tabla) (hbf : t.BienFormada) (hok : (limpiarDuplicados clave falla t).status = 200)
    (f : Fila) (hf : f ∈ t.filas) :
    ∃ m, masReciente clave f.Titulo t.filas = some m ∧ m ∈ t.filas ∧
      mismoTitulo clave m.Titulo f.Titulo = true ∧
      (∀ g ∈ t.filas, mismoTitulo clave g.Titulo f.Titulo = true →
        g.FechaCreacion ≤ m.FechaCreacion) ∧
      (∀ g ∈ t.filas, mismoTitulo clave g.Titulo f.Titulo = true → g ≠ m →
        g ∉ (limpiarDuplicados clave falla t).tabla.filas) ∧
      (m ∈ (limpiarDuplicados clave falla t).tabla.filas ↔ sinImagen m = false) := by
  obtain ⟨m, hm⟩ := @masReciente_existe clave f.Titulo t.filas
    ⟨f, hf, mismoTitulo_refl clave f.Titulo⟩
  obtain ⟨hmem, hmt, hmax⟩ := masReciente_some hm
  rw [limpiarDuplicados_de_200 hok]
  refine ⟨m, hm, hmem, hmt, hmax, ?_, ?_⟩
  · intro g _ hgt hne hg
    have h1 := (mem_borrarHuerfanas_iff.mp hg).1
    have h2 := ((mem_borrarDuplicadosPorTitulo_iff hbf.1).mp h1).2
    rw [masReciente_congr hgt, hm] at h2
    exact hne (Option.some.inj h2).symm
  · constructor
    · intro h
      exact (mem_borrarHuerfanas_iff.mp h).2
    · intro h
      refine mem_borrarHuerfanas_iff.mpr ⟨?_, h⟩
      refine (mem_borrarDuplicadosPorTitulo_iff hbf.1).mpr ⟨hmem, ?_⟩
      rw [masReciente_congr hmt]
      exact hm

set_option maxRecDepth 4000 in
/-- On a table with the rows `"logo"` (date 0) and `"Logo "` (date 5), which the database
compares equal, the cleanup deletes the older row 1 and keeps row 2. -/
theorem limpieza_mantiene_mas_reciente_witness :
    tablaPorLimpiar.BienFormada ∧
    (limpiarDuplicados claveSinMayusculas limpiezaSinFallas tablaPorLimpiar).status = 200 ∧
    filaEjemplo 1 "logo" ∈ tablaPorLimpiar.filas ∧
    (limpiarDuplicados claveSinMayusculas limpiezaSinFallas tablaPorLimpiar).tabla.filas.map
      (fun f => (f.Id, f.Titulo)) = [(2, "Logo ".toList)] ∧
    ∃ m, masReciente claveSinMayusculas (filaEjemplo 1 "logo").Titulo tablaPorLimpiar.filas
        = some m ∧
      m ∈ tablaPorLimpiar.filas ∧
      mismoTitulo claveSinMayusculas m.Titulo (filaEjemplo 1 "logo").Titulo = true ∧
      (∀ g ∈ tablaPorLimpiar.filas,
        mismoTitulo claveSinMayusculas g.Titulo (filaEjemplo 1 "logo").Titulo = true →
        g.FechaCreacion ≤ m.FechaCreacion) ∧
      (∀ g ∈ tablaPorLimpiar.filas,
        mismoTitulo claveSinMayusculas g.Titulo (filaEjemplo 1 "logo").Titulo = true →
        g ≠ m →
        g ∉ (limpiarDuplicados claveSinMayusculas limpiezaSinFallas
          tablaPorLimpiar).tabla.filas) ∧
      (m ∈ (limpiarDuplicados claveSinMayusculas limpiezaSinFallas
          tablaPorLimpiar).tabla.filas ↔ sinImagen m = false) :=
  ⟨by decide, by decide, by decide, by decide,
    limpieza_mantiene_mas_reciente claveSinMayusculas limpiezaSinFallas tablaPorLimpiar
      (by decide) (by decide) (filaEjemplo 1 "logo") (by decide)⟩

/-- C30: after the cleanup answers 200 on a table whose `Id`s are a key, no two remaining
rows share a title (not even as the database compares titles), every remaining row has a
non-null image of at least 100 characters (`LEN` at least 100, in UTF-16 code units as
`LEN` counts an `NVARCHAR`), the remaining rows are rows of the table before the call,
unchanged and in their order, and `deletedByTitle + deletedOrphans` is the number of rows
removed. -/
theorem limpieza_postcondicion (clave : Texto → Texto) (falla : PasoLimpieza → Bool)
    (t : Tabla) (hbf : t.BienFormada)
    (hok : (limpiarDuplicados clave falla t).status = 200) :
    (limpiarDuplicados clave falla t).tabla.TitulosUnicos ∧
    (limpiarDuplicados clave falla t).tabla.filas.Pairwise
      (fun f g => mismoTitulo clave f.Titulo g.Titulo = false) ∧
    (∀ f ∈ (limpiarDuplicados clave falla t).tabla.filas,
      ∃ img, f.ImagenBase64 = some img ∧ 100 ≤ sqlLen img ∧ 100 ≤ longitudUtf16 img) ∧
    (limpiarDuplicados clave falla t).tabla.filas.Sublist t.filas ∧
    (∃ porTitulo huerfanas,
      (limpiarDuplicados clave falla t).deletedByTitle = some porTitulo ∧
      (limpiarDuplicados clave falla t).deletedOrphans = some huerfanas ∧
      porTitulo + huerfanas + (limpiarDuplicados clave falla t).tabla.filas.length
        = t.filas.length) := by
  rw [limpiarDuplicados_de_200 hok]
  have hsub1 : (borrarDuplicadosPorTitulo clave t.filas).Sublist t.filas :=
    List.filter_sublist _
  have hsub2 : (borrarHuerfanas (borrarDuplicadosPorTitulo clave t.filas)).Sublist
      (borrarDuplicadosPorTitulo clave t.filas) := List.filter_sublist _
  have hids : (borrarDuplicadosPorTitulo clave t.filas).Pairwise (fun f g => f.Id ≠ g.Id) :=
    hbf.1.sublist hsub1
  have hdist : (borrarDuplicadosPorTitulo clave t.filas).Pairwise
      (fun f g => mismoTitulo clave f.Titulo g.Titulo = false) := by
    refine hids.imp_of_mem ?_
    intro a b ha hb hab
    by_contra hno
    have htab : mismoTitulo clave a.Titulo b.Titulo = true := by simpa using hno
    have h1 := ((mem_borrarDuplicadosPorTitulo_iff hbf.1).mp ha).2
    have h2 := ((mem_borrarDuplicadosPorTitulo_iff hbf.1).mp hb).2
    rw [masReciente_congr htab, h2] at h1
    exact hab (congrArg Fila.Id (Option.some.inj h1)).symm
  refine ⟨?_, hdist.sublist hsub2, ?_, hsub2.trans hsub1, ?_⟩
  · show List.Pairwise _ _
    exact (hdist.sublist hsub2).imp (fun h => ne_of_mismoTitulo_false h)
  · intro f hf
    have hsin := (mem_borrarHuerfanas_iff.mp hf).2
    cases himg : f.ImagenBase64 with
    | none => simp [sinImagen, himg] at hsin
    | some img =>
      have hlen : 100 ≤ sqlLen img := by
        simpa [sinImagen, himg] using hsin
      exact ⟨img, rfl, hlen, le_trans hlen (sqlLen_le_longitudUtf16 img)⟩
  · refine ⟨_, _, rfl, rfl, ?_⟩
    have h1 := hsub1.length_le
    have h2 := hsub2.length_le
    show t.filas.length - (borrarDuplicadosPorTitulo clave t.filas).length +
      ((borrarDuplicadosPorTitulo clave t.filas).length -
        (borrarHuerfanas (borrarDuplicadosPorTitulo clave t.filas)).length) +
      (borrarHuerfanas (borrarDuplicadosPorTitulo clave t.filas)).length = t.filas.length
    omega

set_option maxRecDepth 4000 in
theorem limpieza_postcondicion_witness :
    tablaPorLimpiar.BienFormada ∧
    (limpiarDuplicados claveSinMayusculas limpiezaSinFallas tablaPorLimpiar).status = 200 ∧
    (limpiarDuplicados claveSinMayusculas limpiezaSinFallas tablaPorLimpiar).tabla.filas.map
      (·.Id) = [2] ∧
    (limpiarDuplicados claveSinMayusculas limpiezaSinFallas tablaPorLimpiar).deletedByTitle
      = some 1 ∧
    (limpiarDuplicados claveSinMayusculas limpiezaSinFallas tablaPorLimpiar).deletedOrphans
      = some 1 ∧
    (limpiarDuplicados claveSinMayusculas limpiezaSinFallas tablaPorLimpiar).tabla.TitulosUnicos :=
  ⟨by decide, by decide, by decide, by decide, by decide,
    (limpieza_postcondicion claveSinMayusculas limpiezaSinFallas tablaPorLimpiar (by decide)
      (by decide)).1⟩

end Orasystem
